import Mathlib

/-!
Verification development for the Haraka-512 meet-in-the-middle attack
demonstrator (`haraka.cpp`).  Machine bytes are modelled as `Nat` values
below 256; an AES state is a structure of 16 named bytes and a Haraka
state is four such lanes.  Every operation is transcribed from the C++
source statement by statement: an in-place assignment `s[k] = e;`
becomes `let s := { s with bk := e }`, so the sequential semantics of
the source is preserved literally.
-/

set_option maxRecDepth 100000
set_option maxHeartbeats 16000000

/-- Byte table `table2` from the source (256 entries). -/
def table2 : List Nat := [
0, 2, 4, 6, 8, 10, 12, 14, 16, 18, 20, 22, 24, 26, 28, 30,
32, 34, 36, 38, 40, 42, 44, 46, 48, 50, 52, 54, 56, 58, 60, 62,
64, 66, 68, 70, 72, 74, 76, 78, 80, 82, 84, 86, 88, 90, 92, 94,
96, 98, 100, 102, 104, 106, 108, 110, 112, 114, 116, 118, 120, 122, 124, 126,
128, 130, 132, 134, 136, 138, 140, 142, 144, 146, 148, 150, 152, 154, 156, 158,
160, 162, 164, 166, 168, 170, 172, 174, 176, 178, 180, 182, 184, 186, 188, 190,
192, 194, 196, 198, 200, 202, 204, 206, 208, 210, 212, 214, 216, 218, 220, 222,
224, 226, 228, 230, 232, 234, 236, 238, 240, 242, 244, 246, 248, 250, 252, 254,
27, 25, 31, 29, 19, 17, 23, 21, 11, 9, 15, 13, 3, 1, 7, 5,
59, 57, 63, 61, 51, 49, 55, 53, 43, 41, 47, 45, 35, 33, 39, 37,
91, 89, 95, 93, 83, 81, 87, 85, 75, 73, 79, 77, 67, 65, 71, 69,
123, 121, 127, 125, 115, 113, 119, 117, 107, 105, 111, 109, 99, 97, 103, 101,
155, 153, 159, 157, 147, 145, 151, 149, 139, 137, 143, 141, 131, 129, 135, 133,
187, 185, 191, 189, 179, 177, 183, 181, 171, 169, 175, 173, 163, 161, 167, 165,
219, 217, 223, 221, 211, 209, 215, 213, 203, 201, 207, 205, 195, 193, 199, 197,
251, 249, 255, 253, 243, 241, 247, 245, 235, 233, 239, 237, 227, 225, 231, 229]

/-- Byte table `table3` from the source (256 entries). -/
def table3 : List Nat := [
0, 3, 6, 5, 12, 15, 10, 9, 24, 27, 30, 29, 20, 23, 18, 17,
48, 51, 54, 53, 60, 63, 58, 57, 40, 43, 46, 45, 36, 39, 34, 33,
96, 99, 102, 101, 108, 111, 106, 105, 120, 123, 126, 125, 116, 119, 114, 113,
80, 83, 86, 85, 92, 95, 90, 89, 72, 75, 78, 77, 68, 71, 66, 65,
192, 195, 198, 197, 204, 207, 202, 201, 216, 219, 222, 221, 212, 215, 210, 209,
240, 243, 246, 245, 252, 255, 250, 249, 232, 235, 238, 237, 228, 231, 226, 225,
160, 163, 166, 165, 172, 175, 170, 169, 184, 187, 190, 189, 180, 183, 178, 177,
144, 147, 150, 149, 156, 159, 154, 153, 136, 139, 142, 141, 132, 135, 130, 129,
155, 152, 157, 158, 151, 148, 145, 146, 131, 128, 133, 134, 143, 140, 137, 138,
171, 168, 173, 174, 167, 164, 161, 162, 179, 176, 181, 182, 191, 188, 185, 186,
251, 248, 253, 254, 247, 244, 241, 242, 227, 224, 229, 230, 239, 236, 233, 234,
203, 200, 205, 206, 199, 196, 193, 194, 211, 208, 213, 214, 223, 220, 217, 218,
91, 88, 93, 94, 87, 84, 81, 82, 67, 64, 69, 70, 79, 76, 73, 74,
107, 104, 109, 110, 103, 100, 97, 98, 115, 112, 117, 118, 127, 124, 121, 122,
59, 56, 61, 62, 55, 52, 49, 50, 35, 32, 37, 38, 47, 44, 41, 42,
11, 8, 13, 14, 7, 4, 1, 2, 19, 16, 21, 22, 31, 28, 25, 26]

/-- Byte table `table7` from the source (256 entries). -/
def table7 : List Nat := [
0, 7, 14, 9, 28, 27, 18, 21, 56, 63, 54, 49, 36, 35, 42, 45,
112, 119, 126, 121, 108, 107, 98, 101, 72, 79, 70, 65, 84, 83, 90, 93,
224, 231, 238, 233, 252, 251, 242, 245, 216, 223, 214, 209, 196, 195, 202, 205,
144, 151, 158, 153, 140, 139, 130, 133, 168, 175, 166, 161, 180, 179, 186, 189,
219, 220, 213, 210, 199, 192, 201, 206, 227, 228, 237, 234, 255, 248, 241, 246,
171, 172, 165, 162, 183, 176, 185, 190, 147, 148, 157, 154, 143, 136, 129, 134,
59, 60, 53, 50, 39, 32, 41, 46, 3, 4, 13, 10, 31, 24, 17, 22,
75, 76, 69, 66, 87, 80, 89, 94, 115, 116, 125, 122, 111, 104, 97, 102,
173, 170, 163, 164, 177, 182, 191, 184, 149, 146, 155, 156, 137, 142, 135, 128,
221, 218, 211, 212, 193, 198, 207, 200, 229, 226, 235, 236, 249, 254, 247, 240,
77, 74, 67, 68, 81, 86, 95, 88, 117, 114, 123, 124, 105, 110, 103, 96,
61, 58, 51, 52, 33, 38, 47, 40, 5, 2, 11, 12, 25, 30, 23, 16,
118, 113, 120, 127, 106, 109, 100, 99, 78, 73, 64, 71, 82, 85, 92, 91,
6, 1, 8, 15, 26, 29, 20, 19, 62, 57, 48, 55, 34, 37, 44, 43,
150, 145, 152, 159, 138, 141, 132, 131, 174, 169, 160, 167, 178, 181, 188, 187,
230, 225, 232, 239, 250, 253, 244, 243, 222, 217, 208, 215, 194, 197, 204, 203]

/-- Byte table `table9` from the source (256 entries). -/
def table9 : List Nat := [
0, 9, 18, 27, 36, 45, 54, 63, 72, 65, 90, 83, 108, 101, 126, 119,
144, 153, 130, 139, 180, 189, 166, 175, 216, 209, 202, 195, 252, 245, 238, 231,
59, 50, 41, 32, 31, 22, 13, 4, 115, 122, 97, 104, 87, 94, 69, 76,
171, 162, 185, 176, 143, 134, 157, 148, 227, 234, 241, 248, 199, 206, 213, 220,
118, 127, 100, 109, 82, 91, 64, 73, 62, 55, 44, 37, 26, 19, 8, 1,
230, 239, 244, 253, 194, 203, 208, 217, 174, 167, 188, 181, 138, 131, 152, 145,
77, 68, 95, 86, 105, 96, 123, 114, 5, 12, 23, 30, 33, 40, 51, 58,
221, 212, 207, 198, 249, 240, 235, 226, 149, 156, 135, 142, 177, 184, 163, 170,
236, 229, 254, 247, 200, 193, 218, 211, 164, 173, 182, 191, 128, 137, 146, 155,
124, 117, 110, 103, 88, 81, 74, 67, 52, 61, 38, 47, 16, 25, 2, 11,
215, 222, 197, 204, 243, 250, 225, 232, 159, 150, 141, 132, 187, 178, 169, 160,
71, 78, 85, 92, 99, 106, 113, 120, 15, 6, 29, 20, 43, 34, 57, 48,
154, 147, 136, 129, 190, 183, 172, 165, 210, 219, 192, 201, 246, 255, 228, 237,
10, 3, 24, 17, 46, 39, 60, 53, 66, 75, 80, 89, 102, 111, 116, 125,
161, 168, 179, 186, 133, 140, 151, 158, 233, 224, 251, 242, 205, 196, 223, 214,
49, 56, 35, 42, 21, 28, 7, 14, 121, 112, 107, 98, 93, 84, 79, 70]

/-- Byte table `table11` from the source (256 entries). -/
def table11 : List Nat := [
0, 11, 22, 29, 44, 39, 58, 49, 88, 83, 78, 69, 116, 127, 98, 105,
176, 187, 166, 173, 156, 151, 138, 129, 232, 227, 254, 245, 196, 207, 210, 217,
123, 112, 109, 102, 87, 92, 65, 74, 35, 40, 53, 62, 15, 4, 25, 18,
203, 192, 221, 214, 231, 236, 241, 250, 147, 152, 133, 142, 191, 180, 169, 162,
246, 253, 224, 235, 218, 209, 204, 199, 174, 165, 184, 179, 130, 137, 148, 159,
70, 77, 80, 91, 106, 97, 124, 119, 30, 21, 8, 3, 50, 57, 36, 47,
141, 134, 155, 144, 161, 170, 183, 188, 213, 222, 195, 200, 249, 242, 239, 228,
61, 54, 43, 32, 17, 26, 7, 12, 101, 110, 115, 120, 73, 66, 95, 84,
247, 252, 225, 234, 219, 208, 205, 198, 175, 164, 185, 178, 131, 136, 149, 158,
71, 76, 81, 90, 107, 96, 125, 118, 31, 20, 9, 2, 51, 56, 37, 46,
140, 135, 154, 145, 160, 171, 182, 189, 212, 223, 194, 201, 248, 243, 238, 229,
60, 55, 42, 33, 16, 27, 6, 13, 100, 111, 114, 121, 72, 67, 94, 85,
1, 10, 23, 28, 45, 38, 59, 48, 89, 82, 79, 68, 117, 126, 99, 104,
177, 186, 167, 172, 157, 150, 139, 128, 233, 226, 255, 244, 197, 206, 211, 216,
122, 113, 108, 103, 86, 93, 64, 75, 34, 41, 52, 63, 14, 5, 24, 19,
202, 193, 220, 215, 230, 237, 240, 251, 146, 153, 132, 143, 190, 181, 168, 163]

/-- Byte table `table13` from the source (256 entries). -/
def table13 : List Nat := [
0, 13, 26, 23, 52, 57, 46, 35, 104, 101, 114, 127, 92, 81, 70, 75,
208, 221, 202, 199, 228, 233, 254, 243, 184, 181, 162, 175, 140, 129, 150, 155,
187, 182, 161, 172, 143, 130, 149, 152, 211, 222, 201, 196, 231, 234, 253, 240,
107, 102, 113, 124, 95, 82, 69, 72, 3, 14, 25, 20, 55, 58, 45, 32,
109, 96, 119, 122, 89, 84, 67, 78, 5, 8, 31, 18, 49, 60, 43, 38,
189, 176, 167, 170, 137, 132, 147, 158, 213, 216, 207, 194, 225, 236, 251, 246,
214, 219, 204, 193, 226, 239, 248, 245, 190, 179, 164, 169, 138, 135, 144, 157,
6, 11, 28, 17, 50, 63, 40, 37, 110, 99, 116, 121, 90, 87, 64, 77,
218, 215, 192, 205, 238, 227, 244, 249, 178, 191, 168, 165, 134, 139, 156, 145,
10, 7, 16, 29, 62, 51, 36, 41, 98, 111, 120, 117, 86, 91, 76, 65,
97, 108, 123, 118, 85, 88, 79, 66, 9, 4, 19, 30, 61, 48, 39, 42,
177, 188, 171, 166, 133, 136, 159, 146, 217, 212, 195, 206, 237, 224, 247, 250,
183, 186, 173, 160, 131, 142, 153, 148, 223, 210, 197, 200, 235, 230, 241, 252,
103, 106, 125, 112, 83, 94, 73, 68, 15, 2, 21, 24, 59, 54, 33, 44,
12, 1, 22, 27, 56, 53, 34, 47, 100, 105, 126, 115, 80, 93, 74, 71,
220, 209, 198, 203, 232, 229, 242, 255, 180, 185, 174, 163, 128, 141, 154, 151]

/-- Byte table `table14` from the source (256 entries). -/
def table14 : List Nat := [
0, 14, 28, 18, 56, 54, 36, 42, 112, 126, 108, 98, 72, 70, 84, 90,
224, 238, 252, 242, 216, 214, 196, 202, 144, 158, 140, 130, 168, 166, 180, 186,
219, 213, 199, 201, 227, 237, 255, 241, 171, 165, 183, 185, 147, 157, 143, 129,
59, 53, 39, 41, 3, 13, 31, 17, 75, 69, 87, 89, 115, 125, 111, 97,
173, 163, 177, 191, 149, 155, 137, 135, 221, 211, 193, 207, 229, 235, 249, 247,
77, 67, 81, 95, 117, 123, 105, 103, 61, 51, 33, 47, 5, 11, 25, 23,
118, 120, 106, 100, 78, 64, 82, 92, 6, 8, 26, 20, 62, 48, 34, 44,
150, 152, 138, 132, 174, 160, 178, 188, 230, 232, 250, 244, 222, 208, 194, 204,
65, 79, 93, 83, 121, 119, 101, 107, 49, 63, 45, 35, 9, 7, 21, 27,
161, 175, 189, 179, 153, 151, 133, 139, 209, 223, 205, 195, 233, 231, 245, 251,
154, 148, 134, 136, 162, 172, 190, 176, 234, 228, 246, 248, 210, 220, 206, 192,
122, 116, 102, 104, 66, 76, 94, 80, 10, 4, 22, 24, 50, 60, 46, 32,
236, 226, 240, 254, 212, 218, 200, 198, 156, 146, 128, 142, 164, 170, 184, 182,
12, 2, 16, 30, 52, 58, 40, 38, 124, 114, 96, 110, 68, 74, 88, 86,
55, 57, 43, 37, 15, 1, 19, 29, 71, 73, 91, 85, 127, 113, 99, 109,
215, 217, 203, 197, 239, 225, 243, 253, 167, 169, 187, 181, 159, 145, 131, 141]

/-- Byte table `table68` from the source (256 entries). -/
def table68 : List Nat := [
0, 68, 136, 204, 11, 79, 131, 199, 22, 82, 158, 218, 29, 89, 149, 209,
44, 104, 164, 224, 39, 99, 175, 235, 58, 126, 178, 246, 49, 117, 185, 253,
88, 28, 208, 148, 83, 23, 219, 159, 78, 10, 198, 130, 69, 1, 205, 137,
116, 48, 252, 184, 127, 59, 247, 179, 98, 38, 234, 174, 105, 45, 225, 165,
176, 244, 56, 124, 187, 255, 51, 119, 166, 226, 46, 106, 173, 233, 37, 97,
156, 216, 20, 80, 151, 211, 31, 91, 138, 206, 2, 70, 129, 197, 9, 77,
232, 172, 96, 36, 227, 167, 107, 47, 254, 186, 118, 50, 245, 177, 125, 57,
196, 128, 76, 8, 207, 139, 71, 3, 210, 150, 90, 30, 217, 157, 81, 21,
123, 63, 243, 183, 112, 52, 248, 188, 109, 41, 229, 161, 102, 34, 238, 170,
87, 19, 223, 155, 92, 24, 212, 144, 65, 5, 201, 141, 74, 14, 194, 134,
35, 103, 171, 239, 40, 108, 160, 228, 53, 113, 189, 249, 62, 122, 182, 242,
15, 75, 135, 195, 4, 64, 140, 200, 25, 93, 145, 213, 18, 86, 154, 222,
203, 143, 67, 7, 192, 132, 72, 12, 221, 153, 85, 17, 214, 146, 94, 26,
231, 163, 111, 43, 236, 168, 100, 32, 241, 181, 121, 61, 250, 190, 114, 54,
147, 215, 27, 95, 152, 220, 16, 84, 133, 193, 13, 73, 142, 202, 6, 66,
191, 251, 55, 115, 180, 240, 60, 120, 169, 237, 33, 101, 162, 230, 42, 110]

/-- Byte table `table71` from the source (256 entries). -/
def table71 : List Nat := [
0, 71, 142, 201, 7, 64, 137, 206, 14, 73, 128, 199, 9, 78, 135, 192,
28, 91, 146, 213, 27, 92, 149, 210, 18, 85, 156, 219, 21, 82, 155, 220,
56, 127, 182, 241, 63, 120, 177, 246, 54, 113, 184, 255, 49, 118, 191, 248,
36, 99, 170, 237, 35, 100, 173, 234, 42, 109, 164, 227, 45, 106, 163, 228,
112, 55, 254, 185, 119, 48, 249, 190, 126, 57, 240, 183, 121, 62, 247, 176,
108, 43, 226, 165, 107, 44, 229, 162, 98, 37, 236, 171, 101, 34, 235, 172,
72, 15, 198, 129, 79, 8, 193, 134, 70, 1, 200, 143, 65, 6, 207, 136,
84, 19, 218, 157, 83, 20, 221, 154, 90, 29, 212, 147, 93, 26, 211, 148,
224, 167, 110, 41, 231, 160, 105, 46, 238, 169, 96, 39, 233, 174, 103, 32,
252, 187, 114, 53, 251, 188, 117, 50, 242, 181, 124, 59, 245, 178, 123, 60,
216, 159, 86, 17, 223, 152, 81, 22, 214, 145, 88, 31, 209, 150, 95, 24,
196, 131, 74, 13, 195, 132, 77, 10, 202, 141, 68, 3, 205, 138, 67, 4,
144, 215, 30, 89, 151, 208, 25, 94, 158, 217, 16, 87, 153, 222, 23, 80,
140, 203, 2, 69, 139, 204, 5, 66, 130, 197, 12, 75, 133, 194, 11, 76,
168, 239, 38, 97, 175, 232, 33, 102, 166, 225, 40, 111, 161, 230, 47, 104,
180, 243, 58, 125, 179, 244, 61, 122, 186, 253, 52, 115, 189, 250, 51, 116]

/-- Byte table `table201` from the source (256 entries). -/
def table201 : List Nat := [
0, 201, 137, 64, 9, 192, 128, 73, 18, 219, 155, 82, 27, 210, 146, 91,
36, 237, 173, 100, 45, 228, 164, 109, 54, 255, 191, 118, 63, 246, 182, 127,
72, 129, 193, 8, 65, 136, 200, 1, 90, 147, 211, 26, 83, 154, 218, 19,
108, 165, 229, 44, 101, 172, 236, 37, 126, 183, 247, 62, 119, 190, 254, 55,
144, 89, 25, 208, 153, 80, 16, 217, 130, 75, 11, 194, 139, 66, 2, 203,
180, 125, 61, 244, 189, 116, 52, 253, 166, 111, 47, 230, 175, 102, 38, 239,
216, 17, 81, 152, 209, 24, 88, 145, 202, 3, 67, 138, 195, 10, 74, 131,
252, 53, 117, 188, 245, 60, 124, 181, 238, 39, 103, 174, 231, 46, 110, 167,
59, 242, 178, 123, 50, 251, 187, 114, 41, 224, 160, 105, 32, 233, 169, 96,
31, 214, 150, 95, 22, 223, 159, 86, 13, 196, 132, 77, 4, 205, 141, 68,
115, 186, 250, 51, 122, 179, 243, 58, 97, 168, 232, 33, 104, 161, 225, 40,
87, 158, 222, 23, 94, 151, 215, 30, 69, 140, 204, 5, 76, 133, 197, 12,
171, 98, 34, 235, 162, 107, 43, 226, 185, 112, 48, 249, 176, 121, 57, 240,
143, 70, 6, 207, 134, 79, 15, 198, 157, 84, 20, 221, 148, 93, 29, 212,
227, 42, 106, 163, 234, 35, 99, 170, 241, 56, 120, 177, 248, 49, 113, 184,
199, 14, 78, 135, 206, 7, 71, 142, 213, 28, 92, 149, 220, 21, 85, 156]

/-- Byte table `table203` from the source (256 entries). -/
def table203 : List Nat := [
0, 203, 141, 70, 1, 202, 140, 71, 2, 201, 143, 68, 3, 200, 142, 69,
4, 207, 137, 66, 5, 206, 136, 67, 6, 205, 139, 64, 7, 204, 138, 65,
8, 195, 133, 78, 9, 194, 132, 79, 10, 193, 135, 76, 11, 192, 134, 77,
12, 199, 129, 74, 13, 198, 128, 75, 14, 197, 131, 72, 15, 196, 130, 73,
16, 219, 157, 86, 17, 218, 156, 87, 18, 217, 159, 84, 19, 216, 158, 85,
20, 223, 153, 82, 21, 222, 152, 83, 22, 221, 155, 80, 23, 220, 154, 81,
24, 211, 149, 94, 25, 210, 148, 95, 26, 209, 151, 92, 27, 208, 150, 93,
28, 215, 145, 90, 29, 214, 144, 91, 30, 213, 147, 88, 31, 212, 146, 89,
32, 235, 173, 102, 33, 234, 172, 103, 34, 233, 175, 100, 35, 232, 174, 101,
36, 239, 169, 98, 37, 238, 168, 99, 38, 237, 171, 96, 39, 236, 170, 97,
40, 227, 165, 110, 41, 226, 164, 111, 42, 225, 167, 108, 43, 224, 166, 109,
44, 231, 161, 106, 45, 230, 160, 107, 46, 229, 163, 104, 47, 228, 162, 105,
48, 251, 189, 118, 49, 250, 188, 119, 50, 249, 191, 116, 51, 248, 190, 117,
52, 255, 185, 114, 53, 254, 184, 115, 54, 253, 187, 112, 55, 252, 186, 113,
56, 243, 181, 126, 57, 242, 180, 127, 58, 241, 183, 124, 59, 240, 182, 125,
60, 247, 177, 122, 61, 246, 176, 123, 62, 245, 179, 120, 63, 244, 178, 121]

/-- Byte table `sbox_table` from the source (256 entries). -/
def sbox_table : List Nat := [
99, 124, 119, 123, 242, 107, 111, 197, 48, 1, 103, 43, 254, 215, 171, 118,
202, 130, 201, 125, 250, 89, 71, 240, 173, 212, 162, 175, 156, 164, 114, 192,
183, 253, 147, 38, 54, 63, 247, 204, 52, 165, 229, 241, 113, 216, 49, 21,
4, 199, 35, 195, 24, 150, 5, 154, 7, 18, 128, 226, 235, 39, 178, 117,
9, 131, 44, 26, 27, 110, 90, 160, 82, 59, 214, 179, 41, 227, 47, 132,
83, 209, 0, 237, 32, 252, 177, 91, 106, 203, 190, 57, 74, 76, 88, 207,
208, 239, 170, 251, 67, 77, 51, 133, 69, 249, 2, 127, 80, 60, 159, 168,
81, 163, 64, 143, 146, 157, 56, 245, 188, 182, 218, 33, 16, 255, 243, 210,
205, 12, 19, 236, 95, 151, 68, 23, 196, 167, 126, 61, 100, 93, 25, 115,
96, 129, 79, 220, 34, 42, 144, 136, 70, 238, 184, 20, 222, 94, 11, 219,
224, 50, 58, 10, 73, 6, 36, 92, 194, 211, 172, 98, 145, 149, 228, 121,
231, 200, 55, 109, 141, 213, 78, 169, 108, 86, 244, 234, 101, 122, 174, 8,
186, 120, 37, 46, 28, 166, 180, 198, 232, 221, 116, 31, 75, 189, 139, 138,
112, 62, 181, 102, 72, 3, 246, 14, 97, 53, 87, 185, 134, 193, 29, 158,
225, 248, 152, 17, 105, 217, 142, 148, 155, 30, 135, 233, 206, 85, 40, 223,
140, 161, 137, 13, 191, 230, 66, 104, 65, 153, 45, 15, 176, 84, 187, 22]

/-- Byte table `invsbox_table` from the source (256 entries). -/
def invsbox_table : List Nat := [
82, 9, 106, 213, 48, 54, 165, 56, 191, 64, 163, 158, 129, 243, 215, 251,
124, 227, 57, 130, 155, 47, 255, 135, 52, 142, 67, 68, 196, 222, 233, 203,
84, 123, 148, 50, 166, 194, 35, 61, 238, 76, 149, 11, 66, 250, 195, 78,
8, 46, 161, 102, 40, 217, 36, 178, 118, 91, 162, 73, 109, 139, 209, 37,
114, 248, 246, 100, 134, 104, 152, 22, 212, 164, 92, 204, 93, 101, 182, 146,
108, 112, 72, 80, 253, 237, 185, 218, 94, 21, 70, 87, 167, 141, 157, 132,
144, 216, 171, 0, 140, 188, 211, 10, 247, 228, 88, 5, 184, 179, 69, 6,
208, 44, 30, 143, 202, 63, 15, 2, 193, 175, 189, 3, 1, 19, 138, 107,
58, 145, 17, 65, 79, 103, 220, 234, 151, 242, 207, 206, 240, 180, 230, 115,
150, 172, 116, 34, 231, 173, 53, 133, 226, 249, 55, 232, 28, 117, 223, 110,
71, 241, 26, 113, 29, 41, 197, 137, 111, 183, 98, 14, 170, 24, 190, 27,
252, 86, 62, 75, 198, 210, 121, 32, 154, 219, 192, 254, 120, 205, 90, 244,
31, 221, 168, 51, 136, 7, 199, 49, 177, 18, 16, 89, 39, 128, 236, 95,
96, 81, 127, 169, 25, 181, 74, 13, 45, 229, 122, 159, 147, 201, 156, 239,
160, 224, 59, 77, 174, 42, 245, 176, 200, 235, 187, 60, 131, 83, 153, 97,
23, 43, 4, 126, 186, 119, 214, 38, 225, 105, 20, 99, 85, 33, 12, 125]

/-- Round constants of Haraka as 40 rows of 16 bytes (`haraka_rcons_table` in the source). -/
def haraka_rcons_table : List (List Nat) := [
[157, 123, 129, 117, 240, 254, 197, 178, 10, 192, 32, 230, 76, 112, 132, 6],
[23, 247, 8, 47, 164, 107, 15, 100, 107, 160, 243, 136, 225, 180, 102, 139],
[20, 145, 2, 159, 96, 157, 2, 207, 152, 132, 242, 83, 45, 222, 2, 52],
[121, 79, 91, 253, 175, 188, 243, 187, 8, 79, 123, 46, 230, 234, 214, 14],
[68, 112, 57, 190, 28, 205, 238, 121, 139, 68, 114, 72, 203, 176, 207, 203],
[123, 5, 138, 43, 237, 53, 83, 141, 183, 50, 144, 110, 238, 205, 234, 126],
[27, 239, 79, 218, 97, 39, 65, 226, 208, 124, 46, 94, 67, 143, 194, 103],
[59, 11, 199, 31, 226, 253, 95, 103, 7, 204, 202, 175, 176, 217, 36, 41],
[238, 101, 212, 185, 202, 143, 219, 236, 233, 127, 134, 230, 241, 99, 77, 171],
[51, 126, 3, 173, 79, 64, 42, 91, 100, 205, 183, 212, 132, 191, 48, 28],
[0, 152, 246, 141, 46, 139, 2, 105, 191, 35, 23, 148, 185, 11, 204, 178],
[138, 45, 157, 92, 200, 158, 170, 74, 114, 85, 111, 222, 166, 120, 4, 250],
[212, 159, 18, 41, 46, 79, 250, 14, 18, 42, 119, 107, 43, 159, 180, 223],
[238, 18, 106, 187, 174, 17, 214, 50, 54, 162, 73, 244, 68, 3, 161, 30],
[166, 236, 168, 156, 201, 0, 150, 95, 132, 0, 5, 75, 136, 73, 4, 175],
[236, 147, 229, 39, 227, 199, 162, 120, 79, 156, 25, 157, 216, 94, 2, 33],
[115, 1, 212, 130, 205, 46, 40, 185, 183, 201, 89, 167, 248, 170, 58, 191],
[107, 125, 48, 16, 217, 239, 242, 55, 23, 176, 134, 97, 13, 112, 96, 98],
[198, 154, 252, 246, 83, 145, 194, 129, 67, 4, 48, 33, 194, 69, 202, 90],
[58, 148, 209, 54, 232, 146, 175, 44, 187, 104, 107, 34, 60, 151, 35, 146],
[180, 113, 16, 229, 88, 185, 186, 108, 235, 134, 88, 34, 56, 146, 191, 211],
[141, 18, 225, 36, 221, 253, 61, 147, 119, 198, 240, 174, 229, 60, 134, 219],
[177, 18, 34, 203, 227, 141, 228, 131, 156, 160, 235, 255, 104, 98, 96, 187],
[125, 247, 43, 199, 78, 26, 185, 45, 156, 209, 228, 226, 220, 211, 75, 115],
[78, 146, 179, 44, 196, 21, 20, 75, 67, 27, 48, 97, 195, 71, 187, 67],
[153, 104, 235, 22, 221, 49, 178, 3, 246, 239, 7, 231, 168, 117, 167, 219],
[44, 71, 202, 126, 2, 35, 94, 142, 119, 89, 117, 60, 75, 97, 243, 109],
[249, 23, 134, 184, 185, 229, 27, 109, 119, 125, 222, 214, 23, 90, 167, 205],
[93, 238, 70, 169, 157, 6, 108, 157, 170, 233, 168, 107, 240, 67, 107, 236],
[193, 39, 243, 59, 89, 17, 83, 162, 43, 51, 87, 249, 80, 105, 30, 203],
[217, 208, 14, 96, 83, 3, 237, 228, 156, 97, 218, 0, 117, 12, 238, 44],
[80, 163, 164, 99, 188, 186, 187, 128, 171, 12, 233, 150, 161, 165, 177, 240],
[57, 202, 141, 147, 48, 222, 13, 171, 136, 41, 150, 94, 2, 177, 61, 174],
[66, 180, 117, 46, 168, 243, 20, 136, 11, 164, 84, 213, 56, 143, 187, 23],
[246, 22, 10, 54, 121, 183, 182, 174, 215, 127, 66, 95, 91, 138, 187, 52],
[222, 175, 186, 255, 24, 89, 206, 67, 56, 84, 229, 203, 65, 82, 246, 38],
[120, 201, 158, 131, 247, 156, 202, 162, 106, 2, 243, 185, 84, 154, 233, 76],
[53, 18, 144, 34, 40, 110, 192, 64, 190, 247, 223, 27, 26, 165, 81, 174],
[207, 89, 166, 72, 15, 188, 115, 193, 43, 210, 126, 186, 60, 97, 193, 160],
[161, 157, 197, 233, 253, 189, 214, 74, 136, 130, 40, 2, 3, 204, 106, 117]]

/-- The 256 bytes of `table2` packed little-endian into one numeral (entry b is byte b). -/
def P_table2 : Nat := 29022917302579095964124461949858013542724473648904841737866655790348712823699949138665809059499827693295928210552345624834464780210271501149743171624365253056144549668571949842842198483757917673820358967127239403036664387516565901472030220598252923801785930419531446491996907423676964199699175720602385906879680083903485254308339209678552217320138528911198260519229634791478122061432032516214484371579815631342231930258222337365598820086254069662275554781838914121458546816731767637215947301122829170181878307081147920335390477421409014593779889526109499260042632138652359755563522403016050871885672224018346954457600

/-- The 256 bytes of `table3` packed little-endian into one numeral (entry b is byte b). -/
def P_table3 : Nat := 3294578057314658763267795712291423816875059784912772658549463737549614411501588429758163946129753963063094138685936871067770203650430612434195375948676499621860626057286767866984606329430300288249694230977817309640410368608817684755278168616531299385557605244291578639565002013689251056656080034747730775106792247717826926486880909667003158817235872845726171190436001294868070851495559292814071128771808507251916148301013813934405585832966327353734581929782276709735716474759982539751455303458650918273922349256448297540981134095574432763667425412741570921087470081050522780756614773559216063798844346245016564663040

/-- The 256 bytes of `table7` packed little-endian into one numeral (entry b is byte b). -/
def P_table7 : Nat := 25727352993456963098587609741081666379094589542657275626501363948524448204787729717893711825192308676686535336884756545904493810362793028672601095856770114161483800707170119697417469702106823507712974853947131615801512715254863355620880562565060241285373028590282778586339140184083177264985036528753921927760067850190179506892366009940588010639045066027627537444090766276961835929269103836027441876895623145532618013218086648836025252747616188233005735421133791345698523143879335163388122924784686878412820293169284867895510398727357125939245473898788911556802274900554017473719215405917853593737058017107876820944640

/-- The 256 bytes of `table9` packed little-endian into one numeral (entry b is byte b). -/
def P_table9 : Nat := 8875800206676231233701243093037991435892820171169916784212686138618272775022945573285003956930101804132570244180486893696338426119125697617487505053305019391078452041171720238582278824352345150014134608923380002411540182399855297251710853225217122628921227208582311712405524813144982781242696704635609266321940544417729379922905250356217345749200516009654420718585965795693028792943576298910991546489194988553624796944920535299482344994524418256347438720733242826317236165094751904288306059757648895161575829661503528205507542121434477288647604052975262540305993897881349643805951627695476696173059092458303168579840

/-- The 256 bytes of `table11` packed little-endian into one numeral (entry b is byte b). -/
def P_table11 : Nat := 20660037681057546434569796275159181838479904952512643273806643507766143283772057439060419035649261649766718144834351654274951171845491047146754362976279371340404592299720552026658750495605700011811481807106698209471695919590040201347318860671359017121701880798234681581037134898319689396355614186019758485717054749992248840995940992615458479053327988302541455430365511788916032458251381176675035888998960581052066836736929713860795351891151396512863268422787562719967588893482144796700121704512809072848513166322741200632883769161354058857808590875411713191597258555324046859665658420153755880783648214387959407184640

/-- The 256 bytes of `table13` packed little-endian into one numeral (entry b is byte b). -/
def P_table13 : Nat := 19138196848495869605120511558559239350965271065994991961240301511853740095611541283376038542306365123738129448692639514603083014128499463859328439565186102911611069345000827123701362194545999439720750984632977195243846286362462415909436277106797479059866551396947858323319980774417875675921867639957502891587465414444830963643657688594257097630455894848761410270925351913738136053681726757806999801729198632017884776933148886006414664898098777819019295640819165685098721075686948126956433128788785326234477653004815354437539193788019007304928778657778656315023763906850773490198904399435119974847211450672131266448640

/-- The 256 bytes of `table14` packed little-endian into one numeral (entry b is byte b). -/
def P_table14 : Nat := 17864480014884770448341771077560609799285446646958910005847266087176511584336450046277440330989852911982032248350016470062144232722313878833555006445368793394394110529483499328924098050678867718825055588086459160420708307799758563350760248515731481671490350979629499887553466166785595932366127294347362177681962304276728524400718028523154997411546527350275384898504348386776929690162748186352725508860704250747799418330300045848129211501812703387466121761170394370004206798559078089019730874660581757631840806018117816157917699717536029034409891165085778749802507617890945859671717747346411418272250830228758462205440

/-- The 256 bytes of `table68` packed little-endian into one numeral (entry b is byte b). -/
def P_table68 : Nat := 13907368776141944630905171755380761144076771463785892542563715826379040150185975298062748416298580957899542342747250853140749226019466219782530638770326139652420650440688429592568295892538887765306684702512358146819323907018396606880565614078681648887651244973598821120554118130171234883285503332223245571822794766896158960056226084635302279276185297001158872021829553316128775973304234935365927545858228512308610325135211347538899321006843770654118946955553747330561279229587160030410093107645496646362316988942062489110938945716736927998749896835392555251076209580414769664260842745510369455967041949879438246691840

/-- The 256 bytes of `table71` packed little-endian into one numeral (entry b is byte b). -/
def P_table71 : Nat := 14669275399792791513602471208385952360407615684796783031557489686885695103710204016621058777451216802479569780877284121915410657868135861135150647153388472229363323028849252062686254408033851690479582352980433173117411461373400908039966081501644225695513582201374118639204236213852226273160153172990336279517766231755407555011802672685485378279182198033376601836110189283658867907184274508205785864799083998345388100659062309219556474261646523342620305154015343731726426110379774898457190346453770527188734490008142886547691142807728562962098693763398597652120039074429504521463723612484308289623742763371977885239040

/-- The 256 bytes of `table201` packed little-endian into one numeral (entry b is byte b). -/
def P_table201 : Nat := 19735132747773572362245961620314612184674030044164425210848783653447167065505856130512128759504047580593284241182081959845281647012592712589509360349913545000324494872642902321377507990660453862881028645124636364932251670557620531488923728959665696993590524688450568194305664616419433627441174081852070179238603504929194689468435228942103889135627631758326283238220511641522694545509055466042742523231083418582722776181911286839673883197032627952644421071962750895703038958026570682957745641573635370333096114739594408730501360848083794623989557051933010512445776659943100736258200369622738003696595488880350766680320

/-- The 256 bytes of `table203` packed little-endian into one numeral (entry b is byte b). -/
def P_table203 : Nat := 15363080453353821052248375290943185866224599536025214061137349084817241094413758450891253527543018244023095240147652827396247331759187277815799450856561703918968567871835696724891092656215692382994584695007591871516437658094339837800001924009250505850077463351244018917983304533154278643852159982524721131158050408260409294441530532806164741951862680653927804868125686032688446160851528604425408151887047972343000726172040301524599274509760274636620747950910636241828224890166299569219215460815851715113290978593645794925869424839222322048079822624496033410776647432764736563422258775057294267832079575825395571608320

/-- The 256 bytes of `sbox_table` packed little-endian into one numeral (entry b is byte b). -/
def P_sbox_table : Nat := 2869618975290639062594974519597816386035077209210385677284518162336985023502962151465775969507961862820568736543004676439868535775640188584098917533413284844376797297285941524888791401501466624530423689326528054213168201056672989590893583853414110162539122864583953358348775951166211353578440977400428507475679327181038682772945817200201960445064847785221508011893952350688324234443749897213621340677040612747745615276448919507935121141307752692835344166708617454322778699219895865633266409040561742768581056182730443599545881830075941537620590442514083341749674612746994879540562701631131184186066652929592955206755

/-- The 256 bytes of `invsbox_table` packed little-endian into one numeral (entry b is byte b). -/
def P_invsbox_table : Nat := 15785769749828884342349381641981096363179738000380205650940338083111619982568718420166261191398703005748170232611805704157196303061330872280026969925224128193193768962594508714770967646139604422718174787315048227180018877623049221087186576642191304514338137614235628241783007805847129270530950856841486400764657112140097236091222567730363620332611309375046737430203438830593833719428588466121688739068564421474273450162064709239629809347626728710072303178617319436726577534667237755444692000788692193415136619289353224918429728194544458916874716857284226411602766869706570927007876872095880586785662942963508062062930

/-- Multiplication-by-2 table lookup: `times2` from the source. -/
def times2 (b : Nat) : Nat := table2.getD b 0

/-- Multiplication-by-3 table lookup: `times3` from the source. -/
def times3 (b : Nat) : Nat := table3.getD b 0

/-- Multiplication-by-7 table lookup: `times7` from the source. -/
def times7 (b : Nat) : Nat := table7.getD b 0

/-- Multiplication-by-9 table lookup: `times9` from the source. -/
def times9 (b : Nat) : Nat := table9.getD b 0

/-- Multiplication-by-11 table lookup: `times11` from the source. -/
def times11 (b : Nat) : Nat := table11.getD b 0

/-- Multiplication-by-13 table lookup: `times13` from the source. -/
def times13 (b : Nat) : Nat := table13.getD b 0

/-- Multiplication-by-14 table lookup: `times14` from the source. -/
def times14 (b : Nat) : Nat := table14.getD b 0

/-- Multiplication-by-68 table lookup: `times68` from the source. -/
def times68 (b : Nat) : Nat := table68.getD b 0

/-- Multiplication-by-71 table lookup: `times71` from the source. -/
def times71 (b : Nat) : Nat := table71.getD b 0

/-- Multiplication-by-201 table lookup: `times201` from the source. -/
def times201 (b : Nat) : Nat := table201.getD b 0

/-- Multiplication-by-203 table lookup: `times203` from the source. -/
def times203 (b : Nat) : Nat := table203.getD b 0

/-- AES S-box lookup: `sbox` from the source. -/
def sbox (b : Nat) : Nat := sbox_table.getD b 0

/-- AES inverse S-box lookup: `invsbox` from the source. -/
def invsbox (b : Nat) : Nat := invsbox_table.getD b 0

/-- Byte b of the round constant of substate i at round r: `rccon` from the source. -/
def rccon (r i b : Nat) : Nat := (haraka_rcons_table.getD (4*r + i) []).getD b 0

/-- AES state: 16 bytes in the standard AES numbering (`state_t` in the source). -/
structure state_t where
  b0 : Nat
  b1 : Nat
  b2 : Nat
  b3 : Nat
  b4 : Nat
  b5 : Nat
  b6 : Nat
  b7 : Nat
  b8 : Nat
  b9 : Nat
  b10 : Nat
  b11 : Nat
  b12 : Nat
  b13 : Nat
  b14 : Nat
  b15 : Nat
deriving DecidableEq

/-- Haraka state: 4 AES states (`hkstate_t` in the source). -/
structure hkstate_t where
  s0 : state_t
  s1 : state_t
  s2 : state_t
  s3 : state_t
deriving DecidableEq

/-- Byte number i (0..15) of an AES state, as `s[i]` indexes the source array. -/
def state_t.get (s : state_t) : Nat → Nat
  | 0 => s.b0
  | 1 => s.b1
  | 2 => s.b2
  | 3 => s.b3
  | 4 => s.b4
  | 5 => s.b5
  | 6 => s.b6
  | 7 => s.b7
  | 8 => s.b8
  | 9 => s.b9
  | 10 => s.b10
  | 11 => s.b11
  | 12 => s.b12
  | 13 => s.b13
  | 14 => s.b14
  | _ => s.b15

/-- AES state with all bytes zero. -/
def zero_state : state_t :=
  { b0 := 0, b1 := 0, b2 := 0, b3 := 0, b4 := 0, b5 := 0, b6 := 0, b7 := 0,
    b8 := 0, b9 := 0, b10 := 0, b11 := 0, b12 := 0, b13 := 0, b14 := 0, b15 := 0 }

/-- Haraka state with all bytes zero. -/
def zero_hk : hkstate_t := { s0 := zero_state, s1 := zero_state, s2 := zero_state, s3 := zero_state }

/-- All 16 bytes of an AES state are genuine bytes (below 256). -/
abbrev allLtSt (s : state_t) : Prop :=
  s.b0 < 256 ∧ s.b1 < 256 ∧ s.b2 < 256 ∧ s.b3 < 256 ∧
  s.b4 < 256 ∧ s.b5 < 256 ∧ s.b6 < 256 ∧ s.b7 < 256 ∧
  s.b8 < 256 ∧ s.b9 < 256 ∧ s.b10 < 256 ∧ s.b11 < 256 ∧
  s.b12 < 256 ∧ s.b13 < 256 ∧ s.b14 < 256 ∧ s.b15 < 256

/-- All 64 bytes of a Haraka state are genuine bytes. -/
abbrev allLtHk (s : hkstate_t) : Prop :=
  allLtSt s.s0 ∧ allLtSt s.s1 ∧ allLtSt s.s2 ∧ allLtSt s.s3

/-- Applies SR: `shiftrows` from the source.  The statement chain of the
source reads every cell before overwriting it, so it is exactly this
simultaneous permutation of the old cells. -/
def shiftrows (s : state_t) : state_t :=
  { b0 := s.b0, b1 := s.b5, b2 := s.b10, b3 := s.b15,
    b4 := s.b4, b5 := s.b9, b6 := s.b14, b7 := s.b3,
    b8 := s.b8, b9 := s.b13, b10 := s.b2, b11 := s.b7,
    b12 := s.b12, b13 := s.b1, b14 := s.b6, b15 := s.b11 }

/-- Applies SB and SR fused: `sbsr` from the source (same reads-before-writes
chain as `shiftrows`, with `sbox` applied at each read). -/
def sbsr (s : state_t) : state_t :=
  { b0 := sbox s.b0, b1 := sbox s.b5, b2 := sbox s.b10, b3 := sbox s.b15,
    b4 := sbox s.b4, b5 := sbox s.b9, b6 := sbox s.b14, b7 := sbox s.b3,
    b8 := sbox s.b8, b9 := sbox s.b13, b10 := sbox s.b2, b11 := sbox s.b7,
    b12 := sbox s.b12, b13 := sbox s.b1, b14 := sbox s.b6, b15 := sbox s.b11 }

/-- Applies SR inverse: `invshiftrows` from the source (simultaneous form of
the reads-before-writes chain). -/
def invshiftrows (s : state_t) : state_t :=
  { b0 := s.b0, b1 := s.b13, b2 := s.b10, b3 := s.b7,
    b4 := s.b4, b5 := s.b1, b6 := s.b14, b7 := s.b11,
    b8 := s.b8, b9 := s.b5, b10 := s.b2, b11 := s.b15,
    b12 := s.b12, b13 := s.b9, b14 := s.b6, b15 := s.b3 }

/-- Applies SR and SB inverse fused: `invsbsr` from the source. -/
def invsbsr (s : state_t) : state_t :=
  { b0 := invsbox s.b0, b1 := invsbox s.b13, b2 := invsbox s.b10, b3 := invsbox s.b7,
    b4 := invsbox s.b4, b5 := invsbox s.b1, b6 := invsbox s.b14, b7 := invsbox s.b11,
    b8 := invsbox s.b8, b9 := invsbox s.b5, b10 := invsbox s.b2, b11 := invsbox s.b15,
    b12 := invsbox s.b12, b13 := invsbox s.b9, b14 := invsbox s.b6, b15 := invsbox s.b3 }

/-- Applies SB: `subbytes` from the source. -/
def subbytes (s : state_t) : state_t :=
  { b0 := sbox s.b0, b1 := sbox s.b1, b2 := sbox s.b2, b3 := sbox s.b3,
    b4 := sbox s.b4, b5 := sbox s.b5, b6 := sbox s.b6, b7 := sbox s.b7,
    b8 := sbox s.b8, b9 := sbox s.b9, b10 := sbox s.b10, b11 := sbox s.b11,
    b12 := sbox s.b12, b13 := sbox s.b13, b14 := sbox s.b14, b15 := sbox s.b15 }

/-- Applies SB inverse: `invsubbytes` from the source. -/
def invsubbytes (s : state_t) : state_t :=
  { b0 := invsbox s.b0, b1 := invsbox s.b1, b2 := invsbox s.b2, b3 := invsbox s.b3,
    b4 := invsbox s.b4, b5 := invsbox s.b5, b6 := invsbox s.b6, b7 := invsbox s.b7,
    b8 := invsbox s.b8, b9 := invsbox s.b9, b10 := invsbox s.b10, b11 := invsbox s.b11,
    b12 := invsbox s.b12, b13 := invsbox s.b13, b14 := invsbox s.b14, b15 := invsbox s.b15 }

/-- XORs the round constant at round r into substate j: `xor_rcons` from the source. -/
def xor_rcons (s : state_t) (r j : Nat) : state_t :=
  { b0 := s.b0 ^^^ rccon r j 0, b1 := s.b1 ^^^ rccon r j 1, b2 := s.b2 ^^^ rccon r j 2, b3 := s.b3 ^^^ rccon r j 3,
    b4 := s.b4 ^^^ rccon r j 4, b5 := s.b5 ^^^ rccon r j 5, b6 := s.b6 ^^^ rccon r j 6, b7 := s.b7 ^^^ rccon r j 7,
    b8 := s.b8 ^^^ rccon r j 8, b9 := s.b9 ^^^ rccon r j 9, b10 := s.b10 ^^^ rccon r j 10, b11 := s.b11 ^^^ rccon r j 11,
    b12 := s.b12 ^^^ rccon r j 12, b13 := s.b13 ^^^ rccon r j 13, b14 := s.b14 ^^^ rccon r j 14, b15 := s.b15 ^^^ rccon r j 15 }

/-- Applies MC: `mixcolumns` from the source (each column is read into a,b,c,d before writing). -/
def mixcolumns (s : state_t) : state_t :=
  let a0 := s.b0
  let b0 := s.b1
  let c0 := s.b2
  let d0 := s.b3
  let a1 := s.b4
  let b1 := s.b5
  let c1 := s.b6
  let d1 := s.b7
  let a2 := s.b8
  let b2 := s.b9
  let c2 := s.b10
  let d2 := s.b11
  let a3 := s.b12
  let b3 := s.b13
  let c3 := s.b14
  let d3 := s.b15
  { b0 := times2 a0 ^^^ times3 b0 ^^^ c0 ^^^ d0, b1 := a0 ^^^ times2 b0 ^^^ times3 c0 ^^^ d0, b2 := a0 ^^^ b0 ^^^ times2 c0 ^^^ times3 d0, b3 := times3 a0 ^^^ b0 ^^^ c0 ^^^ times2 d0,
    b4 := times2 a1 ^^^ times3 b1 ^^^ c1 ^^^ d1, b5 := a1 ^^^ times2 b1 ^^^ times3 c1 ^^^ d1, b6 := a1 ^^^ b1 ^^^ times2 c1 ^^^ times3 d1, b7 := times3 a1 ^^^ b1 ^^^ c1 ^^^ times2 d1,
    b8 := times2 a2 ^^^ times3 b2 ^^^ c2 ^^^ d2, b9 := a2 ^^^ times2 b2 ^^^ times3 c2 ^^^ d2, b10 := a2 ^^^ b2 ^^^ times2 c2 ^^^ times3 d2, b11 := times3 a2 ^^^ b2 ^^^ c2 ^^^ times2 d2,
    b12 := times2 a3 ^^^ times3 b3 ^^^ c3 ^^^ d3, b13 := a3 ^^^ times2 b3 ^^^ times3 c3 ^^^ d3, b14 := a3 ^^^ b3 ^^^ times2 c3 ^^^ times3 d3, b15 := times3 a3 ^^^ b3 ^^^ c3 ^^^ times2 d3 }

/-- Applies MC and the round constant addition: `mcrc` from the source. -/
def mcrc (s : state_t) (r j : Nat) : state_t :=
  let a0 := s.b0
  let b0 := s.b1
  let c0 := s.b2
  let d0 := s.b3
  let a1 := s.b4
  let b1 := s.b5
  let c1 := s.b6
  let d1 := s.b7
  let a2 := s.b8
  let b2 := s.b9
  let c2 := s.b10
  let d2 := s.b11
  let a3 := s.b12
  let b3 := s.b13
  let c3 := s.b14
  let d3 := s.b15
  { b0 := times2 a0 ^^^ times3 b0 ^^^ c0 ^^^ d0 ^^^ rccon r j 0, b1 := a0 ^^^ times2 b0 ^^^ times3 c0 ^^^ d0 ^^^ rccon r j 1, b2 := a0 ^^^ b0 ^^^ times2 c0 ^^^ times3 d0 ^^^ rccon r j 2, b3 := times3 a0 ^^^ b0 ^^^ c0 ^^^ times2 d0 ^^^ rccon r j 3,
    b4 := times2 a1 ^^^ times3 b1 ^^^ c1 ^^^ d1 ^^^ rccon r j 4, b5 := a1 ^^^ times2 b1 ^^^ times3 c1 ^^^ d1 ^^^ rccon r j 5, b6 := a1 ^^^ b1 ^^^ times2 c1 ^^^ times3 d1 ^^^ rccon r j 6, b7 := times3 a1 ^^^ b1 ^^^ c1 ^^^ times2 d1 ^^^ rccon r j 7,
    b8 := times2 a2 ^^^ times3 b2 ^^^ c2 ^^^ d2 ^^^ rccon r j 8, b9 := a2 ^^^ times2 b2 ^^^ times3 c2 ^^^ d2 ^^^ rccon r j 9, b10 := a2 ^^^ b2 ^^^ times2 c2 ^^^ times3 d2 ^^^ rccon r j 10, b11 := times3 a2 ^^^ b2 ^^^ c2 ^^^ times2 d2 ^^^ rccon r j 11,
    b12 := times2 a3 ^^^ times3 b3 ^^^ c3 ^^^ d3 ^^^ rccon r j 12, b13 := a3 ^^^ times2 b3 ^^^ times3 c3 ^^^ d3 ^^^ rccon r j 13, b14 := a3 ^^^ b3 ^^^ times2 c3 ^^^ times3 d3 ^^^ rccon r j 14, b15 := times3 a3 ^^^ b3 ^^^ c3 ^^^ times2 d3 ^^^ rccon r j 15 }

/-- Applies MC inverse: `invmixcolumns` from the source. -/
def invmixcolumns (s : state_t) : state_t :=
  let a0 := s.b0
  let b0 := s.b1
  let c0 := s.b2
  let d0 := s.b3
  let a1 := s.b4
  let b1 := s.b5
  let c1 := s.b6
  let d1 := s.b7
  let a2 := s.b8
  let b2 := s.b9
  let c2 := s.b10
  let d2 := s.b11
  let a3 := s.b12
  let b3 := s.b13
  let c3 := s.b14
  let d3 := s.b15
  { b0 := times14 a0 ^^^ times11 b0 ^^^ times13 c0 ^^^ times9 d0, b1 := times9 a0 ^^^ times14 b0 ^^^ times11 c0 ^^^ times13 d0, b2 := times13 a0 ^^^ times9 b0 ^^^ times14 c0 ^^^ times11 d0, b3 := times11 a0 ^^^ times13 b0 ^^^ times9 c0 ^^^ times14 d0,
    b4 := times14 a1 ^^^ times11 b1 ^^^ times13 c1 ^^^ times9 d1, b5 := times9 a1 ^^^ times14 b1 ^^^ times11 c1 ^^^ times13 d1, b6 := times13 a1 ^^^ times9 b1 ^^^ times14 c1 ^^^ times11 d1, b7 := times11 a1 ^^^ times13 b1 ^^^ times9 c1 ^^^ times14 d1,
    b8 := times14 a2 ^^^ times11 b2 ^^^ times13 c2 ^^^ times9 d2, b9 := times9 a2 ^^^ times14 b2 ^^^ times11 c2 ^^^ times13 d2, b10 := times13 a2 ^^^ times9 b2 ^^^ times14 c2 ^^^ times11 d2, b11 := times11 a2 ^^^ times13 b2 ^^^ times9 c2 ^^^ times14 d2,
    b12 := times14 a3 ^^^ times11 b3 ^^^ times13 c3 ^^^ times9 d3, b13 := times9 a3 ^^^ times14 b3 ^^^ times11 c3 ^^^ times13 d3, b14 := times13 a3 ^^^ times9 b3 ^^^ times14 c3 ^^^ times11 d3, b15 := times11 a3 ^^^ times13 b3 ^^^ times9 c3 ^^^ times14 d3 }

/-- Applies MC and round-constant-addition inverse: `invmcrc` from the source (the round constant is removed while reading each column). -/
def invmcrc (s : state_t) (r j : Nat) : state_t :=
  let a0 := s.b0 ^^^ rccon r j 0
  let b0 := s.b1 ^^^ rccon r j 1
  let c0 := s.b2 ^^^ rccon r j 2
  let d0 := s.b3 ^^^ rccon r j 3
  let a1 := s.b4 ^^^ rccon r j 4
  let b1 := s.b5 ^^^ rccon r j 5
  let c1 := s.b6 ^^^ rccon r j 6
  let d1 := s.b7 ^^^ rccon r j 7
  let a2 := s.b8 ^^^ rccon r j 8
  let b2 := s.b9 ^^^ rccon r j 9
  let c2 := s.b10 ^^^ rccon r j 10
  let d2 := s.b11 ^^^ rccon r j 11
  let a3 := s.b12 ^^^ rccon r j 12
  let b3 := s.b13 ^^^ rccon r j 13
  let c3 := s.b14 ^^^ rccon r j 14
  let d3 := s.b15 ^^^ rccon r j 15
  { b0 := times14 a0 ^^^ times11 b0 ^^^ times13 c0 ^^^ times9 d0, b1 := times9 a0 ^^^ times14 b0 ^^^ times11 c0 ^^^ times13 d0, b2 := times13 a0 ^^^ times9 b0 ^^^ times14 c0 ^^^ times11 d0, b3 := times11 a0 ^^^ times13 b0 ^^^ times9 c0 ^^^ times14 d0,
    b4 := times14 a1 ^^^ times11 b1 ^^^ times13 c1 ^^^ times9 d1, b5 := times9 a1 ^^^ times14 b1 ^^^ times11 c1 ^^^ times13 d1, b6 := times13 a1 ^^^ times9 b1 ^^^ times14 c1 ^^^ times11 d1, b7 := times11 a1 ^^^ times13 b1 ^^^ times9 c1 ^^^ times14 d1,
    b8 := times14 a2 ^^^ times11 b2 ^^^ times13 c2 ^^^ times9 d2, b9 := times9 a2 ^^^ times14 b2 ^^^ times11 c2 ^^^ times13 d2, b10 := times13 a2 ^^^ times9 b2 ^^^ times14 c2 ^^^ times11 d2, b11 := times11 a2 ^^^ times13 b2 ^^^ times9 c2 ^^^ times14 d2,
    b12 := times14 a3 ^^^ times11 b3 ^^^ times13 c3 ^^^ times9 d3, b13 := times9 a3 ^^^ times14 b3 ^^^ times11 c3 ^^^ times13 d3, b14 := times13 a3 ^^^ times9 b3 ^^^ times14 c3 ^^^ times11 d3, b15 := times11 a3 ^^^ times13 b3 ^^^ times9 c3 ^^^ times14 d3 }

/-- Encrypts one AES round at round r, position j in the Haraka state: `aesenc`. -/
def aesenc (s : state_t) (r j : Nat) : state_t := mcrc (sbsr s) r j

/-- Decrypts one AES round at round r, position j in the Haraka state: `invaesenc`. -/
def invaesenc (s : state_t) (r j : Nat) : state_t := invsbsr (invmcrc s r j)

/-- Performs MIX: `mix512` from the source.  The cyclic assignment chain of the source reads every cell before overwriting it, so it is exactly this simultaneous permutation. -/
def mix512 (s : hkstate_t) : hkstate_t :=
  { s0 := { b0 := s.s0.b12, b1 := s.s0.b13, b2 := s.s0.b14, b3 := s.s0.b15,
            b4 := s.s2.b12, b5 := s.s2.b13, b6 := s.s2.b14, b7 := s.s2.b15,
            b8 := s.s1.b12, b9 := s.s1.b13, b10 := s.s1.b14, b11 := s.s1.b15,
            b12 := s.s3.b12, b13 := s.s3.b13, b14 := s.s3.b14, b15 := s.s3.b15 },
    s1 := { b0 := s.s2.b0, b1 := s.s2.b1, b2 := s.s2.b2, b3 := s.s2.b3,
            b4 := s.s0.b0, b5 := s.s0.b1, b6 := s.s0.b2, b7 := s.s0.b3,
            b8 := s.s3.b0, b9 := s.s3.b1, b10 := s.s3.b2, b11 := s.s3.b3,
            b12 := s.s1.b0, b13 := s.s1.b1, b14 := s.s1.b2, b15 := s.s1.b3 },
    s2 := { b0 := s.s2.b4, b1 := s.s2.b5, b2 := s.s2.b6, b3 := s.s2.b7,
            b4 := s.s0.b4, b5 := s.s0.b5, b6 := s.s0.b6, b7 := s.s0.b7,
            b8 := s.s3.b4, b9 := s.s3.b5, b10 := s.s3.b6, b11 := s.s3.b7,
            b12 := s.s1.b4, b13 := s.s1.b5, b14 := s.s1.b6, b15 := s.s1.b7 },
    s3 := { b0 := s.s0.b8, b1 := s.s0.b9, b2 := s.s0.b10, b3 := s.s0.b11,
            b4 := s.s2.b8, b5 := s.s2.b9, b6 := s.s2.b10, b7 := s.s2.b11,
            b8 := s.s1.b8, b9 := s.s1.b9, b10 := s.s1.b10, b11 := s.s1.b11,
            b12 := s.s3.b8, b13 := s.s3.b9, b14 := s.s3.b10, b15 := s.s3.b11 } }

/-- Performs MIX inverse: `invmix512` from the source, as the simultaneous permutation realized by its reads-before-writes chain. -/
def invmix512 (s : hkstate_t) : hkstate_t :=
  { s0 := { b0 := s.s1.b4, b1 := s.s1.b5, b2 := s.s1.b6, b3 := s.s1.b7,
            b4 := s.s2.b4, b5 := s.s2.b5, b6 := s.s2.b6, b7 := s.s2.b7,
            b8 := s.s3.b0, b9 := s.s3.b1, b10 := s.s3.b2, b11 := s.s3.b3,
            b12 := s.s0.b0, b13 := s.s0.b1, b14 := s.s0.b2, b15 := s.s0.b3 },
    s1 := { b0 := s.s1.b12, b1 := s.s1.b13, b2 := s.s1.b14, b3 := s.s1.b15,
            b4 := s.s2.b12, b5 := s.s2.b13, b6 := s.s2.b14, b7 := s.s2.b15,
            b8 := s.s3.b8, b9 := s.s3.b9, b10 := s.s3.b10, b11 := s.s3.b11,
            b12 := s.s0.b8, b13 := s.s0.b9, b14 := s.s0.b10, b15 := s.s0.b11 },
    s2 := { b0 := s.s1.b0, b1 := s.s1.b1, b2 := s.s1.b2, b3 := s.s1.b3,
            b4 := s.s2.b0, b5 := s.s2.b1, b6 := s.s2.b2, b7 := s.s2.b3,
            b8 := s.s3.b4, b9 := s.s3.b5, b10 := s.s3.b6, b11 := s.s3.b7,
            b12 := s.s0.b4, b13 := s.s0.b5, b14 := s.s0.b6, b15 := s.s0.b7 },
    s3 := { b0 := s.s1.b8, b1 := s.s1.b9, b2 := s.s1.b10, b3 := s.s1.b11,
            b4 := s.s2.b8, b5 := s.s2.b9, b6 := s.s2.b10, b7 := s.s2.b11,
            b8 := s.s3.b12, b9 := s.s3.b13, b10 := s.s3.b14, b11 := s.s3.b15,
            b12 := s.s0.b12, b13 := s.s0.b13, b14 := s.s0.b14, b15 := s.s0.b15 } }


/-- One round of the Haraka permutation: body of the loop in `haraka512pi`
(all four lanes through `aesenc`, then `mix512` after odd rounds). -/
def haraka_round (r : Nat) (s : hkstate_t) : hkstate_t :=
  let s := { s with s0 := aesenc s.s0 r 0, s1 := aesenc s.s1 r 1,
                    s2 := aesenc s.s2 r 2, s3 := aesenc s.s3 r 3 }
  if r % 2 = 1 then mix512 s else s

/-- First n rounds of the Haraka permutation loop. -/
def haraka_rounds : Nat → hkstate_t → hkstate_t
  | 0, s => s
  | n+1, s => haraka_round n (haraka_rounds n s)

/-- Applies Haraka: `haraka512pi` from the source (10 rounds). -/
def haraka512pi (s : hkstate_t) : hkstate_t := haraka_rounds 10 s


/-- Output tuple of the partial evaluators: the 4 bytes written into
`output_tuple` by `computefwd` / `computebwd`. -/
structure tuple4 where
  o0 : Nat
  o1 : Nat
  o2 : Nat
  o3 : Nat
deriving DecidableEq

/-- Model of `_mm_set_epi32 e3 e2 e1 e0`: the 16-byte little-endian memory view
of the 128-bit value whose 32-bit words are e0 (lowest) .. e3 (highest),
exactly as `_mm_storeu_si128` lays it out in `value_to_state`. -/
def mm_set_epi32 (e3 e2 e1 e0 : Nat) : state_t :=
  { b0 := e0 % 256, b1 := e0 / 256 % 256, b2 := e0 / 65536 % 256, b3 := e0 / 16777216 % 256,
    b4 := e1 % 256, b5 := e1 / 256 % 256, b6 := e1 / 65536 % 256, b7 := e1 / 16777216 % 256,
    b8 := e2 % 256, b9 := e2 / 256 % 256, b10 := e2 / 65536 % 256, b11 := e2 / 16777216 % 256,
    b12 := e3 % 256, b13 := e3 / 256 % 256, b14 := e3 / 65536 % 256, b15 := e3 / 16777216 % 256 }

/-- Model of `_mm_unpacklo_epi32 a b` on the byte view: interleaves the low
two 32-bit words (byte quadruples) of a and b. -/
def unpacklo_epi32 (a b : state_t) : state_t :=
  { b0 := a.b0, b1 := a.b1, b2 := a.b2, b3 := a.b3,
    b4 := b.b0, b5 := b.b1, b6 := b.b2, b7 := b.b3,
    b8 := a.b4, b9 := a.b5, b10 := a.b6, b11 := a.b7,
    b12 := b.b4, b13 := b.b5, b14 := b.b6, b15 := b.b7 }

/-- Model of `_mm_unpackhi_epi32 a b`: interleaves the high two 32-bit words. -/
def unpackhi_epi32 (a b : state_t) : state_t :=
  { b0 := a.b8, b1 := a.b9, b2 := a.b10, b3 := a.b11,
    b4 := b.b8, b5 := b.b9, b6 := b.b10, b7 := b.b11,
    b8 := a.b12, b9 := a.b13, b10 := a.b14, b11 := a.b15,
    b12 := b.b12, b13 := b.b13, b14 := b.b14, b15 := b.b15 }

/-- Model of `_mm_aesenc_si128 v k`: one AES round (SubBytes, ShiftRows,
MixColumns, xor with the round key k) on the 16-byte memory view. -/
def mm_aesenc (v k : state_t) : state_t :=
  let t := mixcolumns (shiftrows (subbytes v))
  { b0 := t.b0 ^^^ k.b0, b1 := t.b1 ^^^ k.b1, b2 := t.b2 ^^^ k.b2, b3 := t.b3 ^^^ k.b3,
    b4 := t.b4 ^^^ k.b4, b5 := t.b5 ^^^ k.b5, b6 := t.b6 ^^^ k.b6, b7 := t.b7 ^^^ k.b7,
    b8 := t.b8 ^^^ k.b8, b9 := t.b9 ^^^ k.b9, b10 := t.b10 ^^^ k.b10, b11 := t.b11 ^^^ k.b11,
    b12 := t.b12 ^^^ k.b12, b13 := t.b13 ^^^ k.b13, b14 := t.b14 ^^^ k.b14, b15 := t.b15 ^^^ k.b15 }

/-- The `_mm_unpack*_epi32` block of `haraka512pi_opt`, with the source
reassignments of s[0..3] rendered as fresh names v0..v3 in the same order. -/
def opt_mix (s : hkstate_t) : hkstate_t :=
  let tmp := unpacklo_epi32 s.s0 s.s1
  let v0 := unpackhi_epi32 s.s0 s.s1
  let v1 := unpacklo_epi32 s.s2 s.s3
  let v2 := unpackhi_epi32 s.s2 s.s3
  let w3 := unpacklo_epi32 v0 v2
  let w0 := unpackhi_epi32 v0 v2
  let w2 := unpackhi_epi32 v1 tmp
  let w1 := unpacklo_epi32 v1 tmp
  { s0 := w0, s1 := w1, s2 := w2, s3 := w3 }

/-- One round of the loop body of `haraka512pi_opt`. -/
def opt_round (rc : List state_t) (r : Nat) (s : hkstate_t) : hkstate_t :=
  let s := { s with s0 := mm_aesenc s.s0 (rc.getD (4*r) zero_state),
                    s1 := mm_aesenc s.s1 (rc.getD (4*r+1) zero_state),
                    s2 := mm_aesenc s.s2 (rc.getD (4*r+2) zero_state),
                    s3 := mm_aesenc s.s3 (rc.getD (4*r+3) zero_state) }
  if r % 2 = 1 then opt_mix s else s

/-- First n rounds of the `haraka512pi_opt` loop. -/
def opt_rounds (rc : List state_t) : Nat → hkstate_t → hkstate_t
  | 0, s => s
  | n+1, s => opt_round rc n (opt_rounds rc n s)

/-- Applies the Haraka-512 permutation with AES-NI instructions:
`haraka512pi_opt` from the source (10 rounds; the load/store conversions
are the identity on our byte view). -/
def haraka512pi_opt (rc : List state_t) (s : hkstate_t) : hkstate_t := opt_rounds rc 10 s

/-- The 40 round-constant vectors built in `main` with `_mm_set_epi32`. -/
def rc_main : List state_t := [
  mm_set_epi32 0x0684704c 0xe620c00a 0xb2c5fef0 0x75817b9d,
  mm_set_epi32 0x8b66b4e1 0x88f3a06b 0x640f6ba4 0x2f08f717,
  mm_set_epi32 0x3402de2d 0x53f28498 0xcf029d60 0x9f029114,
  mm_set_epi32 0x0ed6eae6 0x2e7b4f08 0xbbf3bcaf 0xfd5b4f79,
  mm_set_epi32 0xcbcfb0cb 0x4872448b 0x79eecd1c 0xbe397044,
  mm_set_epi32 0x7eeacdee 0x6e9032b7 0x8d5335ed 0x2b8a057b,
  mm_set_epi32 0x67c28f43 0x5e2e7cd0 0xe2412761 0xda4fef1b,
  mm_set_epi32 0x2924d9b0 0xafcacc07 0x675ffde2 0x1fc70b3b,
  mm_set_epi32 0xab4d63f1 0xe6867fe9 0xecdb8fca 0xb9d465ee,
  mm_set_epi32 0x1c30bf84 0xd4b7cd64 0x5b2a404f 0xad037e33,
  mm_set_epi32 0xb2cc0bb9 0x941723bf 0x69028b2e 0x8df69800,
  mm_set_epi32 0xfa0478a6 0xde6f5572 0x4aaa9ec8 0x5c9d2d8a,
  mm_set_epi32 0xdfb49f2b 0x6b772a12 0x0efa4f2e 0x29129fd4,
  mm_set_epi32 0x1ea10344 0xf449a236 0x32d611ae 0xbb6a12ee,
  mm_set_epi32 0xaf044988 0x4b050084 0x5f9600c9 0x9ca8eca6,
  mm_set_epi32 0x21025ed8 0x9d199c4f 0x78a2c7e3 0x27e593ec,
  mm_set_epi32 0xbf3aaaf8 0xa759c9b7 0xb9282ecd 0x82d40173,
  mm_set_epi32 0x6260700d 0x6186b017 0x37f2efd9 0x10307d6b,
  mm_set_epi32 0x5aca45c2 0x21300443 0x81c29153 0xf6fc9ac6,
  mm_set_epi32 0x9223973c 0x226b68bb 0x2caf92e8 0x36d1943a,
  mm_set_epi32 0xd3bf9238 0x225886eb 0x6cbab958 0xe51071b4,
  mm_set_epi32 0xdb863ce5 0xaef0c677 0x933dfddd 0x24e1128d,
  mm_set_epi32 0xbb606268 0xffeba09c 0x83e48de3 0xcb2212b1,
  mm_set_epi32 0x734bd3dc 0xe2e4d19c 0x2db91a4e 0xc72bf77d,
  mm_set_epi32 0x43bb47c3 0x61301b43 0x4b1415c4 0x2cb3924e,
  mm_set_epi32 0xdba775a8 0xe707eff6 0x03b231dd 0x16eb6899,
  mm_set_epi32 0x6df3614b 0x3c755977 0x8e5e2302 0x7eca472c,
  mm_set_epi32 0xcda75a17 0xd6de7d77 0x6d1be5b9 0xb88617f9,
  mm_set_epi32 0xec6b43f0 0x6ba8e9aa 0x9d6c069d 0xa946ee5d,
  mm_set_epi32 0xcb1e6950 0xf957332b 0xa2531159 0x3bf327c1,
  mm_set_epi32 0x2cee0c75 0x00da619c 0xe4ed0353 0x600ed0d9,
  mm_set_epi32 0xf0b1a5a1 0x96e90cab 0x80bbbabc 0x63a4a350,
  mm_set_epi32 0xae3db102 0x5e962988 0xab0dde30 0x938dca39,
  mm_set_epi32 0x17bb8f38 0xd554a40b 0x8814f3a8 0x2e75b442,
  mm_set_epi32 0x34bb8a5b 0x5f427fd7 0xaeb6b779 0x360a16f6,
  mm_set_epi32 0x26f65241 0xcbe55438 0x43ce5918 0xffbaafde,
  mm_set_epi32 0x4ce99a54 0xb9f3026a 0xa2ca9cf7 0x839ec978,
  mm_set_epi32 0xae51a51a 0x1bdff7be 0x40c06e28 0x22901235,
  mm_set_epi32 0xa0c1613c 0xba7ed22b 0xc173bc0f 0x48a659cf,
  mm_set_epi32 0x756acc03 0x02288288 0x4ad6bdfd 0xe9c59da1]


/-- Forward computation path stopping at x5: `computefwd_x5` from the source.
The caller-supplied scratch state s is the first argument; exactly the cells
written by the source are replaced, stage by stage.  Within each stage the
source writes pairwise distinct cells reading only function inputs, so each
stage is one simultaneous record update. -/
def computefwd_x5 (s : hkstate_t) (ctx : Fin 8 → Nat) (g3 : Fin 20 → Nat)
    (g4 : Fin 16 → Nat) (g5 : Fin 12 → Nat) (dof : Fin 4 → Nat) : hkstate_t :=
  let w2a_1 := dof 0
  let w2a_6 := dof 1
  let w2a_11 := dof 2
  let w2a_12 := dof 3
  let s := { s with
    s0 := { s.s0 with
      b1 := w2a_1 ^^^ rccon 2 0 1,
      b6 := w2a_6 ^^^ rccon 2 0 6,
      b11 := w2a_11 ^^^ rccon 2 0 11,
      b12 := w2a_12 ^^^ rccon 2 0 12,
      b0 := times201 (ctx 0) ^^^ times68 (ctx 1) ^^^ times203 w2a_1 ^^^ rccon 2 0 0,
      b2 := times68 (ctx 0) ^^^ times201 (ctx 1) ^^^ times71 w2a_1 ^^^ rccon 2 0 2,
      b5 := times68 (ctx 2) ^^^ times201 (ctx 3) ^^^ times203 w2a_6 ^^^ rccon 2 0 5,
      b7 := times201 (ctx 2) ^^^ times68 (ctx 3) ^^^ times71 w2a_6 ^^^ rccon 2 0 7,
      b8 := times201 (ctx 4) ^^^ times68 (ctx 5) ^^^ times71 w2a_11 ^^^ rccon 2 0 8,
      b10 := times68 (ctx 4) ^^^ times201 (ctx 5) ^^^ times203 w2a_11 ^^^ rccon 2 0 10,
      b13 := times68 (ctx 6) ^^^ times201 (ctx 7) ^^^ times71 w2a_12 ^^^ rccon 2 0 13,
      b15 := times201 (ctx 6) ^^^ times68 (ctx 7) ^^^ times203 w2a_12 ^^^ rccon 2 0 15 },
    s1 := { s.s1 with
      b1 := g3 0, b2 := g3 1, b6 := g3 2, b7 := g3 3,
      b8 := g3 4, b11 := g3 5, b12 := g3 6, b13 := g3 7 },
    s2 := { s.s2 with
      b1 := g3 8, b6 := g3 9, b11 := g3 10, b12 := g3 11 },
    s3 := { s.s3 with
      b0 := g3 12, b1 := g3 13, b5 := g3 14, b6 := g3 15,
      b10 := g3 16, b11 := g3 17, b12 := g3 18, b15 := g3 19 } }
  let s := { s with s0 := aesenc s.s0 3 0, s1 := aesenc s.s1 3 1,
                    s2 := aesenc s.s2 3 2, s3 := aesenc s.s3 3 3 }
  let s := mix512 s
  let s := { s with
    s1 := { s.s1 with
      b0 := g4 0, b1 := g4 1, b2 := g4 2, b3 := g4 3,
      b12 := g4 4, b13 := g4 5, b14 := g4 6, b15 := g4 7 },
    s3 := { s.s3 with
      b4 := g4 8, b5 := g4 9, b6 := g4 10, b7 := g4 11,
      b12 := g4 12, b13 := g4 13, b14 := g4 14, b15 := g4 15 } }
  let s := { s with s0 := aesenc s.s0 4 0, s1 := aesenc s.s1 4 1, s3 := aesenc s.s3 4 3 }
  let s := { s with
    s2 := { s.s2 with
      b1 := g5 0, b2 := g5 1, b3 := g5 2, b4 := g5 3,
      b6 := g5 4, b7 := g5 5, b8 := g5 6, b9 := g5 7,
      b11 := g5 8, b12 := g5 9, b13 := g5 10, b14 := g5 11 } }
  s

/-- The fingerprint extraction ending `computefwd` (the source applies
`subbytes` and `shiftrows` in place on s[2] and forms the four linear
combinations written into `output_tuple`). -/
def z8_tuple (s : hkstate_t) : tuple4 :=
  let z := shiftrows (subbytes s.s2)
  { o0 := times7 z.b0 ^^^ z.b1 ^^^ times7 z.b2,
    o1 := z.b4 ^^^ times2 z.b5 ^^^ times3 z.b7,
    o2 := times7 z.b8 ^^^ times7 z.b10 ^^^ z.b11,
    o3 := times3 z.b13 ^^^ z.b14 ^^^ times2 z.b15 }

/-- Forward computation path: `computefwd` from the source. -/
def computefwd (s : hkstate_t) (ctx : Fin 8 → Nat) (g3 : Fin 20 → Nat)
    (g4 : Fin 16 → Nat) (g5 : Fin 12 → Nat) (dof : Fin 4 → Nat) : tuple4 :=
  let s := computefwd_x5 s ctx g3 g4 g5 dof
  let s := { s with s0 := aesenc s.s0 5 0, s1 := aesenc s.s1 5 1,
                    s2 := aesenc s.s2 5 2, s3 := aesenc s.s3 5 3 }
  let s := mix512 s
  let s := { s with s0 := aesenc s.s0 6 0, s2 := aesenc s.s2 6 2, s3 := aesenc s.s3 6 3 }
  let s := { s with s0 := aesenc s.s0 7 0, s2 := aesenc s.s2 7 2, s3 := aesenc s.s3 7 3 }
  let s := mix512 s
  z8_tuple s

/-- Backward computation path: `computebwd` from the source. -/
def computebwd (s : hkstate_t) (ctx : Fin 8 → Nat) (g3 : Fin 20 → Nat)
    (g4 : Fin 16 → Nat) (g5 : Fin 12 → Nat) (dof : Fin 4 → Nat) : tuple4 :=
  let s := { s with
    s2 := { s.s2 with
      b0 := dof 0, b5 := dof 1, b10 := dof 2, b15 := dof 3,
      b1 := g5 0, b2 := g5 1, b3 := g5 2, b4 := g5 3,
      b6 := g5 4, b7 := g5 5, b8 := g5 6, b9 := g5 7,
      b11 := g5 8, b12 := g5 9, b13 := g5 10, b14 := g5 11 } }
  let s := { s with s2 := invaesenc s.s2 4 2 }
  let s := { s with
    s1 := { s.s1 with
      b0 := g4 0, b1 := g4 1, b2 := g4 2, b3 := g4 3,
      b12 := g4 4, b13 := g4 5, b14 := g4 6, b15 := g4 7 },
    s3 := { s.s3 with
      b4 := g4 8, b5 := g4 9, b6 := g4 10, b7 := g4 11,
      b12 := g4 12, b13 := g4 13, b14 := g4 14, b15 := g4 15 } }
  let s := invmix512 s
  let s := { s with s0 := invaesenc s.s0 3 0, s1 := invaesenc s.s1 3 1,
                    s2 := invaesenc s.s2 3 2, s3 := invaesenc s.s3 3 3 }
  let s := { s with
    s1 := { s.s1 with
      b1 := g3 0, b2 := g3 1, b6 := g3 2, b7 := g3 3,
      b8 := g3 4, b11 := g3 5, b12 := g3 6, b13 := g3 7 },
    s2 := { s.s2 with
      b1 := g3 8, b6 := g3 9, b11 := g3 10, b12 := g3 11 },
    s3 := { s.s3 with
      b0 := g3 12, b1 := g3 13, b5 := g3 14, b6 := g3 15,
      b10 := g3 16, b11 := g3 17, b12 := g3 18, b15 := g3 19 } }
  let w2a_3 := s.s0.b3 ^^^ rccon 2 0 3
  let w2a_4 := s.s0.b4 ^^^ rccon 2 0 4
  let w2a_9 := s.s0.b9 ^^^ rccon 2 0 9
  let w2a_14 := s.s0.b14 ^^^ rccon 2 0 14
  let s := { s with
    s0 := { s.s0 with
      b1 := ctx 0 ^^^ times13 w2a_3,
      b3 := ctx 1 ^^^ times14 w2a_3,
      b4 := ctx 2 ^^^ times14 w2a_4,
      b6 := ctx 3 ^^^ times13 w2a_4,
      b9 := ctx 4 ^^^ times14 w2a_9,
      b11 := ctx 5 ^^^ times13 w2a_9,
      b12 := ctx 6 ^^^ times13 w2a_14,
      b14 := ctx 7 ^^^ times14 w2a_14 } }
  let s := { s with s0 := invsbsr s.s0 }
  let s := { s with s1 := invaesenc s.s1 2 1, s2 := invaesenc s.s2 2 2,
                    s3 := invaesenc s.s3 2 3 }
  let s := invmix512 s
  let s := { s with s2 := invaesenc s.s2 1 2, s3 := invaesenc s.s3 1 3 }
  let s := { s with s2 := invaesenc s.s2 0 2, s3 := invaesenc s.s3 0 3 }
  let s := invmix512 s
  let s := { s with s2 := invaesenc s.s2 9 2 }
  let s := { s with s2 := xor_rcons s.s2 8 2 }
  { o0 := times2 s.s2.b2 ^^^ times3 s.s2.b3,
    o1 := s.s2.b4 ^^^ s.s2.b7,
    o2 := times2 s.s2.b8 ^^^ times3 s.s2.b9,
    o3 := s.s2.b13 ^^^ s.s2.b14 }

/-- The full x5 candidate built at the start of `compute_x0_pix0_from_choices`:
the forward x5 state with the four diagonal cells of lane 2 filled in from the
backward degrees of freedom. -/
def x5cand (s : hkstate_t) (ctx : Fin 8 → Nat) (g3 : Fin 20 → Nat)
    (g4 : Fin 16 → Nat) (g5 : Fin 12 → Nat) (fwddof bwddof : Fin 4 → Nat) : hkstate_t :=
  let s := computefwd_x5 s ctx g3 g4 g5 fwddof
  { s with s2 := { s.s2 with b0 := bwddof 0, b5 := bwddof 1,
                             b10 := bwddof 2, b15 := bwddof 3 } }

/-- The inverse-round chain of `compute_x0_pix0_from_choices` taking the full
x5 state back to x0. -/
def inv_to_x0 (s : hkstate_t) : hkstate_t :=
  let s := { s with s0 := invaesenc s.s0 4 0, s1 := invaesenc s.s1 4 1,
                    s2 := invaesenc s.s2 4 2, s3 := invaesenc s.s3 4 3 }
  let s := invmix512 s
  let s := { s with s0 := invaesenc s.s0 3 0, s1 := invaesenc s.s1 3 1,
                    s2 := invaesenc s.s2 3 2, s3 := invaesenc s.s3 3 3 }
  let s := { s with s0 := invaesenc s.s0 2 0, s1 := invaesenc s.s1 2 1,
                    s2 := invaesenc s.s2 2 2, s3 := invaesenc s.s3 2 3 }
  let s := invmix512 s
  let s := { s with s0 := invaesenc s.s0 1 0, s1 := invaesenc s.s1 1 1,
                    s2 := invaesenc s.s2 1 2, s3 := invaesenc s.s3 1 3 }
  let s := { s with s0 := invaesenc s.s0 0 0, s1 := invaesenc s.s1 0 1,
                    s2 := invaesenc s.s2 0 2, s3 := invaesenc s.s3 0 3 }
  s

/-- Recomputes x0 and its image from a matched pair of forward and backward
choices: `compute_x0_pix0_from_choices` from the source.  Returns (x0, pix0).
The rounds 5..9 applied to the saved x5 value use the optimized AES-NI
implementation exactly as in the source. -/
def compute_x0_pix0_from_choices (rc : List state_t) (s : hkstate_t)
    (ctx : Fin 8 → Nat) (g3 : Fin 20 → Nat) (g4 : Fin 16 → Nat) (g5 : Fin 12 → Nat)
    (fwddof bwddof : Fin 4 → Nat) : hkstate_t × hkstate_t :=
  let s := x5cand s ctx g3 g4 g5 fwddof bwddof
  let s0 := s.s0
  let s1 := s.s1
  let s2 := s.s2
  let s3 := s.s3
  let x0 := inv_to_x0 s
  let s0 := mm_aesenc s0 (rc.getD 20 zero_state)
  let s1 := mm_aesenc s1 (rc.getD 21 zero_state)
  let s2 := mm_aesenc s2 (rc.getD 22 zero_state)
  let s3 := mm_aesenc s3 (rc.getD 23 zero_state)
  let tmp := unpacklo_epi32 s0 s1
  let s0 := unpackhi_epi32 s0 s1
  let s1 := unpacklo_epi32 s2 s3
  let s2 := unpackhi_epi32 s2 s3
  let s3 := unpacklo_epi32 s0 s2
  let s0 := unpackhi_epi32 s0 s2
  let s2 := unpackhi_epi32 s1 tmp
  let s1 := unpacklo_epi32 s1 tmp
  let s0 := mm_aesenc s0 (rc.getD 24 zero_state)
  let s1 := mm_aesenc s1 (rc.getD 25 zero_state)
  let s2 := mm_aesenc s2 (rc.getD 26 zero_state)
  let s3 := mm_aesenc s3 (rc.getD 27 zero_state)
  let s0 := mm_aesenc s0 (rc.getD 28 zero_state)
  let s1 := mm_aesenc s1 (rc.getD 29 zero_state)
  let s2 := mm_aesenc s2 (rc.getD 30 zero_state)
  let s3 := mm_aesenc s3 (rc.getD 31 zero_state)
  let tmp := unpacklo_epi32 s0 s1
  let s0 := unpackhi_epi32 s0 s1
  let s1 := unpacklo_epi32 s2 s3
  let s2 := unpackhi_epi32 s2 s3
  let s3 := unpacklo_epi32 s0 s2
  let s0 := unpackhi_epi32 s0 s2
  let s2 := unpackhi_epi32 s1 tmp
  let s1 := unpacklo_epi32 s1 tmp
  let s0 := mm_aesenc s0 (rc.getD 32 zero_state)
  let s1 := mm_aesenc s1 (rc.getD 33 zero_state)
  let s2 := mm_aesenc s2 (rc.getD 34 zero_state)
  let s3 := mm_aesenc s3 (rc.getD 35 zero_state)
  let s0 := mm_aesenc s0 (rc.getD 36 zero_state)
  let s1 := mm_aesenc s1 (rc.getD 37 zero_state)
  let s2 := mm_aesenc s2 (rc.getD 38 zero_state)
  let s3 := mm_aesenc s3 (rc.getD 39 zero_state)
  let tmp := unpacklo_epi32 s0 s1
  let s0 := unpackhi_epi32 s0 s1
  let s1 := unpacklo_epi32 s2 s3
  let s2 := unpackhi_epi32 s2 s3
  let s3 := unpacklo_epi32 s0 s2
  let s0 := unpackhi_epi32 s0 s2
  let s2 := unpackhi_epi32 s1 tmp
  let s1 := unpacklo_epi32 s1 tmp
  (x0, { s0 := s0, s1 := s1, s2 := s2, s3 := s3 })

/-- Condition for printing a partial result: `printcond` from the source
(six designated bytes of lane 2 are zero). -/
def printcond (pix0 : hkstate_t) : Bool :=
  pix0.s2.b4 == 0 && pix0.s2.b7 == 0 && pix0.s2.b8 == 0 && pix0.s2.b9 == 0
    && pix0.s2.b13 == 0 && pix0.s2.b14 == 0

/-- Condition for a full result (two columns to zero): `fullcond` from the source. -/
def fullcond (pix0 : hkstate_t) : Bool :=
  pix0.s2.b2 == 0 && pix0.s2.b3 == 0 && pix0.s2.b13 == 0 && pix0.s2.b14 == 0
    && pix0.s2.b4 == 0 && pix0.s2.b7 == 0 && pix0.s2.b8 == 0 && pix0.s2.b9 == 0


/-- The forward degrees of freedom built from a loop index in `populatetable`:
`fwddof[k] = (i >> 8k) & 0xFF`. -/
def dof_of_index (i : Nat) : Fin 4 → Nat
  | 0 => i &&& 255
  | 1 => (i >>> 8) &&& 255
  | 2 => (i >>> 16) &&& 255
  | 3 => (i >>> 24) &&& 255

/-- The fixed guess values used by both `populatetable` and `bwdsearch`:
`round2_match_through_mc = {0,...,0,seed}` and all-zero guess vectors. -/
def ctx_of_seed (seed : Nat) : Fin 8 → Nat
  | 7 => seed
  | _ => 0

/-- All-zero x3 guess vector of `populatetable` / `bwdsearch`. -/
def zero_g3 : Fin 20 → Nat := fun _ => 0

/-- All-zero x4 guess vector of `populatetable` / `bwdsearch`. -/
def zero_g4 : Fin 16 → Nat := fun _ => 0

/-- All-zero x5 guess vector of `populatetable` / `bwdsearch`. -/
def zero_g5 : Fin 12 → Nat := fun _ => 0

/-- One buffered record of the forward sweep: the array
`{m0, m1, m2, m3, f0, f1, f2, f3}` pushed into the worker's local buffer. -/
structure fwdrec where
  m0 : Nat
  m1 : Nat
  m2 : Nat
  m3 : Nat
  f0 : Nat
  f1 : Nat
  f2 : Nat
  f3 : Nat
deriving DecidableEq

/-- The record buffered by `populatetable` for loop index i.  The scratch
state `fwds` of the source is a reused uninitialized stack array; its
contents do not influence the result (theorem `computefwd_pure` below), and
we pass the all-zero state. -/
def fwdrec_of (seed i : Nat) : fwdrec :=
  let res := computefwd zero_hk (ctx_of_seed seed) zero_g3 zero_g4 zero_g5 (dof_of_index i)
  { m0 := res.o0, m1 := res.o1, m2 := res.o2, m3 := res.o3,
    f0 := dof_of_index i 0, f1 := dof_of_index i 1,
    f2 := dof_of_index i 2, f3 := dof_of_index i 3 }

/-- The shared match table `fwdvecs`: for each 3-byte index a growing
sequence of packed 5-byte records {m3, f0, f1, f2, f3}. -/
def mtable := Nat → Nat → Nat → List (Nat × Nat × Nat × Nat × Nat)

/-- Appends one forward record to the shard selected by its first three
fingerprint bytes: the `push_back` into `fwdvecs[v[0]][v[1]][v[2]]`. -/
def mtable.push (t : mtable) (v : fwdrec) : mtable :=
  fun a b c =>
    if a = v.m0 ∧ b = v.m1 ∧ c = v.m2 then t a b c ++ [(v.m3, v.f0, v.f1, v.f2, v.f3)]
    else t a b c

/-- Empties a worker buffer into the table in order (the flush loop performed
under the lock). -/
def mtable.flush (t : mtable) (buf : List fwdrec) : mtable := buf.foldl mtable.push t

/-- One iteration of the `populatetable` loop for worker ind: indices with
`i % 4 == ind` are evaluated and buffered; the buffer is flushed into the
table as soon as it exceeds 10000 records (the source counter `bufsize`
always equals the buffer length). -/
def pop_step (seed ind : Nat) (st : mtable × List fwdrec) (i : Nat) : mtable × List fwdrec :=
  if i % 4 = ind then
    let buf := st.2 ++ [fwdrec_of seed i]
    if buf.length > 10000 then (mtable.flush st.1 buf, []) else (st.1, buf)
  else st

/-- The table contribution of one `populatetable` worker: the loop over
`i < size1` starting from table t with an empty buffer.  As in the source,
whatever remains in the local buffer when the loop ends is discarded. -/
def populatetable (t : mtable) (ind seed size1 : Nat) : mtable :=
  ((List.range size1).foldl (pop_step seed ind) (t, [])).1

/-- The match table after the populate phase: all four workers joined.
The real workers interleave their batch flushes under a single lock; a
shard's final content is some interleaving of the per-worker record
sequences, so shard membership is independent of the interleaving and we
model the serialization worker 0, 1, 2, 3. -/
def populatephase (seed size1 : Nat) : mtable :=
  populatetable (populatetable (populatetable (populatetable
    (fun _ _ _ => []) 0 seed size1) 1 seed size1) 2 seed size1) 3 seed size1

/-- Number of loop indices below size1 handled by worker ind (the guard
`i % 4 == ind` of `populatetable`). -/
def fwdcount (size1 ind : Nat) : Nat :=
  ((List.range size1).filter (fun i => i % 4 = ind)).length

/-- Number of records of a worker that have been flushed when its loop ends:
full batches of 10001 only, the trailing `K % 10001` records are lost. -/
def flushedCount (K : Nat) : Nat := K - K % 10001

/-- Loop indices of the forward sweep handled by worker ind: the guard
`i % 4 == ind` in `populatetable`. -/
def fwd_indices (ind size1 : Nat) : List Nat :=
  (List.range size1).filter (fun i => i % 4 = ind)

/-- Loop indices of the backward sweep handled by worker ind: the guard
`i % 4 == uint64_t(ind)` in `bwdsearch`. -/
def bwd_indices (ind size2 : Nat) : List Nat :=
  (List.range size2).filter (fun i => i % 4 = ind)

/-- Byte b of a numeral packing 256 bytes little-endian: the accelerated
lookup used to evaluate the byte tables efficiently in proofs below. -/
def pbyte (P b : Nat) : Nat := (P >>> (8*b)) &&& 255

/-- checkBelow f n is true iff f holds on every number below n (a plain
boolean fold used to evaluate finite checks by kernel reduction). -/
def checkBelow (f : Nat → Bool) : Nat → Bool
  | 0 => true
  | n+1 => f n && checkBelow f n
/-- Flattened form of `aesenc`: every output byte written directly as its
MixColumns combination of S-boxed, ShiftRows-moved input bytes plus the round
constant.  Proven equal to `aesenc` in `aesenc_flat_eq`; used to keep kernel
reduction shallow in the staged proofs below. -/
def aesenc_flat (s : state_t) (r j : Nat) : state_t :=
  { b0 := times2 (sbox s.b0) ^^^ times3 (sbox s.b5) ^^^ (sbox s.b10) ^^^ (sbox s.b15) ^^^ rccon r j 0,
    b1 := (sbox s.b0) ^^^ times2 (sbox s.b5) ^^^ times3 (sbox s.b10) ^^^ (sbox s.b15) ^^^ rccon r j 1,
    b2 := (sbox s.b0) ^^^ (sbox s.b5) ^^^ times2 (sbox s.b10) ^^^ times3 (sbox s.b15) ^^^ rccon r j 2,
    b3 := times3 (sbox s.b0) ^^^ (sbox s.b5) ^^^ (sbox s.b10) ^^^ times2 (sbox s.b15) ^^^ rccon r j 3,
    b4 := times2 (sbox s.b4) ^^^ times3 (sbox s.b9) ^^^ (sbox s.b14) ^^^ (sbox s.b3) ^^^ rccon r j 4,
    b5 := (sbox s.b4) ^^^ times2 (sbox s.b9) ^^^ times3 (sbox s.b14) ^^^ (sbox s.b3) ^^^ rccon r j 5,
    b6 := (sbox s.b4) ^^^ (sbox s.b9) ^^^ times2 (sbox s.b14) ^^^ times3 (sbox s.b3) ^^^ rccon r j 6,
    b7 := times3 (sbox s.b4) ^^^ (sbox s.b9) ^^^ (sbox s.b14) ^^^ times2 (sbox s.b3) ^^^ rccon r j 7,
    b8 := times2 (sbox s.b8) ^^^ times3 (sbox s.b13) ^^^ (sbox s.b2) ^^^ (sbox s.b7) ^^^ rccon r j 8,
    b9 := (sbox s.b8) ^^^ times2 (sbox s.b13) ^^^ times3 (sbox s.b2) ^^^ (sbox s.b7) ^^^ rccon r j 9,
    b10 := (sbox s.b8) ^^^ (sbox s.b13) ^^^ times2 (sbox s.b2) ^^^ times3 (sbox s.b7) ^^^ rccon r j 10,
    b11 := times3 (sbox s.b8) ^^^ (sbox s.b13) ^^^ (sbox s.b2) ^^^ times2 (sbox s.b7) ^^^ rccon r j 11,
    b12 := times2 (sbox s.b12) ^^^ times3 (sbox s.b1) ^^^ (sbox s.b6) ^^^ (sbox s.b11) ^^^ rccon r j 12,
    b13 := (sbox s.b12) ^^^ times2 (sbox s.b1) ^^^ times3 (sbox s.b6) ^^^ (sbox s.b11) ^^^ rccon r j 13,
    b14 := (sbox s.b12) ^^^ (sbox s.b1) ^^^ times2 (sbox s.b6) ^^^ times3 (sbox s.b11) ^^^ rccon r j 14,
    b15 := times3 (sbox s.b12) ^^^ (sbox s.b1) ^^^ (sbox s.b6) ^^^ times2 (sbox s.b11) ^^^ rccon r j 15 }

/-- Flattened form of `invaesenc` (see `aesenc_flat`). -/
def invaesenc_flat (s : state_t) (r j : Nat) : state_t :=
  { b0 := invsbox (times14 (s.b0 ^^^ rccon r j 0) ^^^ times11 (s.b1 ^^^ rccon r j 1) ^^^ times13 (s.b2 ^^^ rccon r j 2) ^^^ times9 (s.b3 ^^^ rccon r j 3)),
    b1 := invsbox (times9 (s.b12 ^^^ rccon r j 12) ^^^ times14 (s.b13 ^^^ rccon r j 13) ^^^ times11 (s.b14 ^^^ rccon r j 14) ^^^ times13 (s.b15 ^^^ rccon r j 15)),
    b2 := invsbox (times13 (s.b8 ^^^ rccon r j 8) ^^^ times9 (s.b9 ^^^ rccon r j 9) ^^^ times14 (s.b10 ^^^ rccon r j 10) ^^^ times11 (s.b11 ^^^ rccon r j 11)),
    b3 := invsbox (times11 (s.b4 ^^^ rccon r j 4) ^^^ times13 (s.b5 ^^^ rccon r j 5) ^^^ times9 (s.b6 ^^^ rccon r j 6) ^^^ times14 (s.b7 ^^^ rccon r j 7)),
    b4 := invsbox (times14 (s.b4 ^^^ rccon r j 4) ^^^ times11 (s.b5 ^^^ rccon r j 5) ^^^ times13 (s.b6 ^^^ rccon r j 6) ^^^ times9 (s.b7 ^^^ rccon r j 7)),
    b5 := invsbox (times9 (s.b0 ^^^ rccon r j 0) ^^^ times14 (s.b1 ^^^ rccon r j 1) ^^^ times11 (s.b2 ^^^ rccon r j 2) ^^^ times13 (s.b3 ^^^ rccon r j 3)),
    b6 := invsbox (times13 (s.b12 ^^^ rccon r j 12) ^^^ times9 (s.b13 ^^^ rccon r j 13) ^^^ times14 (s.b14 ^^^ rccon r j 14) ^^^ times11 (s.b15 ^^^ rccon r j 15)),
    b7 := invsbox (times11 (s.b8 ^^^ rccon r j 8) ^^^ times13 (s.b9 ^^^ rccon r j 9) ^^^ times9 (s.b10 ^^^ rccon r j 10) ^^^ times14 (s.b11 ^^^ rccon r j 11)),
    b8 := invsbox (times14 (s.b8 ^^^ rccon r j 8) ^^^ times11 (s.b9 ^^^ rccon r j 9) ^^^ times13 (s.b10 ^^^ rccon r j 10) ^^^ times9 (s.b11 ^^^ rccon r j 11)),
    b9 := invsbox (times9 (s.b4 ^^^ rccon r j 4) ^^^ times14 (s.b5 ^^^ rccon r j 5) ^^^ times11 (s.b6 ^^^ rccon r j 6) ^^^ times13 (s.b7 ^^^ rccon r j 7)),
    b10 := invsbox (times13 (s.b0 ^^^ rccon r j 0) ^^^ times9 (s.b1 ^^^ rccon r j 1) ^^^ times14 (s.b2 ^^^ rccon r j 2) ^^^ times11 (s.b3 ^^^ rccon r j 3)),
    b11 := invsbox (times11 (s.b12 ^^^ rccon r j 12) ^^^ times13 (s.b13 ^^^ rccon r j 13) ^^^ times9 (s.b14 ^^^ rccon r j 14) ^^^ times14 (s.b15 ^^^ rccon r j 15)),
    b12 := invsbox (times14 (s.b12 ^^^ rccon r j 12) ^^^ times11 (s.b13 ^^^ rccon r j 13) ^^^ times13 (s.b14 ^^^ rccon r j 14) ^^^ times9 (s.b15 ^^^ rccon r j 15)),
    b13 := invsbox (times9 (s.b8 ^^^ rccon r j 8) ^^^ times14 (s.b9 ^^^ rccon r j 9) ^^^ times11 (s.b10 ^^^ rccon r j 10) ^^^ times13 (s.b11 ^^^ rccon r j 11)),
    b14 := invsbox (times13 (s.b4 ^^^ rccon r j 4) ^^^ times9 (s.b5 ^^^ rccon r j 5) ^^^ times14 (s.b6 ^^^ rccon r j 6) ^^^ times11 (s.b7 ^^^ rccon r j 7)),
    b15 := invsbox (times11 (s.b0 ^^^ rccon r j 0) ^^^ times13 (s.b1 ^^^ rccon r j 1) ^^^ times9 (s.b2 ^^^ rccon r j 2) ^^^ times14 (s.b3 ^^^ rccon r j 3)) }

/-- Staging helper: the x3-stage writes of `computefwd_x5`. -/
def fwd_w3 (ctx : Fin 8 → Nat) (g3 : Fin 20 → Nat) (dof : Fin 4 → Nat) (s : hkstate_t) : hkstate_t :=
  { s with
    s0 := { s.s0 with
      b0 := times201 (ctx 0) ^^^ times68 (ctx 1) ^^^ times203 (dof 0) ^^^ rccon 2 0 0,
      b1 := dof 0 ^^^ rccon 2 0 1,
      b2 := times68 (ctx 0) ^^^ times201 (ctx 1) ^^^ times71 (dof 0) ^^^ rccon 2 0 2,
      b5 := times68 (ctx 2) ^^^ times201 (ctx 3) ^^^ times203 (dof 1) ^^^ rccon 2 0 5,
      b6 := dof 1 ^^^ rccon 2 0 6,
      b7 := times201 (ctx 2) ^^^ times68 (ctx 3) ^^^ times71 (dof 1) ^^^ rccon 2 0 7,
      b8 := times201 (ctx 4) ^^^ times68 (ctx 5) ^^^ times71 (dof 2) ^^^ rccon 2 0 8,
      b10 := times68 (ctx 4) ^^^ times201 (ctx 5) ^^^ times203 (dof 2) ^^^ rccon 2 0 10,
      b11 := dof 2 ^^^ rccon 2 0 11,
      b12 := dof 3 ^^^ rccon 2 0 12,
      b13 := times68 (ctx 6) ^^^ times201 (ctx 7) ^^^ times71 (dof 3) ^^^ rccon 2 0 13,
      b15 := times201 (ctx 6) ^^^ times68 (ctx 7) ^^^ times203 (dof 3) ^^^ rccon 2 0 15 },
    s1 := { s.s1 with
      b1 := g3 0,
      b2 := g3 1,
      b6 := g3 2,
      b7 := g3 3,
      b8 := g3 4,
      b11 := g3 5,
      b12 := g3 6,
      b13 := g3 7 },
    s2 := { s.s2 with
      b1 := g3 8,
      b6 := g3 9,
      b11 := g3 10,
      b12 := g3 11 },
    s3 := { s.s3 with
      b0 := g3 12,
      b1 := g3 13,
      b5 := g3 14,
      b6 := g3 15,
      b10 := g3 16,
      b11 := g3 17,
      b12 := g3 18,
      b15 := g3 19 } }

/-- Staging helper: one `aesenc` round on all four lanes at round r. -/
def hk_aes4 (r : Nat) (s : hkstate_t) : hkstate_t :=
  { s with s0 := aesenc s.s0 r 0, s1 := aesenc s.s1 r 1,
           s2 := aesenc s.s2 r 2, s3 := aesenc s.s3 r 3 }

/-- Flat variant of `hk_aes4`. -/
def hk_aes4f (r : Nat) (s : hkstate_t) : hkstate_t :=
  { s with s0 := aesenc_flat s.s0 r 0, s1 := aesenc_flat s.s1 r 1,
           s2 := aesenc_flat s.s2 r 2, s3 := aesenc_flat s.s3 r 3 }

/-- Staging helper: the x4-stage guess writes shared by the evaluators. -/
def hk_w4 (g4 : Fin 16 → Nat) (s : hkstate_t) : hkstate_t :=
  { s with
    s1 := { s.s1 with
      b0 := g4 0,
      b1 := g4 1,
      b2 := g4 2,
      b3 := g4 3,
      b12 := g4 4,
      b13 := g4 5,
      b14 := g4 6,
      b15 := g4 7 },
    s3 := { s.s3 with
      b4 := g4 8,
      b5 := g4 9,
      b6 := g4 10,
      b7 := g4 11,
      b12 := g4 12,
      b13 := g4 13,
      b14 := g4 14,
      b15 := g4 15 } }

/-- Staging helper: round 4 of `computefwd_x5` on lanes 0, 1, 3 only. -/
def fwd_r4p (s : hkstate_t) : hkstate_t :=
  { s with s0 := aesenc s.s0 4 0, s1 := aesenc s.s1 4 1, s3 := aesenc s.s3 4 3 }

/-- Flat variant of `fwd_r4p`. -/
def fwd_r4pf (s : hkstate_t) : hkstate_t :=
  { s with s0 := aesenc_flat s.s0 4 0, s1 := aesenc_flat s.s1 4 1, s3 := aesenc_flat s.s3 4 3 }

/-- Staging helper: the x5-stage guess writes into lane 2. -/
def hk_w5 (g5 : Fin 12 → Nat) (s : hkstate_t) : hkstate_t :=
  { s with
    s2 := { s.s2 with
      b1 := g5 0,
      b2 := g5 1,
      b3 := g5 2,
      b4 := g5 3,
      b6 := g5 4,
      b7 := g5 5,
      b8 := g5 6,
      b9 := g5 7,
      b11 := g5 8,
      b12 := g5 9,
      b13 := g5 10,
      b14 := g5 11 } }

/-- Staging helper: rounds 6 and 7 of `computefwd` on lanes 0, 2, 3 only. -/
def fwd_rp (r : Nat) (s : hkstate_t) : hkstate_t :=
  { s with s0 := aesenc s.s0 r 0, s2 := aesenc s.s2 r 2, s3 := aesenc s.s3 r 3 }

/-- Flat variant of `fwd_rp`. -/
def fwd_rpf (r : Nat) (s : hkstate_t) : hkstate_t :=
  { s with s0 := aesenc_flat s.s0 r 0, s2 := aesenc_flat s.s2 r 2, s3 := aesenc_flat s.s3 r 3 }

/-- Staging helper: writing the backward degrees of freedom into the lane-2 diagonal. -/
def hk_wdiag (dof : Fin 4 → Nat) (s : hkstate_t) : hkstate_t :=
  { s with
    s2 := { s.s2 with
      b0 := dof 0,
      b5 := dof 1,
      b10 := dof 2,
      b15 := dof 3 } }

/-- Staging helper: the x5-stage writes of `computebwd`. -/
def bwd_w5x (g5 : Fin 12 → Nat) (dof : Fin 4 → Nat) (s : hkstate_t) : hkstate_t :=
  { s with
    s2 := { s.s2 with
      b0 := dof 0,
      b1 := g5 0,
      b2 := g5 1,
      b3 := g5 2,
      b4 := g5 3,
      b5 := dof 1,
      b6 := g5 4,
      b7 := g5 5,
      b8 := g5 6,
      b9 := g5 7,
      b10 := dof 2,
      b11 := g5 8,
      b12 := g5 9,
      b13 := g5 10,
      b14 := g5 11,
      b15 := dof 3 } }

/-- Staging helper: `invaesenc` at round r on lane 2 only. -/
def bwd_inv2 (r : Nat) (s : hkstate_t) : hkstate_t :=
  { s with s2 := invaesenc s.s2 r 2 }

/-- Flat variant of `bwd_inv2`. -/
def bwd_inv2f (r : Nat) (s : hkstate_t) : hkstate_t :=
  { s with s2 := invaesenc_flat s.s2 r 2 }

/-- Staging helper: `invaesenc` at round r on lanes 2 and 3. -/
def bwd_inv23 (r : Nat) (s : hkstate_t) : hkstate_t :=
  { s with s2 := invaesenc s.s2 r 2, s3 := invaesenc s.s3 r 3 }

/-- Flat variant of `bwd_inv23`. -/
def bwd_inv23f (r : Nat) (s : hkstate_t) : hkstate_t :=
  { s with s2 := invaesenc_flat s.s2 r 2, s3 := invaesenc_flat s.s3 r 3 }

/-- Staging helper: one `invaesenc` round on all four lanes at round r. -/
def hk_inv4 (r : Nat) (s : hkstate_t) : hkstate_t :=
  { s with s0 := invaesenc s.s0 r 0, s1 := invaesenc s.s1 r 1,
           s2 := invaesenc s.s2 r 2, s3 := invaesenc s.s3 r 3 }

/-- Flat variant of `hk_inv4`. -/
def hk_inv4f (r : Nat) (s : hkstate_t) : hkstate_t :=
  { s with s0 := invaesenc_flat s.s0 r 0, s1 := invaesenc_flat s.s1 r 1,
           s2 := invaesenc_flat s.s2 r 2, s3 := invaesenc_flat s.s3 r 3 }

/-- Staging helper: the x3-stage guess writes of `computebwd` (lanes 1-3). -/
def bwd_w3 (g3 : Fin 20 → Nat) (s : hkstate_t) : hkstate_t :=
  { s with
    s1 := { s.s1 with
      b1 := g3 0,
      b2 := g3 1,
      b6 := g3 2,
      b7 := g3 3,
      b8 := g3 4,
      b11 := g3 5,
      b12 := g3 6,
      b13 := g3 7 },
    s2 := { s.s2 with
      b1 := g3 8,
      b6 := g3 9,
      b11 := g3 10,
      b12 := g3 11 },
    s3 := { s.s3 with
      b0 := g3 12,
      b1 := g3 13,
      b5 := g3 14,
      b6 := g3 15,
      b10 := g3 16,
      b11 := g3 17,
      b12 := g3 18,
      b15 := g3 19 } }

/-- Staging helper: the z2a writes of `computebwd` into lane 0. -/
def bwd_z2a (ctx : Fin 8 → Nat) (s : hkstate_t) : hkstate_t :=
  { s with
    s0 := { s.s0 with
      b1 := ctx 0 ^^^ times13 (s.s0.b3 ^^^ rccon 2 0 3),
      b3 := ctx 1 ^^^ times14 (s.s0.b3 ^^^ rccon 2 0 3),
      b4 := ctx 2 ^^^ times14 (s.s0.b4 ^^^ rccon 2 0 4),
      b6 := ctx 3 ^^^ times13 (s.s0.b4 ^^^ rccon 2 0 4),
      b9 := ctx 4 ^^^ times14 (s.s0.b9 ^^^ rccon 2 0 9),
      b11 := ctx 5 ^^^ times13 (s.s0.b9 ^^^ rccon 2 0 9),
      b12 := ctx 6 ^^^ times13 (s.s0.b14 ^^^ rccon 2 0 14),
      b14 := ctx 7 ^^^ times14 (s.s0.b14 ^^^ rccon 2 0 14) } }

/-- Staging helper: `invsbsr` on lane 0 in `computebwd`. -/
def bwd_sr0 (s : hkstate_t) : hkstate_t :=
  { s with s0 := invsbsr s.s0 }

/-- Staging helper: `invaesenc` at round 2 on lanes 1-3 in `computebwd`. -/
def bwd_r2 (s : hkstate_t) : hkstate_t :=
  { s with s1 := invaesenc s.s1 2 1, s2 := invaesenc s.s2 2 2, s3 := invaesenc s.s3 2 3 }

/-- Flat variant of `bwd_r2`. -/
def bwd_r2f (s : hkstate_t) : hkstate_t :=
  { s with s1 := invaesenc_flat s.s1 2 1, s2 := invaesenc_flat s.s2 2 2, s3 := invaesenc_flat s.s3 2 3 }

/-- Staging helper: the final round-constant addition of `computebwd`. -/
def bwd_xr (s : hkstate_t) : hkstate_t :=
  { s with s2 := xor_rcons s.s2 8 2 }

/-- Staging helper: the identity on Haraka states (a skipped stage). -/
def id_hk (s : hkstate_t) : hkstate_t := s

/-- The fingerprint extraction ending `computebwd` (the four combinations
written into `output_tuple` from the w8c state). -/
def w8c_tuple (s : hkstate_t) : tuple4 :=
  { o0 := times2 s.s2.b2 ^^^ times3 s.s2.b3,
    o1 := s.s2.b4 ^^^ s.s2.b7,
    o2 := times2 s.s2.b8 ^^^ times3 s.s2.b9,
    o3 := s.s2.b13 ^^^ s.s2.b14 }

/-- Liveness mask: keeps the cells proven equal at this stage, zeroes the rest. -/
def mask0 (s : hkstate_t) : hkstate_t :=
  { s0 := { b0 := 0, b1 := 0, b2 := 0, b3 := 0, b4 := 0, b5 := 0, b6 := 0, b7 := 0, b8 := 0, b9 := 0, b10 := 0, b11 := 0, b12 := 0, b13 := 0, b14 := 0, b15 := 0 },
    s1 := { b0 := 0, b1 := 0, b2 := 0, b3 := 0, b4 := 0, b5 := 0, b6 := 0, b7 := 0, b8 := 0, b9 := 0, b10 := 0, b11 := 0, b12 := 0, b13 := 0, b14 := 0, b15 := 0 },
    s2 := { b0 := 0, b1 := 0, b2 := 0, b3 := 0, b4 := 0, b5 := 0, b6 := 0, b7 := 0, b8 := 0, b9 := 0, b10 := 0, b11 := 0, b12 := 0, b13 := 0, b14 := 0, b15 := 0 },
    s3 := { b0 := 0, b1 := 0, b2 := 0, b3 := 0, b4 := 0, b5 := 0, b6 := 0, b7 := 0, b8 := 0, b9 := 0, b10 := 0, b11 := 0, b12 := 0, b13 := 0, b14 := 0, b15 := 0 } }

/-- Liveness mask: keeps the cells proven equal at this stage, zeroes the rest. -/
def mask1 (s : hkstate_t) : hkstate_t :=
  { s0 := { b0 := s.s0.b0, b1 := s.s0.b1, b2 := s.s0.b2, b3 := 0, b4 := 0, b5 := s.s0.b5, b6 := s.s0.b6, b7 := s.s0.b7, b8 := s.s0.b8, b9 := 0, b10 := s.s0.b10, b11 := s.s0.b11, b12 := s.s0.b12, b13 := s.s0.b13, b14 := 0, b15 := s.s0.b15 },
    s1 := { b0 := 0, b1 := s.s1.b1, b2 := s.s1.b2, b3 := 0, b4 := 0, b5 := 0, b6 := s.s1.b6, b7 := s.s1.b7, b8 := s.s1.b8, b9 := 0, b10 := 0, b11 := s.s1.b11, b12 := s.s1.b12, b13 := s.s1.b13, b14 := 0, b15 := 0 },
    s2 := { b0 := 0, b1 := s.s2.b1, b2 := 0, b3 := 0, b4 := 0, b5 := 0, b6 := s.s2.b6, b7 := 0, b8 := 0, b9 := 0, b10 := 0, b11 := s.s2.b11, b12 := s.s2.b12, b13 := 0, b14 := 0, b15 := 0 },
    s3 := { b0 := s.s3.b0, b1 := s.s3.b1, b2 := 0, b3 := 0, b4 := 0, b5 := s.s3.b5, b6 := s.s3.b6, b7 := 0, b8 := 0, b9 := 0, b10 := s.s3.b10, b11 := s.s3.b11, b12 := s.s3.b12, b13 := 0, b14 := 0, b15 := s.s3.b15 } }

/-- Liveness mask: keeps the cells proven equal at this stage, zeroes the rest. -/
def mask2 (s : hkstate_t) : hkstate_t :=
  { s0 := { b0 := s.s0.b0, b1 := s.s0.b1, b2 := s.s0.b2, b3 := s.s0.b3, b4 := 0, b5 := 0, b6 := 0, b7 := 0, b8 := s.s0.b8, b9 := s.s0.b9, b10 := s.s0.b10, b11 := s.s0.b11, b12 := s.s0.b12, b13 := s.s0.b13, b14 := s.s0.b14, b15 := s.s0.b15 },
    s1 := { b0 := 0, b1 := 0, b2 := 0, b3 := 0, b4 := 0, b5 := 0, b6 := 0, b7 := 0, b8 := s.s1.b8, b9 := s.s1.b9, b10 := s.s1.b10, b11 := s.s1.b11, b12 := s.s1.b12, b13 := s.s1.b13, b14 := s.s1.b14, b15 := s.s1.b15 },
    s2 := { b0 := 0, b1 := 0, b2 := 0, b3 := 0, b4 := 0, b5 := 0, b6 := 0, b7 := 0, b8 := 0, b9 := 0, b10 := 0, b11 := 0, b12 := s.s2.b12, b13 := s.s2.b13, b14 := s.s2.b14, b15 := s.s2.b15 },
    s3 := { b0 := s.s3.b0, b1 := s.s3.b1, b2 := s.s3.b2, b3 := s.s3.b3, b4 := 0, b5 := 0, b6 := 0, b7 := 0, b8 := 0, b9 := 0, b10 := 0, b11 := 0, b12 := s.s3.b12, b13 := s.s3.b13, b14 := s.s3.b14, b15 := s.s3.b15 } }

/-- Liveness mask: keeps the cells proven equal at this stage, zeroes the rest. -/
def mask3 (s : hkstate_t) : hkstate_t :=
  { s0 := { b0 := s.s0.b0, b1 := s.s0.b1, b2 := s.s0.b2, b3 := s.s0.b3, b4 := s.s0.b4, b5 := s.s0.b5, b6 := s.s0.b6, b7 := s.s0.b7, b8 := s.s0.b8, b9 := s.s0.b9, b10 := s.s0.b10, b11 := s.s0.b11, b12 := s.s0.b12, b13 := s.s0.b13, b14 := s.s0.b14, b15 := s.s0.b15 },
    s1 := { b0 := 0, b1 := 0, b2 := 0, b3 := 0, b4 := s.s1.b4, b5 := s.s1.b5, b6 := s.s1.b6, b7 := s.s1.b7, b8 := s.s1.b8, b9 := s.s1.b9, b10 := s.s1.b10, b11 := s.s1.b11, b12 := 0, b13 := 0, b14 := 0, b15 := 0 },
    s2 := { b0 := 0, b1 := 0, b2 := 0, b3 := 0, b4 := 0, b5 := 0, b6 := 0, b7 := 0, b8 := 0, b9 := 0, b10 := 0, b11 := 0, b12 := 0, b13 := 0, b14 := 0, b15 := 0 },
    s3 := { b0 := s.s3.b0, b1 := s.s3.b1, b2 := s.s3.b2, b3 := s.s3.b3, b4 := 0, b5 := 0, b6 := 0, b7 := 0, b8 := s.s3.b8, b9 := s.s3.b9, b10 := s.s3.b10, b11 := s.s3.b11, b12 := 0, b13 := 0, b14 := 0, b15 := 0 } }

/-- Liveness mask: keeps the cells proven equal at this stage, zeroes the rest. -/
def mask4 (s : hkstate_t) : hkstate_t :=
  { s0 := { b0 := s.s0.b0, b1 := s.s0.b1, b2 := s.s0.b2, b3 := s.s0.b3, b4 := s.s0.b4, b5 := s.s0.b5, b6 := s.s0.b6, b7 := s.s0.b7, b8 := s.s0.b8, b9 := s.s0.b9, b10 := s.s0.b10, b11 := s.s0.b11, b12 := s.s0.b12, b13 := s.s0.b13, b14 := s.s0.b14, b15 := s.s0.b15 },
    s1 := { b0 := s.s1.b0, b1 := s.s1.b1, b2 := s.s1.b2, b3 := s.s1.b3, b4 := s.s1.b4, b5 := s.s1.b5, b6 := s.s1.b6, b7 := s.s1.b7, b8 := s.s1.b8, b9 := s.s1.b9, b10 := s.s1.b10, b11 := s.s1.b11, b12 := s.s1.b12, b13 := s.s1.b13, b14 := s.s1.b14, b15 := s.s1.b15 },
    s2 := { b0 := 0, b1 := 0, b2 := 0, b3 := 0, b4 := 0, b5 := 0, b6 := 0, b7 := 0, b8 := 0, b9 := 0, b10 := 0, b11 := 0, b12 := 0, b13 := 0, b14 := 0, b15 := 0 },
    s3 := { b0 := s.s3.b0, b1 := s.s3.b1, b2 := s.s3.b2, b3 := s.s3.b3, b4 := s.s3.b4, b5 := s.s3.b5, b6 := s.s3.b6, b7 := s.s3.b7, b8 := s.s3.b8, b9 := s.s3.b9, b10 := s.s3.b10, b11 := s.s3.b11, b12 := s.s3.b12, b13 := s.s3.b13, b14 := s.s3.b14, b15 := s.s3.b15 } }

/-- Liveness mask: keeps the cells proven equal at this stage, zeroes the rest. -/
def mask5 (s : hkstate_t) : hkstate_t :=
  { s0 := { b0 := s.s0.b0, b1 := s.s0.b1, b2 := s.s0.b2, b3 := s.s0.b3, b4 := s.s0.b4, b5 := s.s0.b5, b6 := s.s0.b6, b7 := s.s0.b7, b8 := s.s0.b8, b9 := s.s0.b9, b10 := s.s0.b10, b11 := s.s0.b11, b12 := s.s0.b12, b13 := s.s0.b13, b14 := s.s0.b14, b15 := s.s0.b15 },
    s1 := { b0 := s.s1.b0, b1 := s.s1.b1, b2 := s.s1.b2, b3 := s.s1.b3, b4 := s.s1.b4, b5 := s.s1.b5, b6 := s.s1.b6, b7 := s.s1.b7, b8 := s.s1.b8, b9 := s.s1.b9, b10 := s.s1.b10, b11 := s.s1.b11, b12 := s.s1.b12, b13 := s.s1.b13, b14 := s.s1.b14, b15 := s.s1.b15 },
    s2 := { b0 := 0, b1 := s.s2.b1, b2 := s.s2.b2, b3 := s.s2.b3, b4 := s.s2.b4, b5 := 0, b6 := s.s2.b6, b7 := s.s2.b7, b8 := s.s2.b8, b9 := s.s2.b9, b10 := 0, b11 := s.s2.b11, b12 := s.s2.b12, b13 := s.s2.b13, b14 := s.s2.b14, b15 := 0 },
    s3 := { b0 := s.s3.b0, b1 := s.s3.b1, b2 := s.s3.b2, b3 := s.s3.b3, b4 := s.s3.b4, b5 := s.s3.b5, b6 := s.s3.b6, b7 := s.s3.b7, b8 := s.s3.b8, b9 := s.s3.b9, b10 := s.s3.b10, b11 := s.s3.b11, b12 := s.s3.b12, b13 := s.s3.b13, b14 := s.s3.b14, b15 := s.s3.b15 } }

/-- Liveness mask: keeps the cells proven equal at this stage, zeroes the rest. -/
def mask6 (s : hkstate_t) : hkstate_t :=
  { s0 := { b0 := s.s0.b0, b1 := s.s0.b1, b2 := s.s0.b2, b3 := s.s0.b3, b4 := s.s0.b4, b5 := s.s0.b5, b6 := s.s0.b6, b7 := s.s0.b7, b8 := s.s0.b8, b9 := s.s0.b9, b10 := s.s0.b10, b11 := s.s0.b11, b12 := s.s0.b12, b13 := s.s0.b13, b14 := s.s0.b14, b15 := s.s0.b15 },
    s1 := { b0 := s.s1.b0, b1 := s.s1.b1, b2 := s.s1.b2, b3 := s.s1.b3, b4 := s.s1.b4, b5 := s.s1.b5, b6 := s.s1.b6, b7 := s.s1.b7, b8 := s.s1.b8, b9 := s.s1.b9, b10 := s.s1.b10, b11 := s.s1.b11, b12 := s.s1.b12, b13 := s.s1.b13, b14 := s.s1.b14, b15 := s.s1.b15 },
    s2 := { b0 := 0, b1 := 0, b2 := 0, b3 := 0, b4 := s.s2.b4, b5 := s.s2.b5, b6 := s.s2.b6, b7 := s.s2.b7, b8 := s.s2.b8, b9 := s.s2.b9, b10 := s.s2.b10, b11 := s.s2.b11, b12 := s.s2.b12, b13 := s.s2.b13, b14 := s.s2.b14, b15 := s.s2.b15 },
    s3 := { b0 := s.s3.b0, b1 := s.s3.b1, b2 := s.s3.b2, b3 := s.s3.b3, b4 := s.s3.b4, b5 := s.s3.b5, b6 := s.s3.b6, b7 := s.s3.b7, b8 := s.s3.b8, b9 := s.s3.b9, b10 := s.s3.b10, b11 := s.s3.b11, b12 := s.s3.b12, b13 := s.s3.b13, b14 := s.s3.b14, b15 := s.s3.b15 } }

/-- Liveness mask: keeps the cells proven equal at this stage, zeroes the rest. -/
def mask7 (s : hkstate_t) : hkstate_t :=
  { s0 := { b0 := s.s0.b0, b1 := s.s0.b1, b2 := s.s0.b2, b3 := s.s0.b3, b4 := s.s0.b4, b5 := s.s0.b5, b6 := s.s0.b6, b7 := s.s0.b7, b8 := s.s0.b8, b9 := s.s0.b9, b10 := s.s0.b10, b11 := s.s0.b11, b12 := s.s0.b12, b13 := s.s0.b13, b14 := s.s0.b14, b15 := s.s0.b15 },
    s1 := { b0 := 0, b1 := 0, b2 := 0, b3 := 0, b4 := s.s1.b4, b5 := s.s1.b5, b6 := s.s1.b6, b7 := s.s1.b7, b8 := s.s1.b8, b9 := s.s1.b9, b10 := s.s1.b10, b11 := s.s1.b11, b12 := s.s1.b12, b13 := s.s1.b13, b14 := s.s1.b14, b15 := s.s1.b15 },
    s2 := { b0 := s.s2.b0, b1 := s.s2.b1, b2 := s.s2.b2, b3 := s.s2.b3, b4 := s.s2.b4, b5 := s.s2.b5, b6 := s.s2.b6, b7 := s.s2.b7, b8 := s.s2.b8, b9 := s.s2.b9, b10 := s.s2.b10, b11 := s.s2.b11, b12 := s.s2.b12, b13 := s.s2.b13, b14 := s.s2.b14, b15 := s.s2.b15 },
    s3 := { b0 := s.s3.b0, b1 := s.s3.b1, b2 := s.s3.b2, b3 := s.s3.b3, b4 := s.s3.b4, b5 := s.s3.b5, b6 := s.s3.b6, b7 := s.s3.b7, b8 := s.s3.b8, b9 := s.s3.b9, b10 := s.s3.b10, b11 := s.s3.b11, b12 := s.s3.b12, b13 := s.s3.b13, b14 := s.s3.b14, b15 := s.s3.b15 } }

/-- Liveness mask: keeps the cells proven equal at this stage, zeroes the rest. -/
def mask8 (s : hkstate_t) : hkstate_t :=
  { s0 := { b0 := s.s0.b0, b1 := s.s0.b1, b2 := s.s0.b2, b3 := s.s0.b3, b4 := s.s0.b4, b5 := s.s0.b5, b6 := s.s0.b6, b7 := s.s0.b7, b8 := s.s0.b8, b9 := s.s0.b9, b10 := s.s0.b10, b11 := s.s0.b11, b12 := s.s0.b12, b13 := s.s0.b13, b14 := s.s0.b14, b15 := s.s0.b15 },
    s1 := { b0 := s.s1.b0, b1 := s.s1.b1, b2 := s.s1.b2, b3 := s.s1.b3, b4 := s.s1.b4, b5 := s.s1.b5, b6 := s.s1.b6, b7 := s.s1.b7, b8 := s.s1.b8, b9 := s.s1.b9, b10 := s.s1.b10, b11 := s.s1.b11, b12 := 0, b13 := 0, b14 := 0, b15 := 0 },
    s2 := { b0 := s.s2.b0, b1 := s.s2.b1, b2 := s.s2.b2, b3 := s.s2.b3, b4 := s.s2.b4, b5 := s.s2.b5, b6 := s.s2.b6, b7 := s.s2.b7, b8 := s.s2.b8, b9 := s.s2.b9, b10 := s.s2.b10, b11 := s.s2.b11, b12 := s.s2.b12, b13 := s.s2.b13, b14 := s.s2.b14, b15 := s.s2.b15 },
    s3 := { b0 := s.s3.b0, b1 := s.s3.b1, b2 := s.s3.b2, b3 := s.s3.b3, b4 := s.s3.b4, b5 := s.s3.b5, b6 := s.s3.b6, b7 := s.s3.b7, b8 := s.s3.b8, b9 := s.s3.b9, b10 := s.s3.b10, b11 := s.s3.b11, b12 := s.s3.b12, b13 := s.s3.b13, b14 := s.s3.b14, b15 := s.s3.b15 } }

/-- Liveness mask: keeps the cells proven equal at this stage, zeroes the rest. -/
def mask9 (s : hkstate_t) : hkstate_t :=
  { s0 := { b0 := 0, b1 := 0, b2 := 0, b3 := 0, b4 := 0, b5 := 0, b6 := 0, b7 := 0, b8 := 0, b9 := 0, b10 := 0, b11 := 0, b12 := 0, b13 := 0, b14 := 0, b15 := 0 },
    s1 := { b0 := 0, b1 := 0, b2 := 0, b3 := 0, b4 := 0, b5 := 0, b6 := 0, b7 := 0, b8 := 0, b9 := 0, b10 := 0, b11 := 0, b12 := 0, b13 := 0, b14 := 0, b15 := 0 },
    s2 := { b0 := s.s2.b0, b1 := s.s2.b1, b2 := s.s2.b2, b3 := s.s2.b3, b4 := s.s2.b4, b5 := s.s2.b5, b6 := s.s2.b6, b7 := s.s2.b7, b8 := s.s2.b8, b9 := s.s2.b9, b10 := s.s2.b10, b11 := s.s2.b11, b12 := s.s2.b12, b13 := s.s2.b13, b14 := s.s2.b14, b15 := s.s2.b15 },
    s3 := { b0 := 0, b1 := 0, b2 := 0, b3 := 0, b4 := 0, b5 := 0, b6 := 0, b7 := 0, b8 := 0, b9 := 0, b10 := 0, b11 := 0, b12 := 0, b13 := 0, b14 := 0, b15 := 0 } }

/-- Liveness mask: keeps the cells proven equal at this stage, zeroes the rest. -/
def mask10 (s : hkstate_t) : hkstate_t :=
  { s0 := { b0 := 0, b1 := 0, b2 := 0, b3 := 0, b4 := 0, b5 := 0, b6 := 0, b7 := 0, b8 := 0, b9 := 0, b10 := 0, b11 := 0, b12 := 0, b13 := 0, b14 := 0, b15 := 0 },
    s1 := { b0 := s.s1.b0, b1 := s.s1.b1, b2 := s.s1.b2, b3 := s.s1.b3, b4 := 0, b5 := 0, b6 := 0, b7 := 0, b8 := 0, b9 := 0, b10 := 0, b11 := 0, b12 := s.s1.b12, b13 := s.s1.b13, b14 := s.s1.b14, b15 := s.s1.b15 },
    s2 := { b0 := s.s2.b0, b1 := s.s2.b1, b2 := s.s2.b2, b3 := s.s2.b3, b4 := s.s2.b4, b5 := s.s2.b5, b6 := s.s2.b6, b7 := s.s2.b7, b8 := s.s2.b8, b9 := s.s2.b9, b10 := s.s2.b10, b11 := s.s2.b11, b12 := s.s2.b12, b13 := s.s2.b13, b14 := s.s2.b14, b15 := s.s2.b15 },
    s3 := { b0 := 0, b1 := 0, b2 := 0, b3 := 0, b4 := s.s3.b4, b5 := s.s3.b5, b6 := s.s3.b6, b7 := s.s3.b7, b8 := 0, b9 := 0, b10 := 0, b11 := 0, b12 := s.s3.b12, b13 := s.s3.b13, b14 := s.s3.b14, b15 := s.s3.b15 } }

/-- Liveness mask: keeps the cells proven equal at this stage, zeroes the rest. -/
def mask11 (s : hkstate_t) : hkstate_t :=
  { s0 := { b0 := 0, b1 := 0, b2 := 0, b3 := 0, b4 := s.s0.b4, b5 := s.s0.b5, b6 := s.s0.b6, b7 := s.s0.b7, b8 := 0, b9 := 0, b10 := 0, b11 := 0, b12 := 0, b13 := 0, b14 := 0, b15 := 0 },
    s1 := { b0 := s.s1.b0, b1 := s.s1.b1, b2 := s.s1.b2, b3 := s.s1.b3, b4 := s.s1.b4, b5 := s.s1.b5, b6 := s.s1.b6, b7 := s.s1.b7, b8 := 0, b9 := 0, b10 := 0, b11 := 0, b12 := 0, b13 := 0, b14 := 0, b15 := 0 },
    s2 := { b0 := s.s2.b0, b1 := s.s2.b1, b2 := s.s2.b2, b3 := s.s2.b3, b4 := s.s2.b4, b5 := s.s2.b5, b6 := s.s2.b6, b7 := s.s2.b7, b8 := s.s2.b8, b9 := s.s2.b9, b10 := s.s2.b10, b11 := s.s2.b11, b12 := 0, b13 := 0, b14 := 0, b15 := 0 },
    s3 := { b0 := 0, b1 := 0, b2 := 0, b3 := 0, b4 := s.s3.b4, b5 := s.s3.b5, b6 := s.s3.b6, b7 := s.s3.b7, b8 := s.s3.b8, b9 := s.s3.b9, b10 := s.s3.b10, b11 := s.s3.b11, b12 := 0, b13 := 0, b14 := 0, b15 := 0 } }

/-- Liveness mask: keeps the cells proven equal at this stage, zeroes the rest. -/
def mask12 (s : hkstate_t) : hkstate_t :=
  { s0 := { b0 := 0, b1 := 0, b2 := 0, b3 := s.s0.b3, b4 := s.s0.b4, b5 := 0, b6 := 0, b7 := 0, b8 := 0, b9 := s.s0.b9, b10 := 0, b11 := 0, b12 := 0, b13 := 0, b14 := s.s0.b14, b15 := 0 },
    s1 := { b0 := s.s1.b0, b1 := 0, b2 := 0, b3 := s.s1.b3, b4 := s.s1.b4, b5 := s.s1.b5, b6 := 0, b7 := 0, b8 := 0, b9 := s.s1.b9, b10 := s.s1.b10, b11 := 0, b12 := 0, b13 := 0, b14 := s.s1.b14, b15 := s.s1.b15 },
    s2 := { b0 := s.s2.b0, b1 := 0, b2 := s.s2.b2, b3 := s.s2.b3, b4 := s.s2.b4, b5 := s.s2.b5, b6 := 0, b7 := s.s2.b7, b8 := s.s2.b8, b9 := s.s2.b9, b10 := s.s2.b10, b11 := 0, b12 := 0, b13 := s.s2.b13, b14 := s.s2.b14, b15 := s.s2.b15 },
    s3 := { b0 := 0, b1 := 0, b2 := s.s3.b2, b3 := s.s3.b3, b4 := s.s3.b4, b5 := 0, b6 := 0, b7 := s.s3.b7, b8 := s.s3.b8, b9 := s.s3.b9, b10 := 0, b11 := 0, b12 := 0, b13 := s.s3.b13, b14 := s.s3.b14, b15 := 0 } }

/-- Liveness mask: keeps the cells proven equal at this stage, zeroes the rest. -/
def mask13 (s : hkstate_t) : hkstate_t :=
  { s0 := { b0 := 0, b1 := 0, b2 := 0, b3 := s.s0.b3, b4 := s.s0.b4, b5 := 0, b6 := 0, b7 := 0, b8 := 0, b9 := s.s0.b9, b10 := 0, b11 := 0, b12 := 0, b13 := 0, b14 := s.s0.b14, b15 := 0 },
    s1 := { b0 := s.s1.b0, b1 := s.s1.b1, b2 := s.s1.b2, b3 := s.s1.b3, b4 := s.s1.b4, b5 := s.s1.b5, b6 := s.s1.b6, b7 := s.s1.b7, b8 := s.s1.b8, b9 := s.s1.b9, b10 := s.s1.b10, b11 := s.s1.b11, b12 := s.s1.b12, b13 := s.s1.b13, b14 := s.s1.b14, b15 := s.s1.b15 },
    s2 := { b0 := s.s2.b0, b1 := s.s2.b1, b2 := s.s2.b2, b3 := s.s2.b3, b4 := s.s2.b4, b5 := s.s2.b5, b6 := s.s2.b6, b7 := s.s2.b7, b8 := s.s2.b8, b9 := s.s2.b9, b10 := s.s2.b10, b11 := s.s2.b11, b12 := s.s2.b12, b13 := s.s2.b13, b14 := s.s2.b14, b15 := s.s2.b15 },
    s3 := { b0 := s.s3.b0, b1 := s.s3.b1, b2 := s.s3.b2, b3 := s.s3.b3, b4 := s.s3.b4, b5 := s.s3.b5, b6 := s.s3.b6, b7 := s.s3.b7, b8 := s.s3.b8, b9 := s.s3.b9, b10 := s.s3.b10, b11 := s.s3.b11, b12 := s.s3.b12, b13 := s.s3.b13, b14 := s.s3.b14, b15 := s.s3.b15 } }

/-- Liveness mask: keeps the cells proven equal at this stage, zeroes the rest. -/
def mask14 (s : hkstate_t) : hkstate_t :=
  { s0 := { b0 := 0, b1 := s.s0.b1, b2 := 0, b3 := s.s0.b3, b4 := s.s0.b4, b5 := 0, b6 := s.s0.b6, b7 := 0, b8 := 0, b9 := s.s0.b9, b10 := 0, b11 := s.s0.b11, b12 := s.s0.b12, b13 := 0, b14 := s.s0.b14, b15 := 0 },
    s1 := { b0 := s.s1.b0, b1 := s.s1.b1, b2 := s.s1.b2, b3 := s.s1.b3, b4 := s.s1.b4, b5 := s.s1.b5, b6 := s.s1.b6, b7 := s.s1.b7, b8 := s.s1.b8, b9 := s.s1.b9, b10 := s.s1.b10, b11 := s.s1.b11, b12 := s.s1.b12, b13 := s.s1.b13, b14 := s.s1.b14, b15 := s.s1.b15 },
    s2 := { b0 := s.s2.b0, b1 := s.s2.b1, b2 := s.s2.b2, b3 := s.s2.b3, b4 := s.s2.b4, b5 := s.s2.b5, b6 := s.s2.b6, b7 := s.s2.b7, b8 := s.s2.b8, b9 := s.s2.b9, b10 := s.s2.b10, b11 := s.s2.b11, b12 := s.s2.b12, b13 := s.s2.b13, b14 := s.s2.b14, b15 := s.s2.b15 },
    s3 := { b0 := s.s3.b0, b1 := s.s3.b1, b2 := s.s3.b2, b3 := s.s3.b3, b4 := s.s3.b4, b5 := s.s3.b5, b6 := s.s3.b6, b7 := s.s3.b7, b8 := s.s3.b8, b9 := s.s3.b9, b10 := s.s3.b10, b11 := s.s3.b11, b12 := s.s3.b12, b13 := s.s3.b13, b14 := s.s3.b14, b15 := s.s3.b15 } }

/-- Liveness mask: keeps the cells proven equal at this stage, zeroes the rest. -/
def mask15 (s : hkstate_t) : hkstate_t :=
  { s0 := { b0 := 0, b1 := 0, b2 := 0, b3 := 0, b4 := s.s0.b4, b5 := s.s0.b5, b6 := s.s0.b6, b7 := s.s0.b7, b8 := 0, b9 := 0, b10 := 0, b11 := 0, b12 := s.s0.b12, b13 := s.s0.b13, b14 := s.s0.b14, b15 := s.s0.b15 },
    s1 := { b0 := s.s1.b0, b1 := s.s1.b1, b2 := s.s1.b2, b3 := s.s1.b3, b4 := s.s1.b4, b5 := s.s1.b5, b6 := s.s1.b6, b7 := s.s1.b7, b8 := s.s1.b8, b9 := s.s1.b9, b10 := s.s1.b10, b11 := s.s1.b11, b12 := s.s1.b12, b13 := s.s1.b13, b14 := s.s1.b14, b15 := s.s1.b15 },
    s2 := { b0 := s.s2.b0, b1 := s.s2.b1, b2 := s.s2.b2, b3 := s.s2.b3, b4 := s.s2.b4, b5 := s.s2.b5, b6 := s.s2.b6, b7 := s.s2.b7, b8 := s.s2.b8, b9 := s.s2.b9, b10 := s.s2.b10, b11 := s.s2.b11, b12 := s.s2.b12, b13 := s.s2.b13, b14 := s.s2.b14, b15 := s.s2.b15 },
    s3 := { b0 := s.s3.b0, b1 := s.s3.b1, b2 := s.s3.b2, b3 := s.s3.b3, b4 := s.s3.b4, b5 := s.s3.b5, b6 := s.s3.b6, b7 := s.s3.b7, b8 := s.s3.b8, b9 := s.s3.b9, b10 := s.s3.b10, b11 := s.s3.b11, b12 := s.s3.b12, b13 := s.s3.b13, b14 := s.s3.b14, b15 := s.s3.b15 } }

/-- Liveness mask: keeps the cells proven equal at this stage, zeroes the rest. -/
def mask16 (s : hkstate_t) : hkstate_t :=
  { s0 := { b0 := s.s0.b0, b1 := s.s0.b1, b2 := s.s0.b2, b3 := s.s0.b3, b4 := s.s0.b4, b5 := s.s0.b5, b6 := s.s0.b6, b7 := s.s0.b7, b8 := s.s0.b8, b9 := s.s0.b9, b10 := s.s0.b10, b11 := s.s0.b11, b12 := 0, b13 := 0, b14 := 0, b15 := 0 },
    s1 := { b0 := s.s1.b0, b1 := s.s1.b1, b2 := s.s1.b2, b3 := s.s1.b3, b4 := s.s1.b4, b5 := s.s1.b5, b6 := s.s1.b6, b7 := s.s1.b7, b8 := s.s1.b8, b9 := s.s1.b9, b10 := s.s1.b10, b11 := s.s1.b11, b12 := 0, b13 := 0, b14 := 0, b15 := 0 },
    s2 := { b0 := s.s2.b0, b1 := s.s2.b1, b2 := s.s2.b2, b3 := s.s2.b3, b4 := s.s2.b4, b5 := s.s2.b5, b6 := s.s2.b6, b7 := s.s2.b7, b8 := s.s2.b8, b9 := s.s2.b9, b10 := s.s2.b10, b11 := s.s2.b11, b12 := s.s2.b12, b13 := s.s2.b13, b14 := s.s2.b14, b15 := s.s2.b15 },
    s3 := { b0 := s.s3.b0, b1 := s.s3.b1, b2 := s.s3.b2, b3 := s.s3.b3, b4 := s.s3.b4, b5 := s.s3.b5, b6 := s.s3.b6, b7 := s.s3.b7, b8 := s.s3.b8, b9 := s.s3.b9, b10 := s.s3.b10, b11 := s.s3.b11, b12 := s.s3.b12, b13 := s.s3.b13, b14 := s.s3.b14, b15 := s.s3.b15 } }

/-- Liveness mask: keeps the cells proven equal at this stage, zeroes the rest. -/
def mask17 (s : hkstate_t) : hkstate_t :=
  { s0 := { b0 := s.s0.b0, b1 := s.s0.b1, b2 := s.s0.b2, b3 := s.s0.b3, b4 := s.s0.b4, b5 := s.s0.b5, b6 := s.s0.b6, b7 := s.s0.b7, b8 := s.s0.b8, b9 := s.s0.b9, b10 := s.s0.b10, b11 := s.s0.b11, b12 := s.s0.b12, b13 := s.s0.b13, b14 := s.s0.b14, b15 := s.s0.b15 },
    s1 := { b0 := 0, b1 := 0, b2 := 0, b3 := 0, b4 := s.s1.b4, b5 := s.s1.b5, b6 := s.s1.b6, b7 := s.s1.b7, b8 := s.s1.b8, b9 := s.s1.b9, b10 := s.s1.b10, b11 := s.s1.b11, b12 := s.s1.b12, b13 := s.s1.b13, b14 := s.s1.b14, b15 := s.s1.b15 },
    s2 := { b0 := s.s2.b0, b1 := s.s2.b1, b2 := s.s2.b2, b3 := s.s2.b3, b4 := s.s2.b4, b5 := s.s2.b5, b6 := s.s2.b6, b7 := s.s2.b7, b8 := s.s2.b8, b9 := s.s2.b9, b10 := s.s2.b10, b11 := s.s2.b11, b12 := s.s2.b12, b13 := s.s2.b13, b14 := s.s2.b14, b15 := s.s2.b15 },
    s3 := { b0 := s.s3.b0, b1 := s.s3.b1, b2 := s.s3.b2, b3 := s.s3.b3, b4 := s.s3.b4, b5 := s.s3.b5, b6 := s.s3.b6, b7 := s.s3.b7, b8 := s.s3.b8, b9 := s.s3.b9, b10 := s.s3.b10, b11 := s.s3.b11, b12 := 0, b13 := 0, b14 := 0, b15 := 0 } }

/-- Liveness mask: keeps the cells proven equal at this stage, zeroes the rest. -/
def mask18 (s : hkstate_t) : hkstate_t :=
  { s0 := { b0 := s.s0.b0, b1 := s.s0.b1, b2 := s.s0.b2, b3 := s.s0.b3, b4 := s.s0.b4, b5 := s.s0.b5, b6 := s.s0.b6, b7 := s.s0.b7, b8 := s.s0.b8, b9 := s.s0.b9, b10 := s.s0.b10, b11 := s.s0.b11, b12 := s.s0.b12, b13 := s.s0.b13, b14 := s.s0.b14, b15 := s.s0.b15 },
    s1 := { b0 := 0, b1 := 0, b2 := 0, b3 := 0, b4 := 0, b5 := 0, b6 := 0, b7 := 0, b8 := 0, b9 := 0, b10 := 0, b11 := 0, b12 := 0, b13 := 0, b14 := 0, b15 := 0 },
    s2 := { b0 := s.s2.b0, b1 := s.s2.b1, b2 := s.s2.b2, b3 := s.s2.b3, b4 := s.s2.b4, b5 := s.s2.b5, b6 := s.s2.b6, b7 := s.s2.b7, b8 := s.s2.b8, b9 := s.s2.b9, b10 := s.s2.b10, b11 := s.s2.b11, b12 := s.s2.b12, b13 := s.s2.b13, b14 := s.s2.b14, b15 := s.s2.b15 },
    s3 := { b0 := s.s3.b0, b1 := s.s3.b1, b2 := s.s3.b2, b3 := s.s3.b3, b4 := s.s3.b4, b5 := s.s3.b5, b6 := s.s3.b6, b7 := s.s3.b7, b8 := s.s3.b8, b9 := s.s3.b9, b10 := s.s3.b10, b11 := s.s3.b11, b12 := s.s3.b12, b13 := s.s3.b13, b14 := s.s3.b14, b15 := s.s3.b15 } }

/-- Liveness mask: keeps the cells proven equal at this stage, zeroes the rest. -/
def mask19 (s : hkstate_t) : hkstate_t :=
  { s0 := { b0 := s.s0.b0, b1 := s.s0.b1, b2 := s.s0.b2, b3 := s.s0.b3, b4 := s.s0.b4, b5 := s.s0.b5, b6 := s.s0.b6, b7 := s.s0.b7, b8 := 0, b9 := 0, b10 := 0, b11 := 0, b12 := s.s0.b12, b13 := s.s0.b13, b14 := s.s0.b14, b15 := s.s0.b15 },
    s1 := { b0 := s.s1.b0, b1 := s.s1.b1, b2 := s.s1.b2, b3 := s.s1.b3, b4 := s.s1.b4, b5 := s.s1.b5, b6 := s.s1.b6, b7 := s.s1.b7, b8 := s.s1.b8, b9 := s.s1.b9, b10 := s.s1.b10, b11 := s.s1.b11, b12 := 0, b13 := 0, b14 := 0, b15 := 0 },
    s2 := { b0 := s.s2.b0, b1 := s.s2.b1, b2 := s.s2.b2, b3 := s.s2.b3, b4 := s.s2.b4, b5 := s.s2.b5, b6 := s.s2.b6, b7 := s.s2.b7, b8 := s.s2.b8, b9 := s.s2.b9, b10 := s.s2.b10, b11 := s.s2.b11, b12 := 0, b13 := 0, b14 := 0, b15 := 0 },
    s3 := { b0 := s.s3.b0, b1 := s.s3.b1, b2 := s.s3.b2, b3 := s.s3.b3, b4 := s.s3.b4, b5 := s.s3.b5, b6 := s.s3.b6, b7 := s.s3.b7, b8 := 0, b9 := 0, b10 := 0, b11 := 0, b12 := s.s3.b12, b13 := s.s3.b13, b14 := s.s3.b14, b15 := s.s3.b15 } }
/-- The flattened round equals the round of the source. -/
theorem aesenc_flat_eq (s : state_t) (r j : Nat) : aesenc_flat s r j = aesenc s r j := rfl

/-- The flattened inverse round equals the inverse round of the source. -/
theorem invaesenc_flat_eq (s : state_t) (r j : Nat) : invaesenc_flat s r j = invaesenc s r j := rfl

/-- The flat stage equals the stage built on the source rounds. -/
theorem hk_aes4f_eq (r : Nat) (s : hkstate_t) : hk_aes4f r s = hk_aes4 r s := by
  simp only [hk_aes4f, hk_aes4, aesenc_flat_eq, invaesenc_flat_eq]

/-- The flat stage equals the stage built on the source rounds. -/
theorem fwd_r4pf_eq (s : hkstate_t) : fwd_r4pf s = fwd_r4p s := by
  simp only [fwd_r4pf, fwd_r4p, aesenc_flat_eq, invaesenc_flat_eq]

/-- The flat stage equals the stage built on the source rounds. -/
theorem fwd_rpf_eq (r : Nat) (s : hkstate_t) : fwd_rpf r s = fwd_rp r s := by
  simp only [fwd_rpf, fwd_rp, aesenc_flat_eq, invaesenc_flat_eq]

/-- The flat stage equals the stage built on the source rounds. -/
theorem bwd_inv2f_eq (r : Nat) (s : hkstate_t) : bwd_inv2f r s = bwd_inv2 r s := by
  simp only [bwd_inv2f, bwd_inv2, aesenc_flat_eq, invaesenc_flat_eq]

/-- The flat stage equals the stage built on the source rounds. -/
theorem bwd_inv23f_eq (r : Nat) (s : hkstate_t) : bwd_inv23f r s = bwd_inv23 r s := by
  simp only [bwd_inv23f, bwd_inv23, aesenc_flat_eq, invaesenc_flat_eq]

/-- The flat stage equals the stage built on the source rounds. -/
theorem hk_inv4f_eq (r : Nat) (s : hkstate_t) : hk_inv4f r s = hk_inv4 r s := by
  simp only [hk_inv4f, hk_inv4, aesenc_flat_eq, invaesenc_flat_eq]

/-- The flat stage equals the stage built on the source rounds. -/
theorem bwd_r2f_eq (s : hkstate_t) : bwd_r2f s = bwd_r2 s := by
  simp only [bwd_r2f, bwd_r2, aesenc_flat_eq, invaesenc_flat_eq]

/-- `computefwd` as the composition of its flat stages. -/
theorem computefwd_staged (s : hkstate_t) (ctx : Fin 8 → Nat) (g3 : Fin 20 → Nat)
    (g4 : Fin 16 → Nat) (g5 : Fin 12 → Nat) (dof : Fin 4 → Nat) :
    computefwd s ctx g3 g4 g5 dof = z8_tuple (mix512 (fwd_rpf 7 (fwd_rpf 6 (mix512 (hk_aes4f 5 (hk_w5 g5 (fwd_r4pf (hk_w4 g4 (mix512 (hk_aes4f 3 (fwd_w3 ctx g3 dof (s)))))))))))) := by
  have h : computefwd s ctx g3 g4 g5 dof = z8_tuple (mix512 (fwd_rp 7 (fwd_rp 6 (mix512 (hk_aes4 5 (hk_w5 g5 (fwd_r4p (hk_w4 g4 (mix512 (hk_aes4 3 (fwd_w3 ctx g3 dof (s)))))))))))) := rfl
  rw [h]
  simp only [hk_aes4f_eq, fwd_r4pf_eq, fwd_rpf_eq]

/-- `computebwd` as the composition of its flat stages. -/
theorem computebwd_staged (s : hkstate_t) (ctx : Fin 8 → Nat) (g3 : Fin 20 → Nat)
    (g4 : Fin 16 → Nat) (g5 : Fin 12 → Nat) (dof : Fin 4 → Nat) :
    computebwd s ctx g3 g4 g5 dof = w8c_tuple (bwd_xr (bwd_inv2f 9 (invmix512 (bwd_inv23f 0 (bwd_inv23f 1 (invmix512 (bwd_r2f (bwd_sr0 (bwd_z2a ctx (bwd_w3 g3 (hk_inv4f 3 (invmix512 (hk_w4 g4 (bwd_inv2f 4 (bwd_w5x g5 dof (s)))))))))))))))) := by
  have h : computebwd s ctx g3 g4 g5 dof = w8c_tuple (bwd_xr (bwd_inv2 9 (invmix512 (bwd_inv23 0 (bwd_inv23 1 (invmix512 (bwd_r2 (bwd_sr0 (bwd_z2a ctx (bwd_w3 g3 (hk_inv4 3 (invmix512 (hk_w4 g4 (bwd_inv2 4 (bwd_w5x g5 dof (s)))))))))))))))) := rfl
  rw [h]
  simp only [hk_inv4f_eq, bwd_inv2f_eq, bwd_inv23f_eq, bwd_r2f_eq]

/-- The true rounds 5-7 of the full x5 candidate, as flat stages. -/
theorem tail_staged (s' : hkstate_t) (ctx : Fin 8 → Nat) (g3 : Fin 20 → Nat)
    (g4 : Fin 16 → Nat) (g5 : Fin 12 → Nat) (fdof bdof : Fin 4 → Nat) :
    z8_tuple (haraka_round 7 (haraka_round 6 (haraka_round 5 (x5cand s' ctx g3 g4 g5 fdof bdof)))) =
      z8_tuple (mix512 (hk_aes4f 7 (hk_aes4f 6 (mix512 (hk_aes4f 5 (hk_wdiag bdof (hk_w5 g5 (fwd_r4pf (hk_w4 g4 (mix512 (hk_aes4f 3 (fwd_w3 ctx g3 fdof (s'))))))))))))) := by
  have h : z8_tuple (haraka_round 7 (haraka_round 6 (haraka_round 5 (x5cand s' ctx g3 g4 g5 fdof bdof)))) =
      z8_tuple (mix512 (hk_aes4 7 (hk_aes4 6 (mix512 (hk_aes4 5 (hk_wdiag bdof (hk_w5 g5 (fwd_r4p (hk_w4 g4 (mix512 (hk_aes4 3 (fwd_w3 ctx g3 fdof (s'))))))))))))) := rfl
  rw [h]
  simp only [hk_aes4f_eq, fwd_r4pf_eq]

/-- Mask commutation: zeroing the dead cells before this stage does not
change the cells live after it. -/
theorem mc_mask0_mask1_fwd_w3_ctx_g3_dof (ctx : Fin 8 → Nat) (g3 : Fin 20 → Nat) (dof : Fin 4 → Nat) (Z : hkstate_t) :
    mask1 (fwd_w3 ctx g3 dof (mask0 Z)) = mask1 (fwd_w3 ctx g3 dof Z) := by
  simp only [mask1, mask0, fwd_w3, aesenc_flat, invaesenc_flat, mix512, invmix512, sbsr, invsbsr, shiftrows, invshiftrows, subbytes, invsubbytes, xor_rcons]

/-- Mask commutation: zeroing the dead cells before this stage does not
change the cells live after it. -/
theorem mc_mask1_mask2_hk_aes4f_3 (Z : hkstate_t) :
    mask2 (hk_aes4f 3 (mask1 Z)) = mask2 (hk_aes4f 3 Z) := by
  simp only [mask2, mask1, hk_aes4f, aesenc_flat, invaesenc_flat, mix512, invmix512, sbsr, invsbsr, shiftrows, invshiftrows, subbytes, invsubbytes, xor_rcons]

/-- Mask commutation: zeroing the dead cells before this stage does not
change the cells live after it. -/
theorem mc_mask2_mask3_mix512 (Z : hkstate_t) :
    mask3 (mix512 (mask2 Z)) = mask3 (mix512 Z) := by
  simp only [mask3, mask2, mix512, aesenc_flat, invaesenc_flat, mix512, invmix512, sbsr, invsbsr, shiftrows, invshiftrows, subbytes, invsubbytes, xor_rcons]

/-- Mask commutation: zeroing the dead cells before this stage does not
change the cells live after it. -/
theorem mc_mask3_mask4_hk_w4_g4 (g4 : Fin 16 → Nat) (Z : hkstate_t) :
    mask4 (hk_w4 g4 (mask3 Z)) = mask4 (hk_w4 g4 Z) := by
  simp only [mask4, mask3, hk_w4, aesenc_flat, invaesenc_flat, mix512, invmix512, sbsr, invsbsr, shiftrows, invshiftrows, subbytes, invsubbytes, xor_rcons]

/-- Mask commutation: zeroing the dead cells before this stage does not
change the cells live after it. -/
theorem mc_mask4_mask4_fwd_r4pf (Z : hkstate_t) :
    mask4 (fwd_r4pf (mask4 Z)) = mask4 (fwd_r4pf Z) := by
  simp only [mask4, mask4, fwd_r4pf, aesenc_flat, invaesenc_flat, mix512, invmix512, sbsr, invsbsr, shiftrows, invshiftrows, subbytes, invsubbytes, xor_rcons]

/-- Mask commutation: zeroing the dead cells before this stage does not
change the cells live after it. -/
theorem mc_mask4_mask5_hk_w5_g5 (g5 : Fin 12 → Nat) (Z : hkstate_t) :
    mask5 (hk_w5 g5 (mask4 Z)) = mask5 (hk_w5 g5 Z) := by
  simp only [mask5, mask4, hk_w5, aesenc_flat, invaesenc_flat, mix512, invmix512, sbsr, invsbsr, shiftrows, invshiftrows, subbytes, invsubbytes, xor_rcons]

/-- Mask commutation: zeroing the dead cells before this stage does not
change the cells live after it. -/
theorem mc_mask5_mask6_hk_aes4f_5 (Z : hkstate_t) :
    mask6 (hk_aes4f 5 (mask5 Z)) = mask6 (hk_aes4f 5 Z) := by
  simp only [mask6, mask5, hk_aes4f, aesenc_flat, invaesenc_flat, mix512, invmix512, sbsr, invsbsr, shiftrows, invshiftrows, subbytes, invsubbytes, xor_rcons]

/-- Mask commutation: zeroing the dead cells before this stage does not
change the cells live after it. -/
theorem mc_mask6_mask7_mix512 (Z : hkstate_t) :
    mask7 (mix512 (mask6 Z)) = mask7 (mix512 Z) := by
  simp only [mask7, mask6, mix512, aesenc_flat, invaesenc_flat, mix512, invmix512, sbsr, invsbsr, shiftrows, invshiftrows, subbytes, invsubbytes, xor_rcons]

/-- Mask commutation: zeroing the dead cells before this stage does not
change the cells live after it. -/
theorem mc_mask7_mask7_fwd_rpf_6 (Z : hkstate_t) :
    mask7 (fwd_rpf 6 (mask7 Z)) = mask7 (fwd_rpf 6 Z) := by
  simp only [mask7, mask7, fwd_rpf, aesenc_flat, invaesenc_flat, mix512, invmix512, sbsr, invsbsr, shiftrows, invshiftrows, subbytes, invsubbytes, xor_rcons]

/-- Mask commutation: zeroing the dead cells before this stage does not
change the cells live after it. -/
theorem mc_mask7_mask7_fwd_rpf_7 (Z : hkstate_t) :
    mask7 (fwd_rpf 7 (mask7 Z)) = mask7 (fwd_rpf 7 Z) := by
  simp only [mask7, mask7, fwd_rpf, aesenc_flat, invaesenc_flat, mix512, invmix512, sbsr, invsbsr, shiftrows, invshiftrows, subbytes, invsubbytes, xor_rcons]

/-- Mask commutation: zeroing the dead cells before this stage does not
change the cells live after it. -/
theorem mc_mask7_mask8_mix512 (Z : hkstate_t) :
    mask8 (mix512 (mask7 Z)) = mask8 (mix512 Z) := by
  simp only [mask8, mask7, mix512, aesenc_flat, invaesenc_flat, mix512, invmix512, sbsr, invsbsr, shiftrows, invshiftrows, subbytes, invsubbytes, xor_rcons]

/-- Final mask step: the output tuple reads only live cells. -/
theorem fin_fwdp (Z : hkstate_t) :
    z8_tuple  (mask8 Z) = z8_tuple Z := by
  simp only [z8_tuple, mask8, sbsr, invsbsr, shiftrows, invshiftrows, subbytes, invsubbytes]

/-- Mask commutation: zeroing the dead cells before this stage does not
change the cells live after it. -/
theorem mc_mask0_mask9_bwd_w5x_g5_dof (g5 : Fin 12 → Nat) (dof : Fin 4 → Nat) (Z : hkstate_t) :
    mask9 (bwd_w5x g5 dof (mask0 Z)) = mask9 (bwd_w5x g5 dof Z) := by
  simp only [mask9, mask0, bwd_w5x, aesenc_flat, invaesenc_flat, mix512, invmix512, sbsr, invsbsr, shiftrows, invshiftrows, subbytes, invsubbytes, xor_rcons]

/-- Mask commutation: zeroing the dead cells before this stage does not
change the cells live after it. -/
theorem mc_mask9_mask9_bwd_inv2f_4 (Z : hkstate_t) :
    mask9 (bwd_inv2f 4 (mask9 Z)) = mask9 (bwd_inv2f 4 Z) := by
  simp only [mask9, mask9, bwd_inv2f, aesenc_flat, invaesenc_flat, mix512, invmix512, sbsr, invsbsr, shiftrows, invshiftrows, subbytes, invsubbytes, xor_rcons]

/-- Mask commutation: zeroing the dead cells before this stage does not
change the cells live after it. -/
theorem mc_mask9_mask10_hk_w4_g4 (g4 : Fin 16 → Nat) (Z : hkstate_t) :
    mask10 (hk_w4 g4 (mask9 Z)) = mask10 (hk_w4 g4 Z) := by
  simp only [mask10, mask9, hk_w4, aesenc_flat, invaesenc_flat, mix512, invmix512, sbsr, invsbsr, shiftrows, invshiftrows, subbytes, invsubbytes, xor_rcons]

/-- Mask commutation: zeroing the dead cells before this stage does not
change the cells live after it. -/
theorem mc_mask10_mask11_invmix512 (Z : hkstate_t) :
    mask11 (invmix512 (mask10 Z)) = mask11 (invmix512 Z) := by
  simp only [mask11, mask10, invmix512, aesenc_flat, invaesenc_flat, mix512, invmix512, sbsr, invsbsr, shiftrows, invshiftrows, subbytes, invsubbytes, xor_rcons]

/-- Mask commutation: zeroing the dead cells before this stage does not
change the cells live after it. -/
theorem mc_mask11_mask12_hk_inv4f_3 (Z : hkstate_t) :
    mask12 (hk_inv4f 3 (mask11 Z)) = mask12 (hk_inv4f 3 Z) := by
  simp only [mask12, mask11, hk_inv4f, aesenc_flat, invaesenc_flat, mix512, invmix512, sbsr, invsbsr, shiftrows, invshiftrows, subbytes, invsubbytes, xor_rcons]

/-- Mask commutation: zeroing the dead cells before this stage does not
change the cells live after it. -/
theorem mc_mask12_mask13_bwd_w3_g3 (g3 : Fin 20 → Nat) (Z : hkstate_t) :
    mask13 (bwd_w3 g3 (mask12 Z)) = mask13 (bwd_w3 g3 Z) := by
  simp only [mask13, mask12, bwd_w3, aesenc_flat, invaesenc_flat, mix512, invmix512, sbsr, invsbsr, shiftrows, invshiftrows, subbytes, invsubbytes, xor_rcons]

/-- Mask commutation: zeroing the dead cells before this stage does not
change the cells live after it. -/
theorem mc_mask13_mask14_bwd_z2a_ctx (ctx : Fin 8 → Nat) (Z : hkstate_t) :
    mask14 (bwd_z2a ctx (mask13 Z)) = mask14 (bwd_z2a ctx Z) := by
  simp only [mask14, mask13, bwd_z2a, aesenc_flat, invaesenc_flat, mix512, invmix512, sbsr, invsbsr, shiftrows, invshiftrows, subbytes, invsubbytes, xor_rcons]

/-- Mask commutation: zeroing the dead cells before this stage does not
change the cells live after it. -/
theorem mc_mask14_mask15_bwd_sr0 (Z : hkstate_t) :
    mask15 (bwd_sr0 (mask14 Z)) = mask15 (bwd_sr0 Z) := by
  simp only [mask15, mask14, bwd_sr0, aesenc_flat, invaesenc_flat, mix512, invmix512, sbsr, invsbsr, shiftrows, invshiftrows, subbytes, invsubbytes, xor_rcons]

/-- Mask commutation: zeroing the dead cells before this stage does not
change the cells live after it. -/
theorem mc_mask15_mask15_bwd_r2f (Z : hkstate_t) :
    mask15 (bwd_r2f (mask15 Z)) = mask15 (bwd_r2f Z) := by
  simp only [mask15, mask15, bwd_r2f, aesenc_flat, invaesenc_flat, mix512, invmix512, sbsr, invsbsr, shiftrows, invshiftrows, subbytes, invsubbytes, xor_rcons]

/-- Mask commutation: zeroing the dead cells before this stage does not
change the cells live after it. -/
theorem mc_mask15_mask16_invmix512 (Z : hkstate_t) :
    mask16 (invmix512 (mask15 Z)) = mask16 (invmix512 Z) := by
  simp only [mask16, mask15, invmix512, aesenc_flat, invaesenc_flat, mix512, invmix512, sbsr, invsbsr, shiftrows, invshiftrows, subbytes, invsubbytes, xor_rcons]

/-- Mask commutation: zeroing the dead cells before this stage does not
change the cells live after it. -/
theorem mc_mask16_mask16_bwd_inv23f_1 (Z : hkstate_t) :
    mask16 (bwd_inv23f 1 (mask16 Z)) = mask16 (bwd_inv23f 1 Z) := by
  simp only [mask16, mask16, bwd_inv23f, aesenc_flat, invaesenc_flat, mix512, invmix512, sbsr, invsbsr, shiftrows, invshiftrows, subbytes, invsubbytes, xor_rcons]

/-- Mask commutation: zeroing the dead cells before this stage does not
change the cells live after it. -/
theorem mc_mask16_mask16_bwd_inv23f_0 (Z : hkstate_t) :
    mask16 (bwd_inv23f 0 (mask16 Z)) = mask16 (bwd_inv23f 0 Z) := by
  simp only [mask16, mask16, bwd_inv23f, aesenc_flat, invaesenc_flat, mix512, invmix512, sbsr, invsbsr, shiftrows, invshiftrows, subbytes, invsubbytes, xor_rcons]

/-- Mask commutation: zeroing the dead cells before this stage does not
change the cells live after it. -/
theorem mc_mask16_mask17_invmix512 (Z : hkstate_t) :
    mask17 (invmix512 (mask16 Z)) = mask17 (invmix512 Z) := by
  simp only [mask17, mask16, invmix512, aesenc_flat, invaesenc_flat, mix512, invmix512, sbsr, invsbsr, shiftrows, invshiftrows, subbytes, invsubbytes, xor_rcons]

/-- Mask commutation: zeroing the dead cells before this stage does not
change the cells live after it. -/
theorem mc_mask17_mask17_bwd_inv2f_9 (Z : hkstate_t) :
    mask17 (bwd_inv2f 9 (mask17 Z)) = mask17 (bwd_inv2f 9 Z) := by
  simp only [mask17, mask17, bwd_inv2f, aesenc_flat, invaesenc_flat, mix512, invmix512, sbsr, invsbsr, shiftrows, invshiftrows, subbytes, invsubbytes, xor_rcons]

/-- Mask commutation: zeroing the dead cells before this stage does not
change the cells live after it. -/
theorem mc_mask17_mask17_bwd_xr (Z : hkstate_t) :
    mask17 (bwd_xr (mask17 Z)) = mask17 (bwd_xr Z) := by
  simp only [mask17, mask17, bwd_xr, aesenc_flat, invaesenc_flat, mix512, invmix512, sbsr, invsbsr, shiftrows, invshiftrows, subbytes, invsubbytes, xor_rcons]

/-- Final mask step: the output tuple reads only live cells. -/
theorem fin_bwdp (Z : hkstate_t) :
    w8c_tuple  (mask17 Z) = w8c_tuple Z := by
  simp only [w8c_tuple, mask17, sbsr, invsbsr, shiftrows, invshiftrows, subbytes, invsubbytes]

/-- Mask commutation: zeroing the dead cells before this stage does not
change the cells live after it. -/
theorem mc_mask0_mask1_fwd_w3_ctx_g3_fdof (ctx : Fin 8 → Nat) (g3 : Fin 20 → Nat) (fdof : Fin 4 → Nat) (Z : hkstate_t) :
    mask1 (fwd_w3 ctx g3 fdof (mask0 Z)) = mask1 (fwd_w3 ctx g3 fdof Z) := by
  simp only [mask1, mask0, fwd_w3, aesenc_flat, invaesenc_flat, mix512, invmix512, sbsr, invsbsr, shiftrows, invshiftrows, subbytes, invsubbytes, xor_rcons]

/-- Mask commutation: zeroing the dead cells before this stage does not
change the cells live after it. -/
theorem mc_mask5_mask5_id_hk (Z : hkstate_t) :
    mask5 (id_hk (mask5 Z)) = mask5 (id_hk Z) := by
  simp only [mask5, mask5, id_hk, aesenc_flat, invaesenc_flat, mix512, invmix512, sbsr, invsbsr, shiftrows, invshiftrows, subbytes, invsubbytes, xor_rcons]

/-- Mask commutation: zeroing the dead cells before this stage does not
change the cells live after it. -/
theorem mc_mask5_mask5_hk_wdiag_bdof (bdof : Fin 4 → Nat) (Z : hkstate_t) :
    mask5 (hk_wdiag bdof (mask5 Z)) = mask5 (hk_wdiag bdof Z) := by
  simp only [mask5, mask5, hk_wdiag, aesenc_flat, invaesenc_flat, mix512, invmix512, sbsr, invsbsr, shiftrows, invshiftrows, subbytes, invsubbytes, xor_rcons]

/-- Mask cross step: on masked input the two stage variants agree on the
live output cells (the cells they treat differently are dead). -/
theorem cr_tail_6 (Z : hkstate_t) :
    mask5 (id_hk (mask5 Z)) = mask5 (hk_wdiag bdof (mask5 Z)) := by
  simp only [mask5, mask5, id_hk, hk_wdiag, aesenc_flat, invaesenc_flat, mix512, invmix512, sbsr, invsbsr, shiftrows, invshiftrows, subbytes, invsubbytes, xor_rcons]

/-- Mask commutation: zeroing the dead cells before this stage does not
change the cells live after it. -/
theorem mc_mask7_mask18_fwd_rpf_6 (Z : hkstate_t) :
    mask18 (fwd_rpf 6 (mask7 Z)) = mask18 (fwd_rpf 6 Z) := by
  simp only [mask18, mask7, fwd_rpf, aesenc_flat, invaesenc_flat, mix512, invmix512, sbsr, invsbsr, shiftrows, invshiftrows, subbytes, invsubbytes, xor_rcons]

/-- Mask commutation: zeroing the dead cells before this stage does not
change the cells live after it. -/
theorem mc_mask7_mask18_hk_aes4f_6 (Z : hkstate_t) :
    mask18 (hk_aes4f 6 (mask7 Z)) = mask18 (hk_aes4f 6 Z) := by
  simp only [mask18, mask7, hk_aes4f, aesenc_flat, invaesenc_flat, mix512, invmix512, sbsr, invsbsr, shiftrows, invshiftrows, subbytes, invsubbytes, xor_rcons]

/-- Mask cross step: on masked input the two stage variants agree on the
live output cells (the cells they treat differently are dead). -/
theorem cr_tail_9 (Z : hkstate_t) :
    mask18 (fwd_rpf 6 (mask7 Z)) = mask18 (hk_aes4f 6 (mask7 Z)) := by
  simp only [mask18, mask7, fwd_rpf, hk_aes4f, aesenc_flat, invaesenc_flat, mix512, invmix512, sbsr, invsbsr, shiftrows, invshiftrows, subbytes, invsubbytes, xor_rcons]

/-- Mask commutation: zeroing the dead cells before this stage does not
change the cells live after it. -/
theorem mc_mask18_mask18_fwd_rpf_7 (Z : hkstate_t) :
    mask18 (fwd_rpf 7 (mask18 Z)) = mask18 (fwd_rpf 7 Z) := by
  simp only [mask18, mask18, fwd_rpf, aesenc_flat, invaesenc_flat, mix512, invmix512, sbsr, invsbsr, shiftrows, invshiftrows, subbytes, invsubbytes, xor_rcons]

/-- Mask commutation: zeroing the dead cells before this stage does not
change the cells live after it. -/
theorem mc_mask18_mask18_hk_aes4f_7 (Z : hkstate_t) :
    mask18 (hk_aes4f 7 (mask18 Z)) = mask18 (hk_aes4f 7 Z) := by
  simp only [mask18, mask18, hk_aes4f, aesenc_flat, invaesenc_flat, mix512, invmix512, sbsr, invsbsr, shiftrows, invshiftrows, subbytes, invsubbytes, xor_rcons]

/-- Mask cross step: on masked input the two stage variants agree on the
live output cells (the cells they treat differently are dead). -/
theorem cr_tail_10 (Z : hkstate_t) :
    mask18 (fwd_rpf 7 (mask18 Z)) = mask18 (hk_aes4f 7 (mask18 Z)) := by
  simp only [mask18, mask18, fwd_rpf, hk_aes4f, aesenc_flat, invaesenc_flat, mix512, invmix512, sbsr, invsbsr, shiftrows, invshiftrows, subbytes, invsubbytes, xor_rcons]

/-- Mask commutation: zeroing the dead cells before this stage does not
change the cells live after it. -/
theorem mc_mask18_mask19_mix512 (Z : hkstate_t) :
    mask19 (mix512 (mask18 Z)) = mask19 (mix512 Z) := by
  simp only [mask19, mask18, mix512, aesenc_flat, invaesenc_flat, mix512, invmix512, sbsr, invsbsr, shiftrows, invshiftrows, subbytes, invsubbytes, xor_rcons]

/-- Final mask step: the output tuple reads only live cells. -/
theorem fin_tail (Z : hkstate_t) :
    z8_tuple  (mask19 Z) = z8_tuple Z := by
  simp only [z8_tuple, mask19, sbsr, invsbsr, shiftrows, invshiftrows, subbytes, invsubbytes]

/-- The forward evaluator ignores the initial contents of the caller scratch
state: its output tuple is a function of the declared inputs only. -/
theorem computefwd_pure (s s' : hkstate_t) (ctx : Fin 8 → Nat) (g3 : Fin 20 → Nat)
    (g4 : Fin 16 → Nat) (g5 : Fin 12 → Nat) (dof : Fin 4 → Nat) :
    computefwd s ctx g3 g4 g5 dof = computefwd s' ctx g3 g4 g5 dof := by
  rw [computefwd_staged s ctx g3 g4 g5 dof, computefwd_staged s' ctx g3 g4 g5 dof]
  let X0 : hkstate_t := s
  let Y0 : hkstate_t := s'
  have e0 : mask0 X0 = mask0 Y0 := rfl
  let X1 : hkstate_t := fwd_w3 ctx g3 dof X0
  let Y1 : hkstate_t := fwd_w3 ctx g3 dof Y0
  have e1 : mask1 X1 = mask1 Y1 :=
    ((mc_mask0_mask1_fwd_w3_ctx_g3_dof ctx g3 dof X0).symm.trans (congrArg (fun t => mask1 (fwd_w3 ctx g3 dof t)) e0)).trans (mc_mask0_mask1_fwd_w3_ctx_g3_dof ctx g3 dof Y0)
  let X2 : hkstate_t := hk_aes4f 3 X1
  let Y2 : hkstate_t := hk_aes4f 3 Y1
  have e2 : mask2 X2 = mask2 Y2 :=
    ((mc_mask1_mask2_hk_aes4f_3 X1).symm.trans (congrArg (fun t => mask2 (hk_aes4f 3 t)) e1)).trans (mc_mask1_mask2_hk_aes4f_3 Y1)
  let X3 : hkstate_t := mix512 X2
  let Y3 : hkstate_t := mix512 Y2
  have e3 : mask3 X3 = mask3 Y3 :=
    ((mc_mask2_mask3_mix512 X2).symm.trans (congrArg (fun t => mask3 (mix512 t)) e2)).trans (mc_mask2_mask3_mix512 Y2)
  let X4 : hkstate_t := hk_w4 g4 X3
  let Y4 : hkstate_t := hk_w4 g4 Y3
  have e4 : mask4 X4 = mask4 Y4 :=
    ((mc_mask3_mask4_hk_w4_g4 g4 X3).symm.trans (congrArg (fun t => mask4 (hk_w4 g4 t)) e3)).trans (mc_mask3_mask4_hk_w4_g4 g4 Y3)
  let X5 : hkstate_t := fwd_r4pf X4
  let Y5 : hkstate_t := fwd_r4pf Y4
  have e5 : mask4 X5 = mask4 Y5 :=
    ((mc_mask4_mask4_fwd_r4pf X4).symm.trans (congrArg (fun t => mask4 (fwd_r4pf t)) e4)).trans (mc_mask4_mask4_fwd_r4pf Y4)
  let X6 : hkstate_t := hk_w5 g5 X5
  let Y6 : hkstate_t := hk_w5 g5 Y5
  have e6 : mask5 X6 = mask5 Y6 :=
    ((mc_mask4_mask5_hk_w5_g5 g5 X5).symm.trans (congrArg (fun t => mask5 (hk_w5 g5 t)) e5)).trans (mc_mask4_mask5_hk_w5_g5 g5 Y5)
  let X7 : hkstate_t := hk_aes4f 5 X6
  let Y7 : hkstate_t := hk_aes4f 5 Y6
  have e7 : mask6 X7 = mask6 Y7 :=
    ((mc_mask5_mask6_hk_aes4f_5 X6).symm.trans (congrArg (fun t => mask6 (hk_aes4f 5 t)) e6)).trans (mc_mask5_mask6_hk_aes4f_5 Y6)
  let X8 : hkstate_t := mix512 X7
  let Y8 : hkstate_t := mix512 Y7
  have e8 : mask7 X8 = mask7 Y8 :=
    ((mc_mask6_mask7_mix512 X7).symm.trans (congrArg (fun t => mask7 (mix512 t)) e7)).trans (mc_mask6_mask7_mix512 Y7)
  let X9 : hkstate_t := fwd_rpf 6 X8
  let Y9 : hkstate_t := fwd_rpf 6 Y8
  have e9 : mask7 X9 = mask7 Y9 :=
    ((mc_mask7_mask7_fwd_rpf_6 X8).symm.trans (congrArg (fun t => mask7 (fwd_rpf 6 t)) e8)).trans (mc_mask7_mask7_fwd_rpf_6 Y8)
  let X10 : hkstate_t := fwd_rpf 7 X9
  let Y10 : hkstate_t := fwd_rpf 7 Y9
  have e10 : mask7 X10 = mask7 Y10 :=
    ((mc_mask7_mask7_fwd_rpf_7 X9).symm.trans (congrArg (fun t => mask7 (fwd_rpf 7 t)) e9)).trans (mc_mask7_mask7_fwd_rpf_7 Y9)
  let X11 : hkstate_t := mix512 X10
  let Y11 : hkstate_t := mix512 Y10
  have e11 : mask8 X11 = mask8 Y11 :=
    ((mc_mask7_mask8_mix512 X10).symm.trans (congrArg (fun t => mask8 (mix512 t)) e10)).trans (mc_mask7_mask8_mix512 Y10)
  exact ((fin_fwdp X11).symm.trans (congrArg z8_tuple e11)).trans (fin_fwdp Y11)

/-- The backward evaluator ignores the initial contents of the caller scratch
state: its output tuple is a function of the declared inputs only. -/
theorem computebwd_pure (s s' : hkstate_t) (ctx : Fin 8 → Nat) (g3 : Fin 20 → Nat)
    (g4 : Fin 16 → Nat) (g5 : Fin 12 → Nat) (dof : Fin 4 → Nat) :
    computebwd s ctx g3 g4 g5 dof = computebwd s' ctx g3 g4 g5 dof := by
  rw [computebwd_staged s ctx g3 g4 g5 dof, computebwd_staged s' ctx g3 g4 g5 dof]
  let X0 : hkstate_t := s
  let Y0 : hkstate_t := s'
  have e0 : mask0 X0 = mask0 Y0 := rfl
  let X1 : hkstate_t := bwd_w5x g5 dof X0
  let Y1 : hkstate_t := bwd_w5x g5 dof Y0
  have e1 : mask9 X1 = mask9 Y1 :=
    ((mc_mask0_mask9_bwd_w5x_g5_dof g5 dof X0).symm.trans (congrArg (fun t => mask9 (bwd_w5x g5 dof t)) e0)).trans (mc_mask0_mask9_bwd_w5x_g5_dof g5 dof Y0)
  let X2 : hkstate_t := bwd_inv2f 4 X1
  let Y2 : hkstate_t := bwd_inv2f 4 Y1
  have e2 : mask9 X2 = mask9 Y2 :=
    ((mc_mask9_mask9_bwd_inv2f_4 X1).symm.trans (congrArg (fun t => mask9 (bwd_inv2f 4 t)) e1)).trans (mc_mask9_mask9_bwd_inv2f_4 Y1)
  let X3 : hkstate_t := hk_w4 g4 X2
  let Y3 : hkstate_t := hk_w4 g4 Y2
  have e3 : mask10 X3 = mask10 Y3 :=
    ((mc_mask9_mask10_hk_w4_g4 g4 X2).symm.trans (congrArg (fun t => mask10 (hk_w4 g4 t)) e2)).trans (mc_mask9_mask10_hk_w4_g4 g4 Y2)
  let X4 : hkstate_t := invmix512 X3
  let Y4 : hkstate_t := invmix512 Y3
  have e4 : mask11 X4 = mask11 Y4 :=
    ((mc_mask10_mask11_invmix512 X3).symm.trans (congrArg (fun t => mask11 (invmix512 t)) e3)).trans (mc_mask10_mask11_invmix512 Y3)
  let X5 : hkstate_t := hk_inv4f 3 X4
  let Y5 : hkstate_t := hk_inv4f 3 Y4
  have e5 : mask12 X5 = mask12 Y5 :=
    ((mc_mask11_mask12_hk_inv4f_3 X4).symm.trans (congrArg (fun t => mask12 (hk_inv4f 3 t)) e4)).trans (mc_mask11_mask12_hk_inv4f_3 Y4)
  let X6 : hkstate_t := bwd_w3 g3 X5
  let Y6 : hkstate_t := bwd_w3 g3 Y5
  have e6 : mask13 X6 = mask13 Y6 :=
    ((mc_mask12_mask13_bwd_w3_g3 g3 X5).symm.trans (congrArg (fun t => mask13 (bwd_w3 g3 t)) e5)).trans (mc_mask12_mask13_bwd_w3_g3 g3 Y5)
  let X7 : hkstate_t := bwd_z2a ctx X6
  let Y7 : hkstate_t := bwd_z2a ctx Y6
  have e7 : mask14 X7 = mask14 Y7 :=
    ((mc_mask13_mask14_bwd_z2a_ctx ctx X6).symm.trans (congrArg (fun t => mask14 (bwd_z2a ctx t)) e6)).trans (mc_mask13_mask14_bwd_z2a_ctx ctx Y6)
  let X8 : hkstate_t := bwd_sr0 X7
  let Y8 : hkstate_t := bwd_sr0 Y7
  have e8 : mask15 X8 = mask15 Y8 :=
    ((mc_mask14_mask15_bwd_sr0 X7).symm.trans (congrArg (fun t => mask15 (bwd_sr0 t)) e7)).trans (mc_mask14_mask15_bwd_sr0 Y7)
  let X9 : hkstate_t := bwd_r2f X8
  let Y9 : hkstate_t := bwd_r2f Y8
  have e9 : mask15 X9 = mask15 Y9 :=
    ((mc_mask15_mask15_bwd_r2f X8).symm.trans (congrArg (fun t => mask15 (bwd_r2f t)) e8)).trans (mc_mask15_mask15_bwd_r2f Y8)
  let X10 : hkstate_t := invmix512 X9
  let Y10 : hkstate_t := invmix512 Y9
  have e10 : mask16 X10 = mask16 Y10 :=
    ((mc_mask15_mask16_invmix512 X9).symm.trans (congrArg (fun t => mask16 (invmix512 t)) e9)).trans (mc_mask15_mask16_invmix512 Y9)
  let X11 : hkstate_t := bwd_inv23f 1 X10
  let Y11 : hkstate_t := bwd_inv23f 1 Y10
  have e11 : mask16 X11 = mask16 Y11 :=
    ((mc_mask16_mask16_bwd_inv23f_1 X10).symm.trans (congrArg (fun t => mask16 (bwd_inv23f 1 t)) e10)).trans (mc_mask16_mask16_bwd_inv23f_1 Y10)
  let X12 : hkstate_t := bwd_inv23f 0 X11
  let Y12 : hkstate_t := bwd_inv23f 0 Y11
  have e12 : mask16 X12 = mask16 Y12 :=
    ((mc_mask16_mask16_bwd_inv23f_0 X11).symm.trans (congrArg (fun t => mask16 (bwd_inv23f 0 t)) e11)).trans (mc_mask16_mask16_bwd_inv23f_0 Y11)
  let X13 : hkstate_t := invmix512 X12
  let Y13 : hkstate_t := invmix512 Y12
  have e13 : mask17 X13 = mask17 Y13 :=
    ((mc_mask16_mask17_invmix512 X12).symm.trans (congrArg (fun t => mask17 (invmix512 t)) e12)).trans (mc_mask16_mask17_invmix512 Y12)
  let X14 : hkstate_t := bwd_inv2f 9 X13
  let Y14 : hkstate_t := bwd_inv2f 9 Y13
  have e14 : mask17 X14 = mask17 Y14 :=
    ((mc_mask17_mask17_bwd_inv2f_9 X13).symm.trans (congrArg (fun t => mask17 (bwd_inv2f 9 t)) e13)).trans (mc_mask17_mask17_bwd_inv2f_9 Y13)
  let X15 : hkstate_t := bwd_xr X14
  let Y15 : hkstate_t := bwd_xr Y14
  have e15 : mask17 X15 = mask17 Y15 :=
    ((mc_mask17_mask17_bwd_xr X14).symm.trans (congrArg (fun t => mask17 (bwd_xr t)) e14)).trans (mc_mask17_mask17_bwd_xr Y14)
  exact ((fin_bwdp X15).symm.trans (congrArg w8c_tuple e15)).trans (fin_bwdp Y15)

/-- The fingerprint computed by `computefwd` equals the z8 extraction applied
after the true (all-lane) rounds 5-7 of the full x5 candidate of the
recombination, whatever the two scratch states are. -/
theorem computefwd_tail_true (s s' : hkstate_t) (ctx : Fin 8 → Nat) (g3 : Fin 20 → Nat)
    (g4 : Fin 16 → Nat) (g5 : Fin 12 → Nat) (fdof bdof : Fin 4 → Nat) :
    computefwd s ctx g3 g4 g5 fdof =
      z8_tuple (haraka_round 7 (haraka_round 6 (haraka_round 5 (x5cand s' ctx g3 g4 g5 fdof bdof)))) := by
  rw [computefwd_staged s ctx g3 g4 g5 fdof, tail_staged s' ctx g3 g4 g5 fdof bdof]
  let X0 : hkstate_t := s
  let Y0 : hkstate_t := s'
  have e0 : mask0 X0 = mask0 Y0 := rfl
  let X1 : hkstate_t := fwd_w3 ctx g3 fdof X0
  let Y1 : hkstate_t := fwd_w3 ctx g3 fdof Y0
  have e1 : mask1 X1 = mask1 Y1 :=
    ((mc_mask0_mask1_fwd_w3_ctx_g3_fdof ctx g3 fdof X0).symm.trans (congrArg (fun t => mask1 (fwd_w3 ctx g3 fdof t)) e0)).trans (mc_mask0_mask1_fwd_w3_ctx_g3_fdof ctx g3 fdof Y0)
  let X2 : hkstate_t := hk_aes4f 3 X1
  let Y2 : hkstate_t := hk_aes4f 3 Y1
  have e2 : mask2 X2 = mask2 Y2 :=
    ((mc_mask1_mask2_hk_aes4f_3 X1).symm.trans (congrArg (fun t => mask2 (hk_aes4f 3 t)) e1)).trans (mc_mask1_mask2_hk_aes4f_3 Y1)
  let X3 : hkstate_t := mix512 X2
  let Y3 : hkstate_t := mix512 Y2
  have e3 : mask3 X3 = mask3 Y3 :=
    ((mc_mask2_mask3_mix512 X2).symm.trans (congrArg (fun t => mask3 (mix512 t)) e2)).trans (mc_mask2_mask3_mix512 Y2)
  let X4 : hkstate_t := hk_w4 g4 X3
  let Y4 : hkstate_t := hk_w4 g4 Y3
  have e4 : mask4 X4 = mask4 Y4 :=
    ((mc_mask3_mask4_hk_w4_g4 g4 X3).symm.trans (congrArg (fun t => mask4 (hk_w4 g4 t)) e3)).trans (mc_mask3_mask4_hk_w4_g4 g4 Y3)
  let X5 : hkstate_t := fwd_r4pf X4
  let Y5 : hkstate_t := fwd_r4pf Y4
  have e5 : mask4 X5 = mask4 Y5 :=
    ((mc_mask4_mask4_fwd_r4pf X4).symm.trans (congrArg (fun t => mask4 (fwd_r4pf t)) e4)).trans (mc_mask4_mask4_fwd_r4pf Y4)
  let X6 : hkstate_t := hk_w5 g5 X5
  let Y6 : hkstate_t := hk_w5 g5 Y5
  have e6 : mask5 X6 = mask5 Y6 :=
    ((mc_mask4_mask5_hk_w5_g5 g5 X5).symm.trans (congrArg (fun t => mask5 (hk_w5 g5 t)) e5)).trans (mc_mask4_mask5_hk_w5_g5 g5 Y5)
  let X7 : hkstate_t := id_hk X6
  let Y7 : hkstate_t := hk_wdiag bdof Y6
  have e7 : mask5 X7 = mask5 Y7 :=
    (((mc_mask5_mask5_id_hk X6).symm.trans (cr_tail_6 X6)).trans (congrArg (fun t => mask5 (hk_wdiag bdof t)) e6)).trans (mc_mask5_mask5_hk_wdiag_bdof bdof Y6)
  let X8 : hkstate_t := hk_aes4f 5 X7
  let Y8 : hkstate_t := hk_aes4f 5 Y7
  have e8 : mask6 X8 = mask6 Y8 :=
    ((mc_mask5_mask6_hk_aes4f_5 X7).symm.trans (congrArg (fun t => mask6 (hk_aes4f 5 t)) e7)).trans (mc_mask5_mask6_hk_aes4f_5 Y7)
  let X9 : hkstate_t := mix512 X8
  let Y9 : hkstate_t := mix512 Y8
  have e9 : mask7 X9 = mask7 Y9 :=
    ((mc_mask6_mask7_mix512 X8).symm.trans (congrArg (fun t => mask7 (mix512 t)) e8)).trans (mc_mask6_mask7_mix512 Y8)
  let X10 : hkstate_t := fwd_rpf 6 X9
  let Y10 : hkstate_t := hk_aes4f 6 Y9
  have e10 : mask18 X10 = mask18 Y10 :=
    (((mc_mask7_mask18_fwd_rpf_6 X9).symm.trans (cr_tail_9 X9)).trans (congrArg (fun t => mask18 (hk_aes4f 6 t)) e9)).trans (mc_mask7_mask18_hk_aes4f_6 Y9)
  let X11 : hkstate_t := fwd_rpf 7 X10
  let Y11 : hkstate_t := hk_aes4f 7 Y10
  have e11 : mask18 X11 = mask18 Y11 :=
    (((mc_mask18_mask18_fwd_rpf_7 X10).symm.trans (cr_tail_10 X10)).trans (congrArg (fun t => mask18 (hk_aes4f 7 t)) e10)).trans (mc_mask18_mask18_hk_aes4f_7 Y10)
  let X12 : hkstate_t := mix512 X11
  let Y12 : hkstate_t := mix512 Y11
  have e12 : mask19 X12 = mask19 Y12 :=
    ((mc_mask18_mask19_mix512 X11).symm.trans (congrArg (fun t => mask19 (mix512 t)) e11)).trans (mc_mask18_mask19_mix512 Y11)
  exact ((fin_tail X12).symm.trans (congrArg z8_tuple e12)).trans (fin_tail Y12)
/-- C3: the populate phase loses every buffered record that has not crossed
the 10000-record flush threshold when a worker's loop ends: with seed 53 and
size1 = 8 all eight forward records are buffered and then discarded with the
local buffers, so the joined match table is completely empty and no shard
contains the record of any DegreesOfFreedom value of the configured range. -/
theorem C3_trailing_buffer_discarded : populatephase 53 8 = fun _ _ _ => [] := rfl

/-- C4: the forward evaluator `computefwd` is a pure function of the
DegreesOfFreedom, the guess vectors and the match context: two invocations
with identical declared inputs but arbitrary different initial contents of
the caller-supplied scratch state return the same 4-byte output tuple. -/
theorem C4_computefwd_pure (s s' : hkstate_t) (ctx : Fin 8 → Nat) (g3 : Fin 20 → Nat)
    (g4 : Fin 16 → Nat) (g5 : Fin 12 → Nat) (dof : Fin 4 → Nat) :
    computefwd s ctx g3 g4 g5 dof = computefwd s' ctx g3 g4 g5 dof :=
  computefwd_pure s s' ctx g3 g4 g5 dof

/-- C10: the backward evaluator `computebwd` is deterministic in its declared
inputs: two invocations with identical dof, guess vectors and context but
arbitrary different initial contents of the reused scratch state return the
same 4-byte output tuple. -/
theorem C10_computebwd_pure (s s' : hkstate_t) (ctx : Fin 8 → Nat) (g3 : Fin 20 → Nat)
    (g4 : Fin 16 → Nat) (g5 : Fin 12 → Nat) (dof : Fin 4 → Nat) :
    computebwd s ctx g3 g4 g5 dof = computebwd s' ctx g3 g4 g5 dof :=
  computebwd_pure s s' ctx g3 g4 g5 dof

/-- C7: the four forward workers of `populatetable` and the four backward
workers of `bwdsearch` partition their iteration spaces exactly: index i is
handled by worker ind precisely when i is in range and i % 4 = ind, so the
union of the workers' index sets is the full range with no gaps and no
overlaps. -/
theorem C7_worker_partition (size i ind : Nat) :
    (i ∈ fwd_indices ind size ↔ (i < size ∧ i % 4 = ind)) ∧
    (i ∈ bwd_indices ind size ↔ (i < size ∧ i % 4 = ind)) := by
  constructor <;> simp [fwd_indices, bwd_indices, List.mem_filter, List.mem_range]

/-- C8: the byte-table and vector representations of the 40-entry Haraka
round-constant table are bit-identical: for every entry k < 40 and byte
position b < 16, byte b of the packed constant rc[k] built in `main` equals
`haraka_rcons_table[k][b]`. -/
theorem C8_rc_tables_agree :
    ∀ k < 40, ∀ b < 16,
      (rc_main.getD k zero_state).get b = (haraka_rcons_table.getD k []).getD b 0 := by
  decide

theorem C8_rc_tables_agree_witness :
    (rc_main.getD 11 zero_state).get 7 = (haraka_rcons_table.getD 11 []).getD 7 0 :=
  C8_rc_tables_agree 11 (by decide) 7 (by decide)

/-- C9: `printcond` holds exactly when the six designated bytes of lane 2 of
the reconstructed state are zero, `fullcond` holds exactly when the eight
designated bytes are zero, and the partial pattern is weaker than the full
one: `fullcond pix0` implies `printcond pix0`. -/
theorem C9_solution_conditions (pix0 : hkstate_t) :
    (printcond pix0 = true ↔ (pix0.s2.b4 = 0 ∧ pix0.s2.b7 = 0 ∧ pix0.s2.b8 = 0
      ∧ pix0.s2.b9 = 0 ∧ pix0.s2.b13 = 0 ∧ pix0.s2.b14 = 0)) ∧
    (fullcond pix0 = true ↔ (pix0.s2.b2 = 0 ∧ pix0.s2.b3 = 0 ∧ pix0.s2.b13 = 0
      ∧ pix0.s2.b14 = 0 ∧ pix0.s2.b4 = 0 ∧ pix0.s2.b7 = 0 ∧ pix0.s2.b8 = 0
      ∧ pix0.s2.b9 = 0)) ∧
    (fullcond pix0 = true → printcond pix0 = true) := by
  refine ⟨?_, ?_, ?_⟩ <;>
    · simp only [printcond, fullcond, Bool.and_eq_true, beq_iff_eq]
      tauto
/-- Packed/byte-list agreement check for table 2. -/
def agreechk2 : Bool := checkBelow (fun v => pbyte P_table2 v == times2 v) 256

/-- Packed/byte-list agreement check for table 3. -/
def agreechk3 : Bool := checkBelow (fun v => pbyte P_table3 v == times3 v) 256

/-- Packed/byte-list agreement check for table 9. -/
def agreechk9 : Bool := checkBelow (fun v => pbyte P_table9 v == times9 v) 256

/-- Packed/byte-list agreement check for table 11. -/
def agreechk11 : Bool := checkBelow (fun v => pbyte P_table11 v == times11 v) 256

/-- Packed/byte-list agreement check for table 13. -/
def agreechk13 : Bool := checkBelow (fun v => pbyte P_table13 v == times13 v) 256

/-- Packed/byte-list agreement check for table 14. -/
def agreechk14 : Bool := checkBelow (fun v => pbyte P_table14 v == times14 v) 256

/-- Single-bit additivity check for table 9 (packed form). -/
def bitchk9 : Bool :=
  checkBelow (fun x => checkBelow (fun i =>
    pbyte P_table9 (x ^^^ (1 <<< i)) == pbyte P_table9 x ^^^ pbyte P_table9 (1 <<< i)) 8) 256

/-- Single-bit additivity check for table 11 (packed form). -/
def bitchk11 : Bool :=
  checkBelow (fun x => checkBelow (fun i =>
    pbyte P_table11 (x ^^^ (1 <<< i)) == pbyte P_table11 x ^^^ pbyte P_table11 (1 <<< i)) 8) 256

/-- Single-bit additivity check for table 13 (packed form). -/
def bitchk13 : Bool :=
  checkBelow (fun x => checkBelow (fun i =>
    pbyte P_table13 (x ^^^ (1 <<< i)) == pbyte P_table13 x ^^^ pbyte P_table13 (1 <<< i)) 8) 256

/-- Single-bit additivity check for table 14 (packed form). -/
def bitchk14 : Bool :=
  checkBelow (fun x => checkBelow (fun i =>
    pbyte P_table14 (x ^^^ (1 <<< i)) == pbyte P_table14 x ^^^ pbyte P_table14 (1 <<< i)) 8) 256

/-- Diffusion composite check: inverse row 0 applied to forward column 0. -/
def compchk00 : Bool := checkBelow (fun v => ((pbyte P_table14 (pbyte P_table2 (v)) ^^^ pbyte P_table11 (v)) ^^^ pbyte P_table13 (v)) ^^^ pbyte P_table9 (pbyte P_table3 (v)) == v) 256

/-- Diffusion composite check: inverse row 0 applied to forward column 1. -/
def compchk01 : Bool := checkBelow (fun v => ((pbyte P_table14 (pbyte P_table3 (v)) ^^^ pbyte P_table11 (pbyte P_table2 (v))) ^^^ pbyte P_table13 (v)) ^^^ pbyte P_table9 (v) == 0) 256

/-- Diffusion composite check: inverse row 0 applied to forward column 2. -/
def compchk02 : Bool := checkBelow (fun v => ((pbyte P_table14 (v) ^^^ pbyte P_table11 (pbyte P_table3 (v))) ^^^ pbyte P_table13 (pbyte P_table2 (v))) ^^^ pbyte P_table9 (v) == 0) 256

/-- Diffusion composite check: inverse row 0 applied to forward column 3. -/
def compchk03 : Bool := checkBelow (fun v => ((pbyte P_table14 (v) ^^^ pbyte P_table11 (v)) ^^^ pbyte P_table13 (pbyte P_table3 (v))) ^^^ pbyte P_table9 (pbyte P_table2 (v)) == 0) 256

/-- Diffusion composite check: inverse row 1 applied to forward column 0. -/
def compchk10 : Bool := checkBelow (fun v => ((pbyte P_table9 (pbyte P_table2 (v)) ^^^ pbyte P_table14 (v)) ^^^ pbyte P_table11 (v)) ^^^ pbyte P_table13 (pbyte P_table3 (v)) == 0) 256

/-- Diffusion composite check: inverse row 1 applied to forward column 1. -/
def compchk11 : Bool := checkBelow (fun v => ((pbyte P_table9 (pbyte P_table3 (v)) ^^^ pbyte P_table14 (pbyte P_table2 (v))) ^^^ pbyte P_table11 (v)) ^^^ pbyte P_table13 (v) == v) 256

/-- Diffusion composite check: inverse row 1 applied to forward column 2. -/
def compchk12 : Bool := checkBelow (fun v => ((pbyte P_table9 (v) ^^^ pbyte P_table14 (pbyte P_table3 (v))) ^^^ pbyte P_table11 (pbyte P_table2 (v))) ^^^ pbyte P_table13 (v) == 0) 256

/-- Diffusion composite check: inverse row 1 applied to forward column 3. -/
def compchk13 : Bool := checkBelow (fun v => ((pbyte P_table9 (v) ^^^ pbyte P_table14 (v)) ^^^ pbyte P_table11 (pbyte P_table3 (v))) ^^^ pbyte P_table13 (pbyte P_table2 (v)) == 0) 256

/-- Diffusion composite check: inverse row 2 applied to forward column 0. -/
def compchk20 : Bool := checkBelow (fun v => ((pbyte P_table13 (pbyte P_table2 (v)) ^^^ pbyte P_table9 (v)) ^^^ pbyte P_table14 (v)) ^^^ pbyte P_table11 (pbyte P_table3 (v)) == 0) 256

/-- Diffusion composite check: inverse row 2 applied to forward column 1. -/
def compchk21 : Bool := checkBelow (fun v => ((pbyte P_table13 (pbyte P_table3 (v)) ^^^ pbyte P_table9 (pbyte P_table2 (v))) ^^^ pbyte P_table14 (v)) ^^^ pbyte P_table11 (v) == 0) 256

/-- Diffusion composite check: inverse row 2 applied to forward column 2. -/
def compchk22 : Bool := checkBelow (fun v => ((pbyte P_table13 (v) ^^^ pbyte P_table9 (pbyte P_table3 (v))) ^^^ pbyte P_table14 (pbyte P_table2 (v))) ^^^ pbyte P_table11 (v) == v) 256

/-- Diffusion composite check: inverse row 2 applied to forward column 3. -/
def compchk23 : Bool := checkBelow (fun v => ((pbyte P_table13 (v) ^^^ pbyte P_table9 (v)) ^^^ pbyte P_table14 (pbyte P_table3 (v))) ^^^ pbyte P_table11 (pbyte P_table2 (v)) == 0) 256

/-- Diffusion composite check: inverse row 3 applied to forward column 0. -/
def compchk30 : Bool := checkBelow (fun v => ((pbyte P_table11 (pbyte P_table2 (v)) ^^^ pbyte P_table13 (v)) ^^^ pbyte P_table9 (v)) ^^^ pbyte P_table14 (pbyte P_table3 (v)) == 0) 256

/-- Diffusion composite check: inverse row 3 applied to forward column 1. -/
def compchk31 : Bool := checkBelow (fun v => ((pbyte P_table11 (pbyte P_table3 (v)) ^^^ pbyte P_table13 (pbyte P_table2 (v))) ^^^ pbyte P_table9 (v)) ^^^ pbyte P_table14 (v) == 0) 256

/-- Diffusion composite check: inverse row 3 applied to forward column 2. -/
def compchk32 : Bool := checkBelow (fun v => ((pbyte P_table11 (v) ^^^ pbyte P_table13 (pbyte P_table3 (v))) ^^^ pbyte P_table9 (pbyte P_table2 (v))) ^^^ pbyte P_table14 (v) == 0) 256

/-- Diffusion composite check: inverse row 3 applied to forward column 3. -/
def compchk33 : Bool := checkBelow (fun v => ((pbyte P_table11 (v) ^^^ pbyte P_table13 (v)) ^^^ pbyte P_table9 (pbyte P_table3 (v))) ^^^ pbyte P_table14 (pbyte P_table2 (v)) == v) 256

/-- S-box inversion check: invsbox undoes sbox on every byte. -/
def sbinvchk : Bool := checkBelow (fun v => invsbox (sbox v) == v) 256
/-- checkBelow f n holds at every point below n. -/
theorem checkBelow_spec (f : Nat → Bool) : ∀ n, checkBelow f n = true → ∀ i, i < n → f i = true := by
  intro n
  induction n with
  | zero => intro _ i hi; omega
  | succ m ih =>
    intro h i hi
    rw [checkBelow, Bool.and_eq_true] at h
    rcases Nat.lt_succ_iff_lt_or_eq.mp hi with h' | h'
    · exact ih h.2 i h'
    · subst h'; exact h.1

/-- XOR of two bytes is a byte. -/
theorem xor_lt_256 (x y : Nat) (hx : x < 256) (hy : y < 256) : x ^^^ y < 256 :=
  Nat.xor_lt_two_pow (n := 8) hx hy

/-- A left shift of 1 by less than 8 is a byte. -/
theorem one_shift_lt_256 (i : Nat) (hi : i < 8) : (1 <<< i) < 256 := by
  rw [Nat.shiftLeft_eq, one_mul]
  calc 2 ^ i ≤ 2 ^ 7 := Nat.pow_le_pow_right (by norm_num) (Nat.lt_succ_iff.mp hi)
  _ < 256 := by norm_num

/-- A table value read with default 0 from a list of bytes is a byte. -/
theorem getD_lt_256 (l : List Nat) (h : ∀ v ∈ l, v < 256) (x : Nat) : l.getD x 0 < 256 := by
  rcases Nat.lt_or_ge x l.length with hl | hl
  · rw [List.getD_eq_getElem l 0 hl]
    exact h _ (List.getElem_mem hl)
  · rw [List.getD_eq_default l 0 hl]
    norm_num

/-- Clearing the top set bit of a nonzero number leaves a smaller residue. -/
theorem xor_log2_lt (y : Nat) (hy : y ≠ 0) : y ^^^ (1 <<< y.log2) < 2 ^ y.log2 := by
  have hb2 : (1 <<< y.log2) = 2 ^ y.log2 := by rw [Nat.shiftLeft_eq, one_mul]
  apply Nat.lt_pow_two_of_testBit
  intro i hi
  rw [Nat.testBit_xor, hb2, Nat.testBit_two_pow]
  rcases Nat.eq_or_lt_of_le hi with h | h
  · subst h
    have hdiv : y / 2 ^ y.log2 = 1 := by
      apply Nat.div_eq_of_lt_le
      · simpa using Nat.log2_self_le hy
      · have h2 := Nat.lt_log2_self (n := y)
        calc y < 2 ^ (y.log2 + 1) := h2
        _ = 2 ^ y.log2 * 2 := by rw [Nat.pow_succ]
        _ = Nat.succ 1 * 2 ^ y.log2 := by ring
    rw [Nat.testBit_to_div_mod, hdiv]
    simp
  · have hf : y.testBit i = false := by
      apply Nat.testBit_lt_two_pow
      calc y < 2 ^ (y.log2 + 1) := Nat.lt_log2_self
      _ ≤ 2 ^ i := Nat.pow_le_pow_right (by norm_num) h
    rw [hf]
    simp [Nat.ne_of_lt h]

/-- A function on bytes additive on single bits is additive on whole bytes. -/
theorem additive_of_bitadd (f : Nat → Nat) (h0 : f 0 = 0)
    (hb : ∀ x, x < 256 → ∀ i, i < 8 → f (x ^^^ (1 <<< i)) = f x ^^^ f (1 <<< i)) :
    ∀ y, y < 256 → ∀ x, x < 256 → f (x ^^^ y) = f x ^^^ f y := by
  intro y
  induction y using Nat.strong_induction_on with
  | _ y ih =>
    intro hy x hx
    rcases Nat.eq_zero_or_pos y with rfl | hpos
    · simp [Nat.xor_zero, h0]
    have hyne : y ≠ 0 := Nat.pos_iff_ne_zero.mp hpos
    have hklt : y.log2 < 8 := (Nat.log2_lt hyne).mpr hy
    have hbit : (1 <<< y.log2) < 256 := one_shift_lt_256 _ hklt
    have h1 : y ^^^ (1 <<< y.log2) < 2 ^ y.log2 := xor_log2_lt y hyne
    have hlt : y ^^^ (1 <<< y.log2) < y := lt_of_lt_of_le h1 (by
      simpa using Nat.log2_self_le hyne)
    have h256 : y ^^^ (1 <<< y.log2) < 256 := Nat.xor_lt_two_pow (n := 8) hy hbit
    have hxb : x ^^^ (1 <<< y.log2) < 256 := Nat.xor_lt_two_pow (n := 8) hx hbit
    have hyy : (y ^^^ (1 <<< y.log2)) ^^^ (1 <<< y.log2) = y := Nat.xor_cancel_right _ _
    have e1 : (x ^^^ (1 <<< y.log2)) ^^^ (y ^^^ (1 <<< y.log2)) = x ^^^ y := by
      rw [Nat.xor_assoc, Nat.xor_comm y (1 <<< y.log2), Nat.xor_cancel_left]
    calc f (x ^^^ y) = f ((x ^^^ (1 <<< y.log2)) ^^^ (y ^^^ (1 <<< y.log2))) := by rw [e1]
    _ = f (x ^^^ (1 <<< y.log2)) ^^^ f (y ^^^ (1 <<< y.log2)) :=
        ih _ hlt h256 _ hxb
    _ = (f x ^^^ f (1 <<< y.log2)) ^^^ f (y ^^^ (1 <<< y.log2)) := by
        rw [hb x hx y.log2 hklt]
    _ = f x ^^^ (f (y ^^^ (1 <<< y.log2)) ^^^ f (1 <<< y.log2)) := by
        rw [Nat.xor_assoc, Nat.xor_comm (f (1 <<< y.log2))]
    _ = f x ^^^ f y := by
        rw [← hb _ h256 y.log2 hklt, hyy]

/-- XOR left commutation (local form of the missing library lemma). -/
theorem xor_left_comm (x y z : Nat) : x ^^^ (y ^^^ z) = y ^^^ (x ^^^ z) := by
  rw [← Nat.xor_assoc, Nat.xor_comm x y, Nat.xor_assoc]

/-- Regrouping sixteen XORed terms from by-row blocks into by-source blocks. -/
theorem xor_regroup16 (p0 p1 p2 p3 q0 q1 q2 q3 r0 r1 r2 r3 s0 s1 s2 s3 : Nat) :
    ((((p0 ^^^ p1) ^^^ p2) ^^^ p3) ^^^ (((q0 ^^^ q1) ^^^ q2) ^^^ q3) ^^^
      (((r0 ^^^ r1) ^^^ r2) ^^^ r3)) ^^^ (((s0 ^^^ s1) ^^^ s2) ^^^ s3) =
    ((((p0 ^^^ q0) ^^^ r0) ^^^ s0) ^^^ (((p1 ^^^ q1) ^^^ r1) ^^^ s1) ^^^
      (((p2 ^^^ q2) ^^^ r2) ^^^ s2)) ^^^ (((p3 ^^^ q3) ^^^ r3) ^^^ s3) := by
  simp only [Nat.xor_assoc]
  simp [Nat.xor_comm, xor_left_comm]

/-- Two AES states with equal bytes are equal. -/
theorem state_t_ext (x y : state_t) (e0 : x.b0 = y.b0) (e1 : x.b1 = y.b1) (e2 : x.b2 = y.b2) (e3 : x.b3 = y.b3) (e4 : x.b4 = y.b4) (e5 : x.b5 = y.b5) (e6 : x.b6 = y.b6) (e7 : x.b7 = y.b7) (e8 : x.b8 = y.b8) (e9 : x.b9 = y.b9) (e10 : x.b10 = y.b10) (e11 : x.b11 = y.b11) (e12 : x.b12 = y.b12) (e13 : x.b13 = y.b13) (e14 : x.b14 = y.b14) (e15 : x.b15 = y.b15) : x = y := by
  cases x; cases y; simp_all

/-- Two Haraka states with equal lanes are equal. -/
theorem hk_ext (x y : hkstate_t) (e0 : x.s0 = y.s0) (e1 : x.s1 = y.s1)
    (e2 : x.s2 = y.s2) (e3 : x.s3 = y.s3) : x = y := by
  cases x; cases y; simp_all

/-- The doubling/tripling table always returns a byte. -/
theorem times2_lt (x : Nat) : times2 x < 256 :=
  getD_lt_256 table2 (by decide) x

/-- The doubling/tripling table always returns a byte. -/
theorem times3_lt (x : Nat) : times3 x < 256 :=
  getD_lt_256 table3 (by decide) x

/-- The AES S-box always returns a byte. -/
theorem sbox_lt (x : Nat) : sbox x < 256 :=
  getD_lt_256 sbox_table (by decide) x

theorem agreechk2_true : agreechk2 = true := rfl

/-- The packed numeral for table 2 agrees with the byte list. -/
theorem agree2 (x : Nat) (hx : x < 256) : pbyte P_table2 x = times2 x :=
  eq_of_beq (checkBelow_spec _ _ agreechk2_true x hx)

theorem agreechk3_true : agreechk3 = true := rfl

/-- The packed numeral for table 3 agrees with the byte list. -/
theorem agree3 (x : Nat) (hx : x < 256) : pbyte P_table3 x = times3 x :=
  eq_of_beq (checkBelow_spec _ _ agreechk3_true x hx)

theorem agreechk9_true : agreechk9 = true := rfl

/-- The packed numeral for table 9 agrees with the byte list. -/
theorem agree9 (x : Nat) (hx : x < 256) : pbyte P_table9 x = times9 x :=
  eq_of_beq (checkBelow_spec _ _ agreechk9_true x hx)

theorem agreechk11_true : agreechk11 = true := rfl

/-- The packed numeral for table 11 agrees with the byte list. -/
theorem agree11 (x : Nat) (hx : x < 256) : pbyte P_table11 x = times11 x :=
  eq_of_beq (checkBelow_spec _ _ agreechk11_true x hx)

theorem agreechk13_true : agreechk13 = true := rfl

/-- The packed numeral for table 13 agrees with the byte list. -/
theorem agree13 (x : Nat) (hx : x < 256) : pbyte P_table13 x = times13 x :=
  eq_of_beq (checkBelow_spec _ _ agreechk13_true x hx)

theorem agreechk14_true : agreechk14 = true := rfl

/-- The packed numeral for table 14 agrees with the byte list. -/
theorem agree14 (x : Nat) (hx : x < 256) : pbyte P_table14 x = times14 x :=
  eq_of_beq (checkBelow_spec _ _ agreechk14_true x hx)

theorem bitchk9_true : bitchk9 = true := rfl

/-- Table 9 is additive on single bits. -/
theorem bit9 : ∀ x, x < 256 → ∀ i, i < 8 →
    times9 (x ^^^ (1 <<< i)) = times9 x ^^^ times9 (1 <<< i) := by
  intro x hx i hi
  have hbit : (1 <<< i) < 256 := one_shift_lt_256 i hi
  have h3 := eq_of_beq (checkBelow_spec _ _ (checkBelow_spec _ _ bitchk9_true x hx) i hi)
  rw [agree9 _ (xor_lt_256 x _ hx hbit), agree9 _ hx, agree9 _ hbit] at h3
  exact h3

/-- Table 9 is additive over XOR of bytes. -/
theorem add9 (x y : Nat) (hx : x < 256) (hy : y < 256) :
    times9 (x ^^^ y) = times9 x ^^^ times9 y :=
  additive_of_bitadd times9 rfl bit9 y hy x hx

theorem bitchk11_true : bitchk11 = true := rfl

/-- Table 11 is additive on single bits. -/
theorem bit11 : ∀ x, x < 256 → ∀ i, i < 8 →
    times11 (x ^^^ (1 <<< i)) = times11 x ^^^ times11 (1 <<< i) := by
  intro x hx i hi
  have hbit : (1 <<< i) < 256 := one_shift_lt_256 i hi
  have h3 := eq_of_beq (checkBelow_spec _ _ (checkBelow_spec _ _ bitchk11_true x hx) i hi)
  rw [agree11 _ (xor_lt_256 x _ hx hbit), agree11 _ hx, agree11 _ hbit] at h3
  exact h3

/-- Table 11 is additive over XOR of bytes. -/
theorem add11 (x y : Nat) (hx : x < 256) (hy : y < 256) :
    times11 (x ^^^ y) = times11 x ^^^ times11 y :=
  additive_of_bitadd times11 rfl bit11 y hy x hx

theorem bitchk13_true : bitchk13 = true := rfl

/-- Table 13 is additive on single bits. -/
theorem bit13 : ∀ x, x < 256 → ∀ i, i < 8 →
    times13 (x ^^^ (1 <<< i)) = times13 x ^^^ times13 (1 <<< i) := by
  intro x hx i hi
  have hbit : (1 <<< i) < 256 := one_shift_lt_256 i hi
  have h3 := eq_of_beq (checkBelow_spec _ _ (checkBelow_spec _ _ bitchk13_true x hx) i hi)
  rw [agree13 _ (xor_lt_256 x _ hx hbit), agree13 _ hx, agree13 _ hbit] at h3
  exact h3

/-- Table 13 is additive over XOR of bytes. -/
theorem add13 (x y : Nat) (hx : x < 256) (hy : y < 256) :
    times13 (x ^^^ y) = times13 x ^^^ times13 y :=
  additive_of_bitadd times13 rfl bit13 y hy x hx

theorem bitchk14_true : bitchk14 = true := rfl

/-- Table 14 is additive on single bits. -/
theorem bit14 : ∀ x, x < 256 → ∀ i, i < 8 →
    times14 (x ^^^ (1 <<< i)) = times14 x ^^^ times14 (1 <<< i) := by
  intro x hx i hi
  have hbit : (1 <<< i) < 256 := one_shift_lt_256 i hi
  have h3 := eq_of_beq (checkBelow_spec _ _ (checkBelow_spec _ _ bitchk14_true x hx) i hi)
  rw [agree14 _ (xor_lt_256 x _ hx hbit), agree14 _ hx, agree14 _ hbit] at h3
  exact h3

/-- Table 14 is additive over XOR of bytes. -/
theorem add14 (x y : Nat) (hx : x < 256) (hy : y < 256) :
    times14 (x ^^^ y) = times14 x ^^^ times14 y :=
  additive_of_bitadd times14 rfl bit14 y hy x hx

theorem sbinvchk_true : sbinvchk = true := rfl

/-- The inverse S-box undoes the S-box on every byte. -/
theorem sbinv (x : Nat) (hx : x < 256) : invsbox (sbox x) = x :=
  eq_of_beq (checkBelow_spec _ _ sbinvchk_true x hx)

theorem compchk00_true : compchk00 = true := rfl

/-- Inverse-diffusion row 0 composed with forward column 0 on one source byte. -/
theorem comp00 (x : Nat) (hx : x < 256) : ((times14 (times2 x) ^^^ times11 (x)) ^^^ times13 (x)) ^^^ times9 (times3 x) = x := by
  have h3 := eq_of_beq (checkBelow_spec _ _ compchk00_true x hx)
  rw [agree2 _ hx, agree14 _ (times2_lt x), agree11 _ hx, agree13 _ hx, agree3 _ hx, agree9 _ (times3_lt x)] at h3
  exact h3

theorem compchk01_true : compchk01 = true := rfl

/-- Inverse-diffusion row 0 composed with forward column 1 on one source byte. -/
theorem comp01 (x : Nat) (hx : x < 256) : ((times14 (times3 x) ^^^ times11 (times2 x)) ^^^ times13 (x)) ^^^ times9 (x) = 0 := by
  have h3 := eq_of_beq (checkBelow_spec _ _ compchk01_true x hx)
  rw [agree3 _ hx, agree14 _ (times3_lt x), agree2 _ hx, agree11 _ (times2_lt x), agree13 _ hx, agree9 _ hx] at h3
  exact h3

theorem compchk02_true : compchk02 = true := rfl

/-- Inverse-diffusion row 0 composed with forward column 2 on one source byte. -/
theorem comp02 (x : Nat) (hx : x < 256) : ((times14 (x) ^^^ times11 (times3 x)) ^^^ times13 (times2 x)) ^^^ times9 (x) = 0 := by
  have h3 := eq_of_beq (checkBelow_spec _ _ compchk02_true x hx)
  rw [agree14 _ hx, agree3 _ hx, agree11 _ (times3_lt x), agree2 _ hx, agree13 _ (times2_lt x), agree9 _ hx] at h3
  exact h3

theorem compchk03_true : compchk03 = true := rfl

/-- Inverse-diffusion row 0 composed with forward column 3 on one source byte. -/
theorem comp03 (x : Nat) (hx : x < 256) : ((times14 (x) ^^^ times11 (x)) ^^^ times13 (times3 x)) ^^^ times9 (times2 x) = 0 := by
  have h3 := eq_of_beq (checkBelow_spec _ _ compchk03_true x hx)
  rw [agree14 _ hx, agree11 _ hx, agree3 _ hx, agree13 _ (times3_lt x), agree2 _ hx, agree9 _ (times2_lt x)] at h3
  exact h3

theorem compchk10_true : compchk10 = true := rfl

/-- Inverse-diffusion row 1 composed with forward column 0 on one source byte. -/
theorem comp10 (x : Nat) (hx : x < 256) : ((times9 (times2 x) ^^^ times14 (x)) ^^^ times11 (x)) ^^^ times13 (times3 x) = 0 := by
  have h3 := eq_of_beq (checkBelow_spec _ _ compchk10_true x hx)
  rw [agree2 _ hx, agree9 _ (times2_lt x), agree14 _ hx, agree11 _ hx, agree3 _ hx, agree13 _ (times3_lt x)] at h3
  exact h3

theorem compchk11_true : compchk11 = true := rfl

/-- Inverse-diffusion row 1 composed with forward column 1 on one source byte. -/
theorem comp11 (x : Nat) (hx : x < 256) : ((times9 (times3 x) ^^^ times14 (times2 x)) ^^^ times11 (x)) ^^^ times13 (x) = x := by
  have h3 := eq_of_beq (checkBelow_spec _ _ compchk11_true x hx)
  rw [agree3 _ hx, agree9 _ (times3_lt x), agree2 _ hx, agree14 _ (times2_lt x), agree11 _ hx, agree13 _ hx] at h3
  exact h3

theorem compchk12_true : compchk12 = true := rfl

/-- Inverse-diffusion row 1 composed with forward column 2 on one source byte. -/
theorem comp12 (x : Nat) (hx : x < 256) : ((times9 (x) ^^^ times14 (times3 x)) ^^^ times11 (times2 x)) ^^^ times13 (x) = 0 := by
  have h3 := eq_of_beq (checkBelow_spec _ _ compchk12_true x hx)
  rw [agree9 _ hx, agree3 _ hx, agree14 _ (times3_lt x), agree2 _ hx, agree11 _ (times2_lt x), agree13 _ hx] at h3
  exact h3

theorem compchk13_true : compchk13 = true := rfl

/-- Inverse-diffusion row 1 composed with forward column 3 on one source byte. -/
theorem comp13 (x : Nat) (hx : x < 256) : ((times9 (x) ^^^ times14 (x)) ^^^ times11 (times3 x)) ^^^ times13 (times2 x) = 0 := by
  have h3 := eq_of_beq (checkBelow_spec _ _ compchk13_true x hx)
  rw [agree9 _ hx, agree14 _ hx, agree3 _ hx, agree11 _ (times3_lt x), agree2 _ hx, agree13 _ (times2_lt x)] at h3
  exact h3

theorem compchk20_true : compchk20 = true := rfl

/-- Inverse-diffusion row 2 composed with forward column 0 on one source byte. -/
theorem comp20 (x : Nat) (hx : x < 256) : ((times13 (times2 x) ^^^ times9 (x)) ^^^ times14 (x)) ^^^ times11 (times3 x) = 0 := by
  have h3 := eq_of_beq (checkBelow_spec _ _ compchk20_true x hx)
  rw [agree2 _ hx, agree13 _ (times2_lt x), agree9 _ hx, agree14 _ hx, agree3 _ hx, agree11 _ (times3_lt x)] at h3
  exact h3

theorem compchk21_true : compchk21 = true := rfl

/-- Inverse-diffusion row 2 composed with forward column 1 on one source byte. -/
theorem comp21 (x : Nat) (hx : x < 256) : ((times13 (times3 x) ^^^ times9 (times2 x)) ^^^ times14 (x)) ^^^ times11 (x) = 0 := by
  have h3 := eq_of_beq (checkBelow_spec _ _ compchk21_true x hx)
  rw [agree3 _ hx, agree13 _ (times3_lt x), agree2 _ hx, agree9 _ (times2_lt x), agree14 _ hx, agree11 _ hx] at h3
  exact h3

theorem compchk22_true : compchk22 = true := rfl

/-- Inverse-diffusion row 2 composed with forward column 2 on one source byte. -/
theorem comp22 (x : Nat) (hx : x < 256) : ((times13 (x) ^^^ times9 (times3 x)) ^^^ times14 (times2 x)) ^^^ times11 (x) = x := by
  have h3 := eq_of_beq (checkBelow_spec _ _ compchk22_true x hx)
  rw [agree13 _ hx, agree3 _ hx, agree9 _ (times3_lt x), agree2 _ hx, agree14 _ (times2_lt x), agree11 _ hx] at h3
  exact h3

theorem compchk23_true : compchk23 = true := rfl

/-- Inverse-diffusion row 2 composed with forward column 3 on one source byte. -/
theorem comp23 (x : Nat) (hx : x < 256) : ((times13 (x) ^^^ times9 (x)) ^^^ times14 (times3 x)) ^^^ times11 (times2 x) = 0 := by
  have h3 := eq_of_beq (checkBelow_spec _ _ compchk23_true x hx)
  rw [agree13 _ hx, agree9 _ hx, agree3 _ hx, agree14 _ (times3_lt x), agree2 _ hx, agree11 _ (times2_lt x)] at h3
  exact h3

theorem compchk30_true : compchk30 = true := rfl

/-- Inverse-diffusion row 3 composed with forward column 0 on one source byte. -/
theorem comp30 (x : Nat) (hx : x < 256) : ((times11 (times2 x) ^^^ times13 (x)) ^^^ times9 (x)) ^^^ times14 (times3 x) = 0 := by
  have h3 := eq_of_beq (checkBelow_spec _ _ compchk30_true x hx)
  rw [agree2 _ hx, agree11 _ (times2_lt x), agree13 _ hx, agree9 _ hx, agree3 _ hx, agree14 _ (times3_lt x)] at h3
  exact h3

theorem compchk31_true : compchk31 = true := rfl

/-- Inverse-diffusion row 3 composed with forward column 1 on one source byte. -/
theorem comp31 (x : Nat) (hx : x < 256) : ((times11 (times3 x) ^^^ times13 (times2 x)) ^^^ times9 (x)) ^^^ times14 (x) = 0 := by
  have h3 := eq_of_beq (checkBelow_spec _ _ compchk31_true x hx)
  rw [agree3 _ hx, agree11 _ (times3_lt x), agree2 _ hx, agree13 _ (times2_lt x), agree9 _ hx, agree14 _ hx] at h3
  exact h3

theorem compchk32_true : compchk32 = true := rfl

/-- Inverse-diffusion row 3 composed with forward column 2 on one source byte. -/
theorem comp32 (x : Nat) (hx : x < 256) : ((times11 (x) ^^^ times13 (times3 x)) ^^^ times9 (times2 x)) ^^^ times14 (x) = 0 := by
  have h3 := eq_of_beq (checkBelow_spec _ _ compchk32_true x hx)
  rw [agree11 _ hx, agree3 _ hx, agree13 _ (times3_lt x), agree2 _ hx, agree9 _ (times2_lt x), agree14 _ hx] at h3
  exact h3

theorem compchk33_true : compchk33 = true := rfl

/-- Inverse-diffusion row 3 composed with forward column 3 on one source byte. -/
theorem comp33 (x : Nat) (hx : x < 256) : ((times11 (x) ^^^ times13 (x)) ^^^ times9 (times3 x)) ^^^ times14 (times2 x) = x := by
  have h3 := eq_of_beq (checkBelow_spec _ _ compchk33_true x hx)
  rw [agree11 _ hx, agree13 _ hx, agree3 _ hx, agree9 _ (times3_lt x), agree2 _ hx, agree14 _ (times2_lt x)] at h3
  exact h3

/-- Row 0 of the MixColumns round-trip: the inverse diffusion of the mixed
column returns source byte a. -/
theorem mc_inv_row0 (a b c d : Nat) (ha : a < 256) (hb : b < 256)
    (hc : c < 256) (hd : d < 256) :
    times14 (times2 a ^^^ times3 b ^^^ c ^^^ d) ^^^ times11 (a ^^^ times2 b ^^^ times3 c ^^^ d) ^^^ times13 (a ^^^ b ^^^ times2 c ^^^ times3 d) ^^^ times9 (times3 a ^^^ b ^^^ c ^^^ times2 d) = a := by
  have w0a : times2 a ^^^ times3 b < 256 := xor_lt_256 _ _ (times2_lt a) (times3_lt b)
  have w0b : (times2 a ^^^ times3 b) ^^^ c < 256 := xor_lt_256 _ _ w0a hc
  rw [add14 ((times2 a ^^^ times3 b) ^^^ c) (d) w0b hd]
  rw [add14 (times2 a ^^^ times3 b) (c) w0a hc]
  rw [add14 (times2 a) (times3 b) (times2_lt a) (times3_lt b)]
  have w1a : a ^^^ times2 b < 256 := xor_lt_256 _ _ ha (times2_lt b)
  have w1b : (a ^^^ times2 b) ^^^ times3 c < 256 := xor_lt_256 _ _ w1a (times3_lt c)
  rw [add11 ((a ^^^ times2 b) ^^^ times3 c) (d) w1b hd]
  rw [add11 (a ^^^ times2 b) (times3 c) w1a (times3_lt c)]
  rw [add11 (a) (times2 b) ha (times2_lt b)]
  have w2a : a ^^^ b < 256 := xor_lt_256 _ _ ha hb
  have w2b : (a ^^^ b) ^^^ times2 c < 256 := xor_lt_256 _ _ w2a (times2_lt c)
  rw [add13 ((a ^^^ b) ^^^ times2 c) (times3 d) w2b (times3_lt d)]
  rw [add13 (a ^^^ b) (times2 c) w2a (times2_lt c)]
  rw [add13 (a) (b) ha hb]
  have w3a : times3 a ^^^ b < 256 := xor_lt_256 _ _ (times3_lt a) hb
  have w3b : (times3 a ^^^ b) ^^^ c < 256 := xor_lt_256 _ _ w3a hc
  rw [add9 ((times3 a ^^^ b) ^^^ c) (times2 d) w3b (times2_lt d)]
  rw [add9 (times3 a ^^^ b) (c) w3a hc]
  rw [add9 (times3 a) (b) (times3_lt a) hb]
  rw [xor_regroup16 (times14 (times2 a)) (times14 (times3 b)) (times14 (c)) (times14 (d)) (times11 (a)) (times11 (times2 b)) (times11 (times3 c)) (times11 (d)) (times13 (a)) (times13 (b)) (times13 (times2 c)) (times13 (times3 d)) (times9 (times3 a)) (times9 (b)) (times9 (c)) (times9 (times2 d))]
  rw [comp00 a ha, comp01 b hb, comp02 c hc, comp03 d hd]
  simp

/-- Row 1 of the MixColumns round-trip: the inverse diffusion of the mixed
column returns source byte b. -/
theorem mc_inv_row1 (a b c d : Nat) (ha : a < 256) (hb : b < 256)
    (hc : c < 256) (hd : d < 256) :
    times9 (times2 a ^^^ times3 b ^^^ c ^^^ d) ^^^ times14 (a ^^^ times2 b ^^^ times3 c ^^^ d) ^^^ times11 (a ^^^ b ^^^ times2 c ^^^ times3 d) ^^^ times13 (times3 a ^^^ b ^^^ c ^^^ times2 d) = b := by
  have w0a : times2 a ^^^ times3 b < 256 := xor_lt_256 _ _ (times2_lt a) (times3_lt b)
  have w0b : (times2 a ^^^ times3 b) ^^^ c < 256 := xor_lt_256 _ _ w0a hc
  rw [add9 ((times2 a ^^^ times3 b) ^^^ c) (d) w0b hd]
  rw [add9 (times2 a ^^^ times3 b) (c) w0a hc]
  rw [add9 (times2 a) (times3 b) (times2_lt a) (times3_lt b)]
  have w1a : a ^^^ times2 b < 256 := xor_lt_256 _ _ ha (times2_lt b)
  have w1b : (a ^^^ times2 b) ^^^ times3 c < 256 := xor_lt_256 _ _ w1a (times3_lt c)
  rw [add14 ((a ^^^ times2 b) ^^^ times3 c) (d) w1b hd]
  rw [add14 (a ^^^ times2 b) (times3 c) w1a (times3_lt c)]
  rw [add14 (a) (times2 b) ha (times2_lt b)]
  have w2a : a ^^^ b < 256 := xor_lt_256 _ _ ha hb
  have w2b : (a ^^^ b) ^^^ times2 c < 256 := xor_lt_256 _ _ w2a (times2_lt c)
  rw [add11 ((a ^^^ b) ^^^ times2 c) (times3 d) w2b (times3_lt d)]
  rw [add11 (a ^^^ b) (times2 c) w2a (times2_lt c)]
  rw [add11 (a) (b) ha hb]
  have w3a : times3 a ^^^ b < 256 := xor_lt_256 _ _ (times3_lt a) hb
  have w3b : (times3 a ^^^ b) ^^^ c < 256 := xor_lt_256 _ _ w3a hc
  rw [add13 ((times3 a ^^^ b) ^^^ c) (times2 d) w3b (times2_lt d)]
  rw [add13 (times3 a ^^^ b) (c) w3a hc]
  rw [add13 (times3 a) (b) (times3_lt a) hb]
  rw [xor_regroup16 (times9 (times2 a)) (times9 (times3 b)) (times9 (c)) (times9 (d)) (times14 (a)) (times14 (times2 b)) (times14 (times3 c)) (times14 (d)) (times11 (a)) (times11 (b)) (times11 (times2 c)) (times11 (times3 d)) (times13 (times3 a)) (times13 (b)) (times13 (c)) (times13 (times2 d))]
  rw [comp10 a ha, comp11 b hb, comp12 c hc, comp13 d hd]
  simp

/-- Row 2 of the MixColumns round-trip: the inverse diffusion of the mixed
column returns source byte c. -/
theorem mc_inv_row2 (a b c d : Nat) (ha : a < 256) (hb : b < 256)
    (hc : c < 256) (hd : d < 256) :
    times13 (times2 a ^^^ times3 b ^^^ c ^^^ d) ^^^ times9 (a ^^^ times2 b ^^^ times3 c ^^^ d) ^^^ times14 (a ^^^ b ^^^ times2 c ^^^ times3 d) ^^^ times11 (times3 a ^^^ b ^^^ c ^^^ times2 d) = c := by
  have w0a : times2 a ^^^ times3 b < 256 := xor_lt_256 _ _ (times2_lt a) (times3_lt b)
  have w0b : (times2 a ^^^ times3 b) ^^^ c < 256 := xor_lt_256 _ _ w0a hc
  rw [add13 ((times2 a ^^^ times3 b) ^^^ c) (d) w0b hd]
  rw [add13 (times2 a ^^^ times3 b) (c) w0a hc]
  rw [add13 (times2 a) (times3 b) (times2_lt a) (times3_lt b)]
  have w1a : a ^^^ times2 b < 256 := xor_lt_256 _ _ ha (times2_lt b)
  have w1b : (a ^^^ times2 b) ^^^ times3 c < 256 := xor_lt_256 _ _ w1a (times3_lt c)
  rw [add9 ((a ^^^ times2 b) ^^^ times3 c) (d) w1b hd]
  rw [add9 (a ^^^ times2 b) (times3 c) w1a (times3_lt c)]
  rw [add9 (a) (times2 b) ha (times2_lt b)]
  have w2a : a ^^^ b < 256 := xor_lt_256 _ _ ha hb
  have w2b : (a ^^^ b) ^^^ times2 c < 256 := xor_lt_256 _ _ w2a (times2_lt c)
  rw [add14 ((a ^^^ b) ^^^ times2 c) (times3 d) w2b (times3_lt d)]
  rw [add14 (a ^^^ b) (times2 c) w2a (times2_lt c)]
  rw [add14 (a) (b) ha hb]
  have w3a : times3 a ^^^ b < 256 := xor_lt_256 _ _ (times3_lt a) hb
  have w3b : (times3 a ^^^ b) ^^^ c < 256 := xor_lt_256 _ _ w3a hc
  rw [add11 ((times3 a ^^^ b) ^^^ c) (times2 d) w3b (times2_lt d)]
  rw [add11 (times3 a ^^^ b) (c) w3a hc]
  rw [add11 (times3 a) (b) (times3_lt a) hb]
  rw [xor_regroup16 (times13 (times2 a)) (times13 (times3 b)) (times13 (c)) (times13 (d)) (times9 (a)) (times9 (times2 b)) (times9 (times3 c)) (times9 (d)) (times14 (a)) (times14 (b)) (times14 (times2 c)) (times14 (times3 d)) (times11 (times3 a)) (times11 (b)) (times11 (c)) (times11 (times2 d))]
  rw [comp20 a ha, comp21 b hb, comp22 c hc, comp23 d hd]
  simp

/-- Row 3 of the MixColumns round-trip: the inverse diffusion of the mixed
column returns source byte d. -/
theorem mc_inv_row3 (a b c d : Nat) (ha : a < 256) (hb : b < 256)
    (hc : c < 256) (hd : d < 256) :
    times11 (times2 a ^^^ times3 b ^^^ c ^^^ d) ^^^ times13 (a ^^^ times2 b ^^^ times3 c ^^^ d) ^^^ times9 (a ^^^ b ^^^ times2 c ^^^ times3 d) ^^^ times14 (times3 a ^^^ b ^^^ c ^^^ times2 d) = d := by
  have w0a : times2 a ^^^ times3 b < 256 := xor_lt_256 _ _ (times2_lt a) (times3_lt b)
  have w0b : (times2 a ^^^ times3 b) ^^^ c < 256 := xor_lt_256 _ _ w0a hc
  rw [add11 ((times2 a ^^^ times3 b) ^^^ c) (d) w0b hd]
  rw [add11 (times2 a ^^^ times3 b) (c) w0a hc]
  rw [add11 (times2 a) (times3 b) (times2_lt a) (times3_lt b)]
  have w1a : a ^^^ times2 b < 256 := xor_lt_256 _ _ ha (times2_lt b)
  have w1b : (a ^^^ times2 b) ^^^ times3 c < 256 := xor_lt_256 _ _ w1a (times3_lt c)
  rw [add13 ((a ^^^ times2 b) ^^^ times3 c) (d) w1b hd]
  rw [add13 (a ^^^ times2 b) (times3 c) w1a (times3_lt c)]
  rw [add13 (a) (times2 b) ha (times2_lt b)]
  have w2a : a ^^^ b < 256 := xor_lt_256 _ _ ha hb
  have w2b : (a ^^^ b) ^^^ times2 c < 256 := xor_lt_256 _ _ w2a (times2_lt c)
  rw [add9 ((a ^^^ b) ^^^ times2 c) (times3 d) w2b (times3_lt d)]
  rw [add9 (a ^^^ b) (times2 c) w2a (times2_lt c)]
  rw [add9 (a) (b) ha hb]
  have w3a : times3 a ^^^ b < 256 := xor_lt_256 _ _ (times3_lt a) hb
  have w3b : (times3 a ^^^ b) ^^^ c < 256 := xor_lt_256 _ _ w3a hc
  rw [add14 ((times3 a ^^^ b) ^^^ c) (times2 d) w3b (times2_lt d)]
  rw [add14 (times3 a ^^^ b) (c) w3a hc]
  rw [add14 (times3 a) (b) (times3_lt a) hb]
  rw [xor_regroup16 (times11 (times2 a)) (times11 (times3 b)) (times11 (c)) (times11 (d)) (times13 (a)) (times13 (times2 b)) (times13 (times3 c)) (times13 (d)) (times9 (a)) (times9 (b)) (times9 (times2 c)) (times9 (times3 d)) (times14 (times3 a)) (times14 (b)) (times14 (c)) (times14 (times2 d))]
  rw [comp30 a ha, comp31 b hb, comp32 c hc, comp33 d hd]
  simp

/-- invmixcolumns undoes mixcolumns on a byte state. -/
theorem invmixcolumns_mixcolumns (s : state_t) (h : allLtSt s) :
    invmixcolumns (mixcolumns s) = s := by
  obtain ⟨h0, h1, h2, h3, h4, h5, h6, h7, h8, h9, h10, h11, h12, h13, h14, h15⟩ := h
  simp only [invmixcolumns, mixcolumns]
  exact state_t_ext _ _
    (mc_inv_row0 s.b0 s.b1 s.b2 s.b3 h0 h1 h2 h3) (mc_inv_row1 s.b0 s.b1 s.b2 s.b3 h0 h1 h2 h3) (mc_inv_row2 s.b0 s.b1 s.b2 s.b3 h0 h1 h2 h3) (mc_inv_row3 s.b0 s.b1 s.b2 s.b3 h0 h1 h2 h3)
    (mc_inv_row0 s.b4 s.b5 s.b6 s.b7 h4 h5 h6 h7) (mc_inv_row1 s.b4 s.b5 s.b6 s.b7 h4 h5 h6 h7) (mc_inv_row2 s.b4 s.b5 s.b6 s.b7 h4 h5 h6 h7) (mc_inv_row3 s.b4 s.b5 s.b6 s.b7 h4 h5 h6 h7)
    (mc_inv_row0 s.b8 s.b9 s.b10 s.b11 h8 h9 h10 h11) (mc_inv_row1 s.b8 s.b9 s.b10 s.b11 h8 h9 h10 h11) (mc_inv_row2 s.b8 s.b9 s.b10 s.b11 h8 h9 h10 h11) (mc_inv_row3 s.b8 s.b9 s.b10 s.b11 h8 h9 h10 h11)
    (mc_inv_row0 s.b12 s.b13 s.b14 s.b15 h12 h13 h14 h15) (mc_inv_row1 s.b12 s.b13 s.b14 s.b15 h12 h13 h14 h15) (mc_inv_row2 s.b12 s.b13 s.b14 s.b15 h12 h13 h14 h15) (mc_inv_row3 s.b12 s.b13 s.b14 s.b15 h12 h13 h14 h15)

/-- invmcrc undoes mcrc on a byte state: the round constants cancel and the
inverse diffusion undoes the diffusion. -/
theorem invmcrc_mcrc (s : state_t) (r j : Nat) (h : allLtSt s) :
    invmcrc (mcrc s r j) r j = s := by
  obtain ⟨h0, h1, h2, h3, h4, h5, h6, h7, h8, h9, h10, h11, h12, h13, h14, h15⟩ := h
  simp only [invmcrc, mcrc, Nat.xor_cancel_right]
  exact state_t_ext _ _
    (mc_inv_row0 s.b0 s.b1 s.b2 s.b3 h0 h1 h2 h3) (mc_inv_row1 s.b0 s.b1 s.b2 s.b3 h0 h1 h2 h3) (mc_inv_row2 s.b0 s.b1 s.b2 s.b3 h0 h1 h2 h3) (mc_inv_row3 s.b0 s.b1 s.b2 s.b3 h0 h1 h2 h3)
    (mc_inv_row0 s.b4 s.b5 s.b6 s.b7 h4 h5 h6 h7) (mc_inv_row1 s.b4 s.b5 s.b6 s.b7 h4 h5 h6 h7) (mc_inv_row2 s.b4 s.b5 s.b6 s.b7 h4 h5 h6 h7) (mc_inv_row3 s.b4 s.b5 s.b6 s.b7 h4 h5 h6 h7)
    (mc_inv_row0 s.b8 s.b9 s.b10 s.b11 h8 h9 h10 h11) (mc_inv_row1 s.b8 s.b9 s.b10 s.b11 h8 h9 h10 h11) (mc_inv_row2 s.b8 s.b9 s.b10 s.b11 h8 h9 h10 h11) (mc_inv_row3 s.b8 s.b9 s.b10 s.b11 h8 h9 h10 h11)
    (mc_inv_row0 s.b12 s.b13 s.b14 s.b15 h12 h13 h14 h15) (mc_inv_row1 s.b12 s.b13 s.b14 s.b15 h12 h13 h14 h15) (mc_inv_row2 s.b12 s.b13 s.b14 s.b15 h12 h13 h14 h15) (mc_inv_row3 s.b12 s.b13 s.b14 s.b15 h12 h13 h14 h15)

/-- The cells of sbsr are S-box values, hence bytes. -/
theorem allLt_sbsr (s : state_t) : allLtSt (sbsr s) :=
  ⟨sbox_lt s.b0, sbox_lt s.b5, sbox_lt s.b10, sbox_lt s.b15, sbox_lt s.b4, sbox_lt s.b9, sbox_lt s.b14, sbox_lt s.b3, sbox_lt s.b8, sbox_lt s.b13, sbox_lt s.b2, sbox_lt s.b7, sbox_lt s.b12, sbox_lt s.b1, sbox_lt s.b6, sbox_lt s.b11⟩

/-- invsbsr undoes sbsr on a byte state: the two ShiftRows permutations are
mutually inverse and the S-boxes cancel cellwise. -/
theorem invsbsr_sbsr (s : state_t) (h : allLtSt s) : invsbsr (sbsr s) = s := by
  obtain ⟨h0, h1, h2, h3, h4, h5, h6, h7, h8, h9, h10, h11, h12, h13, h14, h15⟩ := h
  exact state_t_ext _ _
    (sbinv s.b0 h0) (sbinv s.b1 h1) (sbinv s.b2 h2) (sbinv s.b3 h3)
    (sbinv s.b4 h4) (sbinv s.b5 h5) (sbinv s.b6 h6) (sbinv s.b7 h7)
    (sbinv s.b8 h8) (sbinv s.b9 h9) (sbinv s.b10 h10) (sbinv s.b11 h11)
    (sbinv s.b12 h12) (sbinv s.b13 h13) (sbinv s.b14 h14) (sbinv s.b15 h15)

/-- One inverse AES round undoes one forward AES round on byte states. -/
theorem invaesenc_aesenc (s : state_t) (r j : Nat) (h : allLtSt s) :
    invaesenc (aesenc s r j) r j = s := by
  show invsbsr (invmcrc (mcrc (sbsr s) r j) r j) = s
  rw [invmcrc_mcrc (sbsr s) r j (allLt_sbsr s)]
  exact invsbsr_sbsr s h

/-- invmix512 undoes mix512: the two lane shuffles are mutually inverse. -/
theorem invmix512_mix512 (t : hkstate_t) : invmix512 (mix512 t) = t := rfl

/-- C5: for every byte state, round r < 10 and lane j < 4, invaesenc undoes
aesenc at the same (r, j); and invmix512 undoes mix512 on every Haraka
state. -/
theorem C5_round_roundtrip (s : state_t) (t : hkstate_t) (r j : Nat)
    (hs : allLtSt s) (hr : r < 10) (hj : j < 4) :
    invaesenc (aesenc s r j) r j = s ∧ invmix512 (mix512 t) = t :=
  ⟨invaesenc_aesenc s r j hs, invmix512_mix512 t⟩

theorem C5_round_roundtrip_witness :
    allLtSt ({ b0 := 0, b1 := 1, b2 := 2, b3 := 3, b4 := 4, b5 := 5, b6 := 6, b7 := 7, b8 := 8, b9 := 9, b10 := 250, b11 := 251, b12 := 252, b13 := 253, b14 := 254, b15 := 255 } : state_t) ∧
      invaesenc (aesenc ({ b0 := 0, b1 := 1, b2 := 2, b3 := 3, b4 := 4, b5 := 5, b6 := 6, b7 := 7, b8 := 8, b9 := 9, b10 := 250, b11 := 251, b12 := 252, b13 := 253, b14 := 254, b15 := 255 } : state_t) 3 1) 3 1 = ({ b0 := 0, b1 := 1, b2 := 2, b3 := 3, b4 := 4, b5 := 5, b6 := 6, b7 := 7, b8 := 8, b9 := 9, b10 := 250, b11 := 251, b12 := 252, b13 := 253, b14 := 254, b15 := 255 } : state_t) ∧
      invmix512 (mix512 zero_hk) = zero_hk := by
  refine ⟨by decide, ?_, ?_⟩
  · exact (C5_round_roundtrip ({ b0 := 0, b1 := 1, b2 := 2, b3 := 3, b4 := 4, b5 := 5, b6 := 6, b7 := 7, b8 := 8, b9 := 9, b10 := 250, b11 := 251, b12 := 252, b13 := 253, b14 := 254, b15 := 255 } : state_t) zero_hk 3 1 (by decide) (by decide) (by decide)).1
  · exact (C5_round_roundtrip ({ b0 := 0, b1 := 1, b2 := 2, b3 := 3, b4 := 4, b5 := 5, b6 := 6, b7 := 7, b8 := 8, b9 := 9, b10 := 250, b11 := 251, b12 := 252, b13 := 253, b14 := 254, b15 := 255 } : state_t) zero_hk 3 1 (by decide) (by decide) (by decide)).2

/-- C6: the table-driven inverse diffusion undoes the table-driven forward
diffusion across every full 4-byte column of a byte state. -/
theorem C6_diffusion_roundtrip (s : state_t) (h : allLtSt s) :
    invmixcolumns (mixcolumns s) = s :=
  invmixcolumns_mixcolumns s h

theorem C6_diffusion_roundtrip_witness :
    allLtSt ({ b0 := 0, b1 := 1, b2 := 2, b3 := 3, b4 := 4, b5 := 5, b6 := 6, b7 := 7, b8 := 8, b9 := 9, b10 := 250, b11 := 251, b12 := 252, b13 := 253, b14 := 254, b15 := 255 } : state_t) ∧
      invmixcolumns (mixcolumns ({ b0 := 0, b1 := 1, b2 := 2, b3 := 3, b4 := 4, b5 := 5, b6 := 6, b7 := 7, b8 := 8, b9 := 9, b10 := 250, b11 := 251, b12 := 252, b13 := 253, b14 := 254, b15 := 255 } : state_t)) = ({ b0 := 0, b1 := 1, b2 := 2, b3 := 3, b4 := 4, b5 := 5, b6 := 6, b7 := 7, b8 := 8, b9 := 9, b10 := 250, b11 := 251, b12 := 252, b13 := 253, b14 := 254, b15 := 255 } : state_t) :=
  ⟨by decide, C6_diffusion_roundtrip ({ b0 := 0, b1 := 1, b2 := 2, b3 := 3, b4 := 4, b5 := 5, b6 := 6, b7 := 7, b8 := 8, b9 := 9, b10 := 250, b11 := 251, b12 := 252, b13 := 253, b14 := 254, b15 := 255 } : state_t) (by decide)⟩
/-- Round 0 of the two Haraka-512 variants agrees: the AES-NI round with
the packed constant of `main` equals the byte-table round (even round: no mix). -/
theorem opt_round_eq_0 (s : hkstate_t) : opt_round rc_main 0 s = haraka_round 0 s := rfl

/-- Round 1 of the two Haraka-512 variants agrees: the AES-NI round with
the packed constant of `main` equals the byte-table round (odd round: aes then mix). -/
theorem opt_round_eq_1 (s : hkstate_t) : opt_round rc_main 1 s = haraka_round 1 s := rfl

/-- Round 2 of the two Haraka-512 variants agrees: the AES-NI round with
the packed constant of `main` equals the byte-table round (even round: no mix). -/
theorem opt_round_eq_2 (s : hkstate_t) : opt_round rc_main 2 s = haraka_round 2 s := rfl

/-- Round 3 of the two Haraka-512 variants agrees: the AES-NI round with
the packed constant of `main` equals the byte-table round (odd round: aes then mix). -/
theorem opt_round_eq_3 (s : hkstate_t) : opt_round rc_main 3 s = haraka_round 3 s := rfl

/-- Round 4 of the two Haraka-512 variants agrees: the AES-NI round with
the packed constant of `main` equals the byte-table round (even round: no mix). -/
theorem opt_round_eq_4 (s : hkstate_t) : opt_round rc_main 4 s = haraka_round 4 s := rfl

/-- Round 5 of the two Haraka-512 variants agrees: the AES-NI round with
the packed constant of `main` equals the byte-table round (odd round: aes then mix). -/
theorem opt_round_eq_5 (s : hkstate_t) : opt_round rc_main 5 s = haraka_round 5 s := rfl

/-- Round 6 of the two Haraka-512 variants agrees: the AES-NI round with
the packed constant of `main` equals the byte-table round (even round: no mix). -/
theorem opt_round_eq_6 (s : hkstate_t) : opt_round rc_main 6 s = haraka_round 6 s := rfl

/-- Round 7 of the two Haraka-512 variants agrees: the AES-NI round with
the packed constant of `main` equals the byte-table round (odd round: aes then mix). -/
theorem opt_round_eq_7 (s : hkstate_t) : opt_round rc_main 7 s = haraka_round 7 s := rfl

/-- Round 8 of the two Haraka-512 variants agrees: the AES-NI round with
the packed constant of `main` equals the byte-table round (even round: no mix). -/
theorem opt_round_eq_8 (s : hkstate_t) : opt_round rc_main 8 s = haraka_round 8 s := rfl

/-- Round 9 of the two Haraka-512 variants agrees: the AES-NI round with
the packed constant of `main` equals the byte-table round (odd round: aes then mix). -/
theorem opt_round_eq_9 (s : hkstate_t) : opt_round rc_main 9 s = haraka_round 9 s := rfl

/-- The two Haraka-512 permutations agree stage by stage. -/
theorem opt_rounds_eq_10 (s : hkstate_t) : opt_rounds rc_main 10 s = haraka_rounds 10 s := by
  have e0 : opt_rounds rc_main 0 s = haraka_rounds 0 s := rfl
  have e1 : opt_rounds rc_main 1 s = haraka_rounds 1 s :=
    (opt_round_eq_0 (opt_rounds rc_main 0 s)).trans (congrArg (haraka_round 0) e0)
  have e2 : opt_rounds rc_main 2 s = haraka_rounds 2 s :=
    (opt_round_eq_1 (opt_rounds rc_main 1 s)).trans (congrArg (haraka_round 1) e1)
  have e3 : opt_rounds rc_main 3 s = haraka_rounds 3 s :=
    (opt_round_eq_2 (opt_rounds rc_main 2 s)).trans (congrArg (haraka_round 2) e2)
  have e4 : opt_rounds rc_main 4 s = haraka_rounds 4 s :=
    (opt_round_eq_3 (opt_rounds rc_main 3 s)).trans (congrArg (haraka_round 3) e3)
  have e5 : opt_rounds rc_main 5 s = haraka_rounds 5 s :=
    (opt_round_eq_4 (opt_rounds rc_main 4 s)).trans (congrArg (haraka_round 4) e4)
  have e6 : opt_rounds rc_main 6 s = haraka_rounds 6 s :=
    (opt_round_eq_5 (opt_rounds rc_main 5 s)).trans (congrArg (haraka_round 5) e5)
  have e7 : opt_rounds rc_main 7 s = haraka_rounds 7 s :=
    (opt_round_eq_6 (opt_rounds rc_main 6 s)).trans (congrArg (haraka_round 6) e6)
  have e8 : opt_rounds rc_main 8 s = haraka_rounds 8 s :=
    (opt_round_eq_7 (opt_rounds rc_main 7 s)).trans (congrArg (haraka_round 7) e7)
  have e9 : opt_rounds rc_main 9 s = haraka_rounds 9 s :=
    (opt_round_eq_8 (opt_rounds rc_main 8 s)).trans (congrArg (haraka_round 8) e8)
  have e10 : opt_rounds rc_main 10 s = haraka_rounds 10 s :=
    (opt_round_eq_9 (opt_rounds rc_main 9 s)).trans (congrArg (haraka_round 9) e9)
  exact e10

/-- C1: for every 512-bit state, the hardware-accelerated permutation with
the round constants built in `main` and the portable byte-oriented
permutation produce identical outputs after all 10 rounds. -/
theorem C1_haraka_variants_agree (s : hkstate_t) :
    haraka512pi_opt rc_main s = haraka512pi s :=
  opt_rounds_eq_10 s
